import Mathlib

/-!
# DoofiCoin front-end: a shallow embedding of the session shell, the login form
and the admin panels

React state is modelled by explicit state passing: a handler is a function from
the component state (and from the outcomes of the HTTP requests it awaits) to
the state once the handler has settled, together with the requests it issued,
the alerts it raised and the callbacks it invoked.
-/

namespace Dooficoin

/-! ## JavaScript values -/

/-- A JavaScript reference: `undefined`, `null`, or a value. -/
inductive JsRef (α : Type) where
  | undefined : JsRef α
  | null : JsRef α
  | val (a : α) : JsRef α
  deriving DecidableEq, Repr

/-- A number written as a decimal literal `mantissa × 10 ^ exp10`
(`0.05` is `⟨5, -2⟩`, `100` is `⟨100, 0⟩`). -/
structure JsNum where
  mantissa : Int
  exp10 : Int
  deriving DecidableEq, Repr

/-- Primitive JavaScript values, as they occur in form state and JSON payloads. -/
inductive JsVal where
  | undefined : JsVal
  | null : JsVal
  | bool (b : Bool) : JsVal
  | num (n : JsNum) : JsVal
  | str (s : String) : JsVal
  deriving DecidableEq, Repr

/-- An object literal: its keys in order with their values. -/
abbrev JsObject := List (String × JsVal)

/-- Truthiness of a primitive (`if (x)`, `x || y`, `x ? a : b`). -/
def JsVal.truthy : JsVal → Bool
  | .undefined => false
  | .null => false
  | .bool b => b
  | .num n => n.mantissa != 0
  | .str s => s != ""

/-- Truthiness of a reference to a string: only a non-empty string is truthy. -/
def JsRef.truthyStr : JsRef String → Bool
  | .val s => s != ""
  | _ => false

/-- Truthiness of a reference to an object: any object is truthy. -/
def JsRef.truthyObj {α : Type} : JsRef α → Bool
  | .val _ => true
  | _ => false

/-- Conversion of a string reference to a DOMString, as `localStorage.setItem`
does with its value argument. -/
def JsRef.toDOMString : JsRef String → String
  | .undefined => "undefined"
  | .null => "null"
  | .val s => s

/-! ## HTTP -/

/-- The outcome of `await fetch(...)` followed by `await response.json()`:
either `fetch` rejects with an exception carrying `message`, or a response with
an HTTP status arrives whose body decodes to `a` (`.ok a`) or makes
`response.json()` throw (`.error message`). -/
inductive Fetched (α : Type) where
  | failed (message : String) : Fetched α
  | response (status : Nat) (body : Except String α) : Fetched α

/-- The `response.ok` flag: the status is in the range 200 to 299. -/
def httpOk (status : Nat) : Bool := 200 ≤ status && status ≤ 299

/-- A request handed to `fetch`: method, URL, and the object given to
`JSON.stringify` for the body (`none` when the request has no body). -/
structure Request where
  method : String
  url : String
  body : Option JsObject
  deriving DecidableEq, Repr

/-! ## Browser local storage -/

/-- Local storage: the stored key/value pairs. -/
abbrev Storage := List (String × String)

/-- Models `localStorage.getItem(key)`: `none` stands for `null`. -/
def Storage.getItem (st : Storage) (key : String) : Option String :=
  (st.find? (fun kv => kv.1 == key)).map (fun kv => kv.2)

/-- Models `localStorage.removeItem(key)`. -/
def Storage.removeItem (st : Storage) (key : String) : Storage :=
  st.filter (fun kv => kv.1 != key)

/-- Models `localStorage.setItem(key, value)`. -/
def Storage.setItem (st : Storage) (key value : String) : Storage :=
  (key, value) :: st.removeItem key

/-! ## Session shell (`App.jsx`) -/

/-- The Player snapshot: an opaque JSON object to the client. -/
abbrev Player := JsObject

/-- State of the `App` component (lines 16-18) together with local storage. -/
structure AppState where
  player : JsRef Player
  activeTab : String
  token : JsRef String
  localStorage : Storage
  deriving DecidableEq, Repr

/-- The state on mount (lines 16-18): no player, tab `arena`, and the token read
from local storage. -/
def App.init (st : Storage) : AppState :=
  { player := .null
    activeTab := "arena"
    token := match st.getItem "token" with
      | some t => .val t
      | none => .null
    localStorage := st }

/-- The JSON body `{ player: ... }` of the profile and player endpoints. -/
structure PlayerPayload where
  player : JsRef Player
  deriving DecidableEq, Repr

/-- Models `handleLogin` of `App.jsx` (lines 49-53). -/
def App.handleLogin (s : AppState) (playerData : JsRef Player) (authToken : JsRef String) :
    AppState :=
  { s with
    player := playerData
    token := authToken
    localStorage := s.localStorage.setItem "token" authToken.toDOMString }

/-- Models `handleLogout` of `App.jsx` (lines 55-60). -/
def App.handleLogout (s : AppState) : AppState :=
  { s with
    player := .null
    token := .null
    localStorage := s.localStorage.removeItem "token"
    activeTab := "arena" }

/-- Models `handlePlayerUpdate` of `App.jsx` (lines 62-64). -/
def App.handlePlayerUpdate (s : AppState) (updatedPlayer : JsRef Player) : AppState :=
  { s with player := updatedPlayer }

/-- Models `fetchPlayerData` of `App.jsx` (lines 27-47), given the outcome of
`GET /api/profile`. -/
def App.fetchPlayerData (s : AppState) (o : Fetched PlayerPayload) : AppState :=
  match o with
  | .failed _ => App.handleLogout s
  | .response status body =>
    if httpOk status then
      match body with
      | .ok data => { s with player := data.player }
      | .error _ => App.handleLogout s
    else
      App.handleLogout s

/-- The effect of lines 20-25: the profile is fetched only when a token is held
and no player is loaded. -/
def App.validateOnLoad (s : AppState) (o : Fetched PlayerPayload) : AppState :=
  if s.token.truthyStr && !s.player.truthyObj then App.fetchPlayerData s o else s

/-- The logged-out shell state: no player, no token in memory or in storage, and
the default tab. -/
def AppState.loggedOut (s : AppState) : Prop :=
  s.player = .null ∧ s.token = .null ∧ s.localStorage.getItem "token" = none ∧
    s.activeTab = "arena"

/-! ## Login form (`LoginForm.jsx`) -/

/-- A row of `GET /api/users`. -/
structure User where
  id : Nat
  username : String
  email : String
  deriving DecidableEq, Repr

/-- The `{ username, email }` objects held in `loginData` and `registerData`. -/
structure Credentials where
  username : String
  email : String
  deriving DecidableEq, Repr

/-- State of the `LoginForm` component (lines 10-13). -/
structure LoginFormState where
  loginData : Credentials
  registerData : Credentials
  loading : Bool
  error : String
  deriving DecidableEq, Repr

/-- The state on mount (lines 10-13). -/
def LoginForm.init : LoginFormState :=
  { loginData := ⟨"", ""⟩, registerData := ⟨"", ""⟩, loading := false, error := "" }

/-- The `onChange` handler of the only input of the login tab, `login-username`
(lines 151-159): the typed text goes to `loginData.username`. -/
def LoginForm.typeLoginUsername (s : LoginFormState) (value : String) : LoginFormState :=
  { s with loginData := { s.loginData with username := value } }

/-- What a run of a login-form handler leaves behind: the component state, the
requests sent in order, and the arguments of each call of `onLogin`. -/
structure LoginRun where
  state : LoginFormState
  requests : List Request
  onLoginCalls : List (JsRef Player)
  deriving DecidableEq, Repr

/-- The outcomes of the three requests `handleLogin` may await. -/
structure LoginWorld where
  users : Fetched (List User)
  player : Fetched PlayerPayload
  create : Fetched PlayerPayload

/-- The object `{ user_id: id }` sent as body of the player creation. -/
def userIdBody (id : Nat) : JsObject := [("user_id", .num ⟨id, 0⟩)]

/-- The `catch`/`finally` path of both handlers (lines 59-64, 106-111). -/
def LoginForm.connectionError (s : LoginFormState) (reqs : List Request) : LoginRun :=
  ⟨{ s with error := "Erro de conexão", loading := false }, reqs, []⟩

/-- The test of `userData.find` (lines 25-27). -/
def LoginForm.matchesLogin (loginData : Credentials) (u : User) : Bool :=
  u.username == loginData.username || u.email == loginData.email

/-- Models `handleLogin` of `LoginForm.jsx` (lines 15-65). -/
def LoginForm.handleLogin (s : LoginFormState) (w : LoginWorld) : LoginRun :=
  let s1 : LoginFormState := { s with loading := true, error := "" }
  let reqUsers : Request := ⟨"GET", "/api/users", none⟩
  match w.users with
  | .failed _ => LoginForm.connectionError s1 [reqUsers]
  | .response _ (.error _) => LoginForm.connectionError s1 [reqUsers]
  | .response _ (.ok userData) =>
    match userData.find? (LoginForm.matchesLogin s.loginData) with
    | none =>
      ⟨{ s1 with error := "Usuário não encontrado", loading := false }, [reqUsers], []⟩
    | some user =>
      let reqPlayer : Request := ⟨"GET", "/api/game/player/" ++ toString user.id, none⟩
      match w.player with
      | .failed _ => LoginForm.connectionError s1 [reqUsers, reqPlayer]
      | .response status body =>
        if httpOk status then
          match body with
          | .error _ => LoginForm.connectionError s1 [reqUsers, reqPlayer]
          | .ok playerData =>
            ⟨{ s1 with loading := false }, [reqUsers, reqPlayer], [playerData.player]⟩
        else
          let reqCreate : Request :=
            ⟨"POST", "/api/game/player/create", some (userIdBody user.id)⟩
          match w.create with
          | .failed _ => LoginForm.connectionError s1 [reqUsers, reqPlayer, reqCreate]
          | .response cstatus cbody =>
            if httpOk cstatus then
              match cbody with
              | .error _ => LoginForm.connectionError s1 [reqUsers, reqPlayer, reqCreate]
              | .ok newPlayerData =>
                ⟨{ s1 with loading := false }, [reqUsers, reqPlayer, reqCreate],
                  [newPlayerData.player]⟩
            else
              ⟨{ s1 with error := "Erro ao criar jogador", loading := false },
                [reqUsers, reqPlayer, reqCreate], []⟩

/-- The JSON body of `POST /api/users`: the created user's `id` on success, an
`error` text on refusal. -/
structure UserPayload where
  id : Nat
  error : JsRef String
  deriving DecidableEq, Repr

/-- The outcomes of the two requests `handleRegister` may await. -/
structure RegisterWorld where
  user : Fetched UserPayload
  player : Fetched PlayerPayload

/-- Models `handleRegister` of `LoginForm.jsx` (lines 67-112). -/
def LoginForm.handleRegister (s : LoginFormState) (w : RegisterWorld) : LoginRun :=
  let s1 : LoginFormState := { s with loading := true, error := "" }
  let reqUser : Request :=
    ⟨"POST", "/api/users",
      some [("username", .str s.registerData.username), ("email", .str s.registerData.email)]⟩
  match w.user with
  | .failed _ => LoginForm.connectionError s1 [reqUser]
  | .response _ (.error _) => LoginForm.connectionError s1 [reqUser]
  | .response status (.ok userData) =>
    if httpOk status then
      let reqCreate : Request :=
        ⟨"POST", "/api/game/player/create", some (userIdBody userData.id)⟩
      match w.player with
      | .failed _ => LoginForm.connectionError s1 [reqUser, reqCreate]
      | .response pstatus pbody =>
        if httpOk pstatus then
          match pbody with
          | .error _ => LoginForm.connectionError s1 [reqUser, reqCreate]
          | .ok playerData =>
            ⟨{ s1 with loading := false }, [reqUser, reqCreate], [playerData.player]⟩
        else
          ⟨{ s1 with error := "Erro ao criar jogador", loading := false },
            [reqUser, reqCreate], []⟩
    else
      ⟨{ s1 with
          error := if userData.error.truthyStr then userData.error.toDOMString
            else "Erro ao criar usuário"
          loading := false }, [reqUser], []⟩

/-- The wiring `<LoginForm onLogin={handleLogin} />` (`App.jsx` line 67): the form
calls `onLogin(player)` with one argument (`LoginForm.jsx` lines 39, 54, 98), so
the second parameter `authToken` of the shell handler is `undefined`. -/
def App.onLogin (s : AppState) (playerArg : JsRef Player) : AppState :=
  App.handleLogin s playerArg .undefined

/-- The shell after a run of a login-form handler: each `onLogin` call in order. -/
def App.afterLoginRun (s : AppState) (r : LoginRun) : AppState :=
  r.onLoginCalls.foldl App.onLogin s

/-! ## Admin panels: what they share -/

/-- The JSON body of a refused mutation, `{ error: string }`; the body of an
accepted one is decoded and dropped. -/
structure ErrPayload where
  error : JsRef String
  deriving DecidableEq, Repr

/-- The JSON body of a paginated list: the rows and `total_pages`. -/
structure ListPayload where
  rows : List JsObject
  total_pages : Int
  deriving DecidableEq, Repr

/-- The message of the exception raised for a non-2xx mutation response:
`errData.error || 'HTTP error! status: <code>'`, or the decoder's own exception
when `response.json()` throws. -/
def failureMessage (status : Nat) (body : Except String ErrPayload) : String :=
  match body with
  | .error msg => msg
  | .ok errData =>
    if errData.error.truthyStr then errData.error.toDOMString
    else "HTTP error! status: " ++ toString status

/-- Truthiness of an entity id held as `null` or a number (`itemId ? a : b`). -/
def idTruthy : Option Int → Bool
  | some n => n != 0
  | none => false

/-- The `disabled` expression of the `Anterior` button of the six paginated
panels: `currentPage === 1 || loading`. -/
def anteriorDisabled (currentPage : Int) (loading : Bool) : Bool :=
  currentPage == 1 || loading

/-- The `disabled` expression of the `Próxima` button of the six paginated
panels: `currentPage === totalPages || loading`. -/
def proximaDisabled (currentPage totalPages : Int) (loading : Bool) : Bool :=
  currentPage == totalPages || loading

/-- The updater of the `Anterior` button: `prev => Math.max(1, prev - 1)`. -/
def anteriorPage (prev : Int) : Int := max 1 (prev - 1)

/-- The updater of the `Próxima` button:
`prev => Math.min(totalPages, prev + 1)`. -/
def proximaPage (totalPages prev : Int) : Int := min totalPages (prev + 1)

/-! ## Items, Monsters, Scenarios and Cards panels

The four components have the same shape; what differs is collected in a
`CrudPanel` record, transcribed from each file. -/

/-- The strings and object literals in which the four CRUD panels differ. -/
structure CrudPanel where
  /-- The resource URL, such as `/api/admin/items`. -/
  path : String
  /-- The literal given to `useState` for `editFormData`. -/
  initialForm : JsObject
  /-- The literal set by `handleCreateClick`. -/
  createForm : JsObject
  /-- The literal set by `handleCancelEdit`. -/
  cancelForm : JsObject
  /-- The alert after an accepted update. -/
  updatedAlert : String
  /-- The alert after an accepted creation. -/
  createdAlert : String
  /-- The alert text before the message of a failed update. -/
  updateFailed : String
  /-- The alert text before the message of a failed creation. -/
  createFailed : String
  /-- The alert after an accepted deletion. -/
  deletedAlert : String
  /-- The alert text before the message of a failed deletion. -/
  deleteFailed : String

/-- State of a CRUD panel (the `useState` calls at the top of each component). -/
structure PanelState where
  rows : List JsObject
  loading : Bool
  error : Option String
  currentPage : Int
  totalPages : Int
  searchTerm : String
  editing : Option Int
  editFormData : JsObject
  creatingNew : Bool
  deriving DecidableEq, Repr

/-- What a run of a panel handler leaves behind once every request it started
has settled: the state, the requests in order, and the alerts in order. -/
structure PanelRun where
  state : PanelState
  requests : List Request
  alerts : List String
  deriving DecidableEq, Repr

/-- The state on mount. -/
def CrudPanel.init (cfg : CrudPanel) : PanelState :=
  { rows := [], loading := true, error := none, currentPage := 1, totalPages := 1,
    searchTerm := "", editing := none, editFormData := cfg.initialForm, creatingNew := false }

/-- The list URL of `fetchItems`, `fetchMonsters`, `fetchScenarios`, `fetchCards`:
the template `<path>?page=${currentPage}&per_page=10&name=${searchTerm}`. -/
def CrudPanel.listUrl (cfg : CrudPanel) (currentPage : Int) (searchTerm : String) : String :=
  cfg.path ++ "?page=" ++ toString currentPage ++ "&per_page=10&name=" ++ searchTerm

/-- Models `fetchItems` and its three siblings, given the outcome of the list
request. -/
def CrudPanel.fetchList (cfg : CrudPanel) (s : PanelState) (o : Fetched ListPayload) :
    PanelRun :=
  let s1 : PanelState := { s with loading := true, error := none }
  let req : Request := ⟨"GET", cfg.listUrl s.currentPage s.searchTerm, none⟩
  match o with
  | .failed msg => ⟨{ s1 with error := some msg, loading := false }, [req], []⟩
  | .response status body =>
    if httpOk status then
      match body with
      | .error msg => ⟨{ s1 with error := some msg, loading := false }, [req], []⟩
      | .ok data =>
        ⟨{ s1 with rows := data.rows, totalPages := data.total_pages, loading := false },
          [req], []⟩
    else
      ⟨{ s1 with error := some ("HTTP error! status: " ++ toString status), loading := false },
        [req], []⟩

/-- Models `handleCreateClick`. -/
def CrudPanel.handleCreateClick (cfg : CrudPanel) (s : PanelState) : PanelState :=
  { s with creatingNew := true, editFormData := cfg.createForm }

/-- Models `handleCancelEdit`. -/
def CrudPanel.handleCancelEdit (cfg : CrudPanel) (s : PanelState) : PanelState :=
  { s with editing := none, creatingNew := false, editFormData := cfg.cancelForm }

/-- The `catch`/`finally` path of a mutation handler: the message goes to the
banner and to an alert, loading ends. -/
def CrudPanel.mutationFailed (s1 : PanelState) (req : Request) (label msg : String) : PanelRun :=
  ⟨{ s1 with error := some msg, loading := false }, [req], [label ++ msg]⟩

/-- Models `handleSave(id)`, given the outcome of the save request and of the
list request started after an accepted save. The call `fetchItems()` is not
awaited; the run is taken up to the moment that request has settled too. -/
def CrudPanel.handleSave (cfg : CrudPanel) (s : PanelState) (id : Option Int)
    (save : Fetched ErrPayload) (refetch : Fetched ListPayload) : PanelRun :=
  let s1 : PanelState := { s with loading := true, error := none }
  let req : Request :=
    if idTruthy id then ⟨"PUT", cfg.path ++ "/" ++ toString (id.getD 0), some s.editFormData⟩
    else ⟨"POST", cfg.path, some s.editFormData⟩
  let label := if idTruthy id then cfg.updateFailed else cfg.createFailed
  match save with
  | .failed msg => CrudPanel.mutationFailed s1 req label msg
  | .response status body =>
    if httpOk status then
      match body with
      | .error msg => CrudPanel.mutationFailed s1 req label msg
      | .ok _ =>
        let r := cfg.fetchList (cfg.handleCancelEdit s1) refetch
        ⟨r.state, req :: r.requests,
          [if idTruthy id then cfg.updatedAlert else cfg.createdAlert]⟩
    else
      CrudPanel.mutationFailed s1 req label (failureMessage status body)

/-- The form submit of `renderForm(data, isNew)`:
`handleSave(isNew ? null : editing)`. -/
def CrudPanel.submitForm (cfg : CrudPanel) (s : PanelState) (isNew : Bool)
    (save : Fetched ErrPayload) (refetch : Fetched ListPayload) : PanelRun :=
  cfg.handleSave s (if isNew then none else s.editing) save refetch

/-- Models `handleDelete(id)`, given the answer of `window.confirm`, the outcome
of the delete request and of the list request started after an accepted
deletion. -/
def CrudPanel.handleDelete (cfg : CrudPanel) (s : PanelState) (confirmed : Bool) (id : Int)
    (del : Fetched ErrPayload) (refetch : Fetched ListPayload) : PanelRun :=
  if !confirmed then ⟨s, [], []⟩
  else
    let s1 : PanelState := { s with loading := true }
    let req : Request := ⟨"DELETE", cfg.path ++ "/" ++ toString id, none⟩
    match del with
    | .failed msg => CrudPanel.mutationFailed s1 req cfg.deleteFailed msg
    | .response status body =>
      if httpOk status then
        let r := cfg.fetchList s1 refetch
        ⟨r.state, req :: r.requests, [cfg.deletedAlert]⟩
      else
        CrudPanel.mutationFailed s1 req cfg.deleteFailed (failureMessage status body)

/-- The literal given to `useState` for `editFormData` (`ItemsManagement.jsx` lines 12-17). -/
def ItemsManagement.initialForm : JsObject :=
  [("name", .str ""), ("description", .str ""), ("item_type", .str "weapon"),
   ("rarity", .str "common"), ("base_price", .str "0"), ("current_price", .str "0"),
   ("required_level", .num ⟨1, 0⟩), ("required_phase", .num ⟨1, 0⟩),
   ("is_tradeable", .bool true), ("is_sellable", .bool true), ("attributes", .str "\x7b\x7d"),
   ("drop_rate", .num ⟨1, -1⟩), ("max_stack", .num ⟨1, 0⟩), ("image_url", .str ""),
   ("is_active", .bool true)]

/-- The literal set by `handleCreateClick` (`ItemsManagement.jsx` lines 66-71). -/
def ItemsManagement.createForm : JsObject :=
  [("name", .str ""), ("description", .str ""), ("item_type", .str "weapon"),
   ("rarity", .str "common"), ("base_price", .str "0"), ("current_price", .str "0"),
   ("required_level", .num ⟨1, 0⟩), ("required_phase", .num ⟨1, 0⟩),
   ("is_tradeable", .bool true), ("is_sellable", .bool true), ("attributes", .str "\x7b\x7d"),
   ("drop_rate", .num ⟨1, -1⟩), ("max_stack", .num ⟨1, 0⟩), ("image_url", .str ""),
   ("is_active", .bool true)]

/-- The literal set by `handleCancelEdit` (`ItemsManagement.jsx` lines 77-82). -/
def ItemsManagement.cancelForm : JsObject :=
  [("name", .str ""), ("description", .str ""), ("item_type", .str "weapon"),
   ("rarity", .str "common"), ("base_price", .str "0"), ("current_price", .str "0"),
   ("required_level", .num ⟨1, 0⟩), ("required_phase", .num ⟨1, 0⟩),
   ("is_tradeable", .bool true), ("is_sellable", .bool true), ("attributes", .str "\x7b\x7d"),
   ("drop_rate", .num ⟨1, -1⟩), ("max_stack", .num ⟨1, 0⟩), ("image_url", .str ""),
   ("is_active", .bool true)]

/-- The literal given to `useState` for `editFormData` (`MonstersManagement.jsx` lines 12-16). -/
def MonstersManagement.initialForm : JsObject :=
  [("name", .str ""), ("description", .str ""), ("monster_type", .str "zombie"),
   ("health", .num ⟨100, 0⟩), ("attack", .num ⟨10, 0⟩), ("defense", .num ⟨5, 0⟩),
   ("speed", .num ⟨5, 0⟩), ("xp_reward", .num ⟨10, 0⟩),
   ("dooficoin_reward", .str "0.00000000000000000000000000000000001"), ("image_url", .str ""),
   ("is_active", .bool true), ("scenario_id", .null)]

/-- The literal set by `handleCreateClick` (`MonstersManagement.jsx` lines 62-66). -/
def MonstersManagement.createForm : JsObject :=
  [("name", .str ""), ("description", .str ""), ("monster_type", .str "zombie"),
   ("health", .num ⟨100, 0⟩), ("attack", .num ⟨10, 0⟩), ("defense", .num ⟨5, 0⟩),
   ("speed", .num ⟨5, 0⟩), ("xp_reward", .num ⟨10, 0⟩),
   ("dooficoin_reward", .str "0.00000000000000000000000000000000001"), ("image_url", .str ""),
   ("is_active", .bool true), ("scenario_id", .null)]

/-- The literal set by `handleCancelEdit` (`MonstersManagement.jsx` lines 72-76). -/
def MonstersManagement.cancelForm : JsObject :=
  [("name", .str ""), ("description", .str ""), ("monster_type", .str "zombie"),
   ("health", .num ⟨100, 0⟩), ("attack", .num ⟨10, 0⟩), ("defense", .num ⟨5, 0⟩),
   ("speed", .num ⟨5, 0⟩), ("xp_reward", .num ⟨10, 0⟩),
   ("dooficoin_reward", .str "0.00000000000000000000000000000000001"), ("image_url", .str ""),
   ("is_active", .bool true), ("scenario_id", .null)]

/-- The literal given to `useState` for `editFormData` (`ScenariosManagement.jsx` lines 12-17). -/
def ScenariosManagement.initialForm : JsObject :=
  [("name", .str ""), ("description", .str ""), ("country", .str ""), ("city", .str ""),
   ("location_name", .str ""), ("latitude", .str ""), ("longitude", .str ""),
   ("phase_number", .num ⟨1, 0⟩), ("scenario_type", .str "forest"),
   ("difficulty_level", .num ⟨1, 0⟩), ("initial_monsters", .num ⟨300, 0⟩),
   ("monster_increase_percentage", .num ⟨25, -2⟩), ("ambient_color", .str "#000000"),
   ("image_url", .str ""), ("is_active", .bool true)]

/-- The literal set by `handleCreateClick` (`ScenariosManagement.jsx` lines 63-68). -/
def ScenariosManagement.createForm : JsObject :=
  [("name", .str ""), ("description", .str ""), ("country", .str ""), ("city", .str ""),
   ("location_name", .str ""), ("latitude", .str ""), ("longitude", .str ""),
   ("phase_number", .num ⟨1, 0⟩), ("scenario_type", .str "forest"),
   ("difficulty_level", .num ⟨1, 0⟩), ("initial_monsters", .num ⟨300, 0⟩),
   ("monster_increase_percentage", .num ⟨25, -2⟩), ("ambient_color", .str "#000000"),
   ("image_url", .str ""), ("is_active", .bool true)]

/-- The literal set by `handleCancelEdit` (`ScenariosManagement.jsx` lines 74-79). -/
def ScenariosManagement.cancelForm : JsObject :=
  [("name", .str ""), ("description", .str ""), ("country", .str ""), ("city", .str ""),
   ("location_name", .str ""), ("latitude", .str ""), ("longitude", .str ""),
   ("phase_number", .num ⟨1, 0⟩), ("scenario_type", .str "forest"),
   ("difficulty_level", .num ⟨1, 0⟩), ("initial_monsters", .num ⟨300, 0⟩),
   ("monster_increase_percentage", .num ⟨25, -2⟩), ("ambient_color", .str "#000000"),
   ("image_url", .str ""), ("is_active", .bool true)]

/-- The literal given to `useState` for `editFormData` (`CardsManagement.jsx` lines 12-15). -/
def CardsManagement.initialForm : JsObject :=
  [("name", .str ""), ("description", .str ""), ("card_series", .str ""),
   ("card_number", .num ⟨1, 0⟩), ("rarity", .str "common"), ("available_in_phase", .num ⟨1, 0⟩),
   ("drop_rate", .num ⟨5, -2⟩), ("image_url", .str ""), ("background_color", .str "#FFFFFF"),
   ("is_active", .bool true)]

/-- The literal set by `handleCreateClick` (`CardsManagement.jsx` lines 60-63). -/
def CardsManagement.createForm : JsObject :=
  [("name", .str ""), ("description", .str ""), ("card_series", .str ""),
   ("card_number", .num ⟨1, 0⟩), ("rarity", .str "common"), ("available_in_phase", .num ⟨1, 0⟩),
   ("drop_rate", .num ⟨5, -2⟩), ("image_url", .str ""), ("background_color", .str "#FFFFFF"),
   ("is_active", .bool true)]

/-- The literal set by `handleCancelEdit` (`CardsManagement.jsx` lines 69-72). -/
def CardsManagement.cancelForm : JsObject :=
  [("name", .str ""), ("description", .str ""), ("card_series", .str ""),
   ("card_number", .num ⟨1, 0⟩), ("rarity", .str "common"), ("available_in_phase", .num ⟨1, 0⟩),
   ("drop_rate", .num ⟨5, -2⟩), ("image_url", .str ""), ("background_color", .str "#FFFFFF"),
   ("is_active", .bool true)]

/-- The literal given to `useState` for `editFormData` (`UsersManagement.jsx` lines 12-17). -/
def UsersManagement.initialForm : JsObject :=
  [("username", .str ""), ("email", .str ""), ("is_admin", .bool false),
   ("is_active", .bool false)]

/-- The literal set by `handleCancelEdit` (`UsersManagement.jsx` lines 60-65). -/
def UsersManagement.cancelForm : JsObject :=
  [("username", .str ""), ("email", .str ""), ("is_admin", .bool false),
   ("is_active", .bool false)]

/-- The differences of `ItemsManagement.jsx`. -/
def ItemsManagement.panel : CrudPanel :=
  { path := "/api/admin/items"
    initialForm := ItemsManagement.initialForm
    createForm := ItemsManagement.createForm
    cancelForm := ItemsManagement.cancelForm
    updatedAlert := "Item atualizado com sucesso!"
    createdAlert := "Item criado com sucesso!"
    updateFailed := "Erro ao atualizar item: "
    createFailed := "Erro ao criar item: "
    deletedAlert := "Item deletado com sucesso!"
    deleteFailed := "Erro ao deletar item: " }

/-- The differences of `MonstersManagement.jsx`. -/
def MonstersManagement.panel : CrudPanel :=
  { path := "/api/admin/monsters"
    initialForm := MonstersManagement.initialForm
    createForm := MonstersManagement.createForm
    cancelForm := MonstersManagement.cancelForm
    updatedAlert := "Monstro atualizado com sucesso!"
    createdAlert := "Monstro criado com sucesso!"
    updateFailed := "Erro ao atualizar monstro: "
    createFailed := "Erro ao criar monstro: "
    deletedAlert := "Monstro deletado com sucesso!"
    deleteFailed := "Erro ao deletar monstro: " }

/-- The differences of `ScenariosManagement.jsx`. -/
def ScenariosManagement.panel : CrudPanel :=
  { path := "/api/admin/scenarios"
    initialForm := ScenariosManagement.initialForm
    createForm := ScenariosManagement.createForm
    cancelForm := ScenariosManagement.cancelForm
    updatedAlert := "Cenário atualizado com sucesso!"
    createdAlert := "Cenário criado com sucesso!"
    updateFailed := "Erro ao atualizar cenário: "
    createFailed := "Erro ao criar cenário: "
    deletedAlert := "Cenário deletado com sucesso!"
    deleteFailed := "Erro ao deletar cenário: " }

/-- The differences of `CardsManagement.jsx`. -/
def CardsManagement.panel : CrudPanel :=
  { path := "/api/admin/cards"
    initialForm := CardsManagement.initialForm
    createForm := CardsManagement.createForm
    cancelForm := CardsManagement.cancelForm
    updatedAlert := "Carta atualizada com sucesso!"
    createdAlert := "Carta criada com sucesso!"
    updateFailed := "Erro ao atualizar carta: "
    createFailed := "Erro ao criar carta: "
    deletedAlert := "Carta deletada com sucesso!"
    deleteFailed := "Erro ao deletar carta: " }

/-- The four panels built on the shared create/update form. -/
def crudPanels : List CrudPanel :=
  [ItemsManagement.panel, MonstersManagement.panel, ScenariosManagement.panel,
   CardsManagement.panel]

/-! ## Users panel (`UsersManagement.jsx`) -/

/-- State of `UsersManagement` (lines 5-17). -/
structure UsersState where
  users : List JsObject
  loading : Bool
  error : Option String
  currentPage : Int
  totalPages : Int
  searchTerm : String
  editingUser : Option Int
  editFormData : JsObject
  deriving DecidableEq, Repr

/-- What a run of a users-panel handler leaves behind once settled. -/
structure UsersRun where
  state : UsersState
  requests : List Request
  alerts : List String
  deriving DecidableEq, Repr

/-- The state on mount (lines 5-17). -/
def UsersManagement.init : UsersState :=
  { users := [], loading := true, error := none, currentPage := 1, totalPages := 1,
    searchTerm := "", editingUser := none, editFormData := UsersManagement.initialForm }

/-- The list URL of `fetchUsers` (line 27). -/
def UsersManagement.usersUrl (currentPage : Int) (searchTerm : String) : String :=
  "/api/admin/users?page=" ++ toString currentPage ++ "&per_page=10&username=" ++ searchTerm

/-- Models `fetchUsers` (lines 23-46). -/
def UsersManagement.fetchUsers (s : UsersState) (o : Fetched ListPayload) : UsersRun :=
  let s1 : UsersState := { s with loading := true, error := none }
  let req : Request := ⟨"GET", UsersManagement.usersUrl s.currentPage s.searchTerm, none⟩
  match o with
  | .failed msg => ⟨{ s1 with error := some msg, loading := false }, [req], []⟩
  | .response status body =>
    if httpOk status then
      match body with
      | .error msg => ⟨{ s1 with error := some msg, loading := false }, [req], []⟩
      | .ok data =>
        ⟨{ s1 with users := data.rows, totalPages := data.total_pages, loading := false },
          [req], []⟩
    else
      ⟨{ s1 with error := some ("HTTP error! status: " ++ toString status), loading := false },
        [req], []⟩

/-- Models `handleCancelEdit` (lines 58-66). -/
def UsersManagement.handleCancelEdit (s : UsersState) : UsersState :=
  { s with editingUser := none, editFormData := UsersManagement.cancelForm }

/-- Models `handleSaveEdit(userId)` (lines 68-94), up to the moment the list
request started after an accepted update has settled. -/
def UsersManagement.handleSaveEdit (s : UsersState) (userId : Int)
    (save : Fetched ErrPayload) (refetch : Fetched ListPayload) : UsersRun :=
  let s1 : UsersState := { s with loading := true }
  let req : Request := ⟨"PUT", "/api/admin/users/" ++ toString userId, some s.editFormData⟩
  let failed (msg : String) : UsersRun :=
    ⟨{ s1 with error := some msg, loading := false }, [req],
      ["Erro ao atualizar usuário: " ++ msg]⟩
  match save with
  | .failed msg => failed msg
  | .response status body =>
    if httpOk status then
      match body with
      | .error msg => failed msg
      | .ok _ =>
        let r := UsersManagement.fetchUsers (UsersManagement.handleCancelEdit s1) refetch
        ⟨r.state, req :: r.requests, ["Usuário atualizado com sucesso!"]⟩
    else
      failed ("HTTP error! status: " ++ toString status)

/-! ## Security logs panel (`SecurityLogsManagement.jsx`) -/

/-- The list URL of `fetchLogs` (line 21). -/
def SecurityLogsManagement.logsUrl (currentPage : Int) (searchTerm filterType : String) :
    String :=
  "/api/admin/security-logs?page=" ++ toString currentPage ++ "&per_page=10&search=" ++
    searchTerm ++ "&type=" ++ filterType

/-! ## Pagination of the six paginated panels -/

/-- The pagination slice of the state of a paginated panel. -/
structure Pager where
  currentPage : Int
  totalPages : Int
  loading : Bool
  deriving DecidableEq, Repr

/-- What can happen to the pagination state. -/
inductive PagerEvent where
  /-- A click on `Anterior`. -/
  | anterior : PagerEvent
  /-- A click on `Próxima`. -/
  | proxima : PagerEvent
  /-- The list request resolves 2xx: `setTotalPages(data.total_pages)`. -/
  | listLoaded (total_pages : Int) : PagerEvent
  /-- The list request fails. -/
  | listFailed : PagerEvent
  /-- The search term (or log type) changes, which starts a list request. -/
  | search : PagerEvent
  deriving DecidableEq, Repr

/-- The pagination state on mount: page 1 of 1, first list request under way. -/
def Pager.init : Pager := ⟨1, 1, true⟩

/-- One event. A disabled button takes no click; a page change re-runs the
effect that fetches the list, which sets `loading`. -/
def Pager.step (s : Pager) : PagerEvent → Pager
  | .anterior =>
    if anteriorDisabled s.currentPage s.loading then s
    else { s with currentPage := anteriorPage s.currentPage
                  loading := anteriorPage s.currentPage != s.currentPage }
  | .proxima =>
    if proximaDisabled s.currentPage s.totalPages s.loading then s
    else { s with currentPage := proximaPage s.totalPages s.currentPage
                  loading := proximaPage s.totalPages s.currentPage != s.currentPage }
  | .listLoaded total_pages => { s with totalPages := total_pages, loading := false }
  | .listFailed => { s with loading := false }
  | .search => { s with loading := true }

/-- A sequence of events, from a given state. -/
def Pager.run (s : Pager) (events : List PagerEvent) : Pager :=
  events.foldl Pager.step s

/-- The page is within range: `1 ≤ currentPage ≤ totalPages`. -/
def Pager.inRange (s : Pager) : Prop := 1 ≤ s.currentPage ∧ s.currentPage ≤ s.totalPages

instance (s : Pager) : Decidable s.inRange :=
  inferInstanceAs (Decidable (1 ≤ s.currentPage ∧ s.currentPage ≤ s.totalPages))

/-- Every list response of the sequence reports at least as many pages as the
page shown when it arrives. -/
def Pager.coversPage : Pager → List PagerEvent → Bool
  | _, [] => true
  | s, .listLoaded n :: rest =>
    decide (s.currentPage ≤ n) && Pager.coversPage (s.step (.listLoaded n)) rest
  | s, e :: rest => Pager.coversPage (s.step e) rest

/-! ## AdSense panel (`AdSenseManagement.jsx`) -/

/-- Property read `o.key`: `undefined` when the key is absent. -/
def jsGet (o : JsObject) (key : String) : JsVal := (o.lookup key).getD .undefined

/-- The operator `a || b` on primitives. -/
def JsVal.orElse (a b : JsVal) : JsVal := if a.truthy then a else b

/-- State of `AdSenseManagement` (lines 5-19). -/
structure AdSenseState where
  config : JsRef JsObject
  adUnits : List JsObject
  loading : Bool
  error : Option String
  editingConfig : Bool
  configFormData : JsObject
  editingAdUnit : Option Int
  adUnitFormData : JsObject
  creatingNewAdUnit : Bool
  deriving DecidableEq, Repr

/-- What a run of an AdSense handler leaves behind once settled. -/
structure AdSenseRun where
  state : AdSenseState
  requests : List Request
  alerts : List String
  deriving DecidableEq, Repr

/-- The state on mount (lines 5-19). -/
def AdSenseManagement.init : AdSenseState :=
  { config := .null, adUnits := [], loading := true, error := none, editingConfig := false
    configFormData :=
      [("client_id", .str ""), ("client_secret", .str ""), ("redirect_uri", .str ""),
       ("ad_display_interval_minutes", .num ⟨10, 0⟩),
       ("ad_display_duration_seconds", .num ⟨30, 0⟩),
       ("fraud_detection_threshold", .num ⟨5, -1⟩), ("is_active", .bool false)]
    editingAdUnit := none
    adUnitFormData :=
      [("name", .str ""), ("ad_unit_id", .str ""), ("ad_format", .str "display"),
       ("is_active", .bool true)]
    creatingNewAdUnit := false }

/-- The second half of `fetchAdSenseData` (lines 52-66): the ad units request. -/
def AdSenseManagement.loadAdUnits (s2 : AdSenseState) (reqs : List Request)
    (unitsO : Fetched (List JsObject)) : AdSenseRun :=
  let reqUnits : Request := ⟨"GET", "/api/admin/adsense/ad-units", none⟩
  match unitsO with
  | .failed msg => ⟨{ s2 with error := some msg, loading := false }, reqs ++ [reqUnits], []⟩
  | .response status body =>
    if httpOk status then
      match body with
      | .error msg =>
        ⟨{ s2 with error := some msg, loading := false }, reqs ++ [reqUnits], []⟩
      | .ok adUnitsData =>
        ⟨{ s2 with adUnits := adUnitsData, loading := false }, reqs ++ [reqUnits], []⟩
    else
      ⟨{ s2 with error := some ("HTTP error! status: " ++ toString status), loading := false },
        reqs ++ [reqUnits], []⟩

/-- Models `fetchAdSenseData` (lines 27-67). -/
def AdSenseManagement.fetchAdSenseData (s : AdSenseState) (configO : Fetched JsObject)
    (unitsO : Fetched (List JsObject)) : AdSenseRun :=
  let s1 : AdSenseState := { s with loading := true, error := none }
  let reqConfig : Request := ⟨"GET", "/api/admin/adsense/config", none⟩
  match configO with
  | .failed msg => ⟨{ s1 with error := some msg, loading := false }, [reqConfig], []⟩
  | .response status body =>
    if httpOk status then
      match body with
      | .error msg => ⟨{ s1 with error := some msg, loading := false }, [reqConfig], []⟩
      | .ok configData =>
        AdSenseManagement.loadAdUnits
          { s1 with
            config := .val configData
            configFormData :=
              [("client_id", (jsGet configData "client_id").orElse (.str "")),
               ("client_secret", (jsGet configData "client_secret").orElse (.str "")),
               ("redirect_uri", (jsGet configData "redirect_uri").orElse (.str "")),
               ("ad_display_interval_minutes",
                 (jsGet configData "ad_display_interval_minutes").orElse (.num ⟨10, 0⟩)),
               ("ad_display_duration_seconds",
                 (jsGet configData "ad_display_duration_seconds").orElse (.num ⟨30, 0⟩)),
               ("fraud_detection_threshold",
                 (jsGet configData "fraud_detection_threshold").orElse (.num ⟨5, -1⟩)),
               ("is_active", jsGet configData "is_active")] }
          [reqConfig] unitsO
    else if status == 404 then
      AdSenseManagement.loadAdUnits { s1 with config := .null } [reqConfig] unitsO
    else
      ⟨{ s1 with error := some ("HTTP error! status: " ++ toString status), loading := false },
        [reqConfig], []⟩

/-- Models `handleDeleteAdUnit(adUnitId)` (lines 155-179), given the answer of
`window.confirm` and the outcomes of the delete request and of the two requests
of the reload started after an accepted deletion. -/
def AdSenseManagement.handleDeleteAdUnit (s : AdSenseState) (confirmed : Bool) (adUnitId : Int)
    (del : Fetched ErrPayload) (configO : Fetched JsObject)
    (unitsO : Fetched (List JsObject)) : AdSenseRun :=
  if !confirmed then ⟨s, [], []⟩
  else
    let s1 : AdSenseState := { s with loading := true }
    let req : Request :=
      ⟨"DELETE", "/api/admin/adsense/ad-units/" ++ toString adUnitId, none⟩
    let failed (msg : String) : AdSenseRun :=
      ⟨{ s1 with error := some msg, loading := false }, [req],
        ["Erro ao deletar unidade de anúncio: " ++ msg]⟩
    match del with
    | .failed msg => failed msg
    | .response status body =>
      if httpOk status then
        let r := AdSenseManagement.fetchAdSenseData s1 configO unitsO
        ⟨r.state, req :: r.requests, ["Unidade de anúncio deletada com sucesso!"]⟩
      else
        failed (failureMessage status body)

/-! ## Inventory panel (`Inventory.jsx`) -/

/-- An inventory entry: its id, the item, the quantity and the equipped flag. -/
structure InventoryEntry where
  id : Int
  item : JsObject
  quantity : Int
  is_equipped : Bool
  deriving DecidableEq, Repr

/-- State of `Inventory` (lines 5-9). -/
structure InventoryState where
  inventory : List InventoryEntry
  loading : Bool
  selectedCategory : String
  selectedRarity : String
  searchTerm : String
  deriving DecidableEq, Repr

/-- The JSON body of an accepted sale: the updated player and the price. -/
structure SellPayload where
  player : JsRef Player
  sale_price : String
  deriving DecidableEq, Repr

/-- What a run of an inventory handler leaves behind: the state, the requests,
the alerts and the arguments of each call of `onPlayerUpdate`. -/
structure InventoryRun where
  state : InventoryState
  requests : List Request
  alerts : List String
  onPlayerUpdateCalls : List (JsRef Player)
  deriving DecidableEq, Repr

/-- Models `sellItem(inventoryItemId)` (lines 77-98), given the answer of
`confirm` and the outcome of the sell request. -/
def Inventory.sellItem (s : InventoryState) (confirmed : Bool) (inventoryItemId : Int)
    (o : Fetched SellPayload) : InventoryRun :=
  if !confirmed then ⟨s, [], [], []⟩
  else
    let req : Request :=
      ⟨"POST", "/api/inventory/" ++ toString inventoryItemId ++ "/sell", none⟩
    match o with
    | .failed _ => ⟨s, [req], [], []⟩
    | .response status body =>
      if httpOk status then
        match body with
        | .error _ => ⟨s, [req], [], []⟩
        | .ok data =>
          ⟨{ s with inventory := s.inventory.filter (fun item => item.id != inventoryItemId) },
            [req], ["Item vendido por " ++ data.sale_price ++ " DOOF!"], [data.player]⟩
      else
        ⟨s, [req], [], []⟩

/-- Whether a response arrived and its status is 2xx. -/
def Fetched.is2xx {α : Type} : Fetched α → Bool
  | .failed _ => false
  | .response status _ => httpOk status

/-! ## Editing the forms of the admin panels -/

/-- Object spread with one key overridden, `{ ...o, [key]: v }`: the value of an
existing key is replaced in place, a new key is added at the end. -/
def setField : JsObject → String → JsVal → JsObject
  | [], key, v => [(key, v)]
  | (k, w) :: rest, key, v =>
    if k == key then (key, v) :: rest else (k, w) :: setField rest key v

/-- The object literal `{ k1: row.k1, ..., kn: row.kn }`. -/
def copyFields (keys : List String) (row : JsObject) : JsObject :=
  keys.map (fun k => (k, jsGet row k))

/-- The `onChange` handler of a text input of the shared form:
`setEditFormData({ ...data, [name]: e.target.value })`. -/
def CrudPanel.typeText (s : PanelState) (name value : String) : PanelState :=
  { s with editFormData := setField s.editFormData name (.str value) }

/-- Whether the creation form is mounted: `{creatingNew && renderForm(editFormData, true)}`. -/
def CrudPanel.createFormMounted (s : PanelState) : Bool := s.creatingNew

/-- Whether the edit form is mounted: `{editingItem && renderForm(editFormData)}`. -/
def CrudPanel.editFormMounted (s : PanelState) : Bool := idTruthy s.editing

/-- Models `handleEditClick(item)` of `ItemsManagement.jsx` (lines 52-62). The
row is given by its id, its primitive fields and the JSON text of its
`attributes` mapping (`none` when the row has none), so that
`JSON.stringify(item.attributes || {})` is that text. -/
def ItemsManagement.handleEditClick (s : PanelState) (id : Int) (item : JsObject)
    (attributes : Option String) : PanelState :=
  { s with
    editing := some id
    editFormData :=
      copyFields ["name", "description", "item_type", "rarity", "base_price", "current_price",
          "required_level", "required_phase", "is_tradeable", "is_sellable"] item ++
        [("attributes", .str (attributes.getD "\x7b\x7d"))] ++
        copyFields ["drop_rate", "max_stack", "image_url", "is_active"] item }

/-- Models `handleEditClick(monster)` of `MonstersManagement.jsx` (lines 50-58). -/
def MonstersManagement.handleEditClick (s : PanelState) (id : Int) (monster : JsObject) :
    PanelState :=
  { s with
    editing := some id
    editFormData :=
      copyFields ["name", "description", "monster_type", "health", "attack", "defense", "speed",
        "xp_reward", "dooficoin_reward", "image_url", "is_active", "scenario_id"] monster }

/-- Models `handleEditClick(scenario)` of `ScenariosManagement.jsx` (lines 51-59). -/
def ScenariosManagement.handleEditClick (s : PanelState) (id : Int) (scenario : JsObject) :
    PanelState :=
  { s with
    editing := some id
    editFormData :=
      copyFields ["name", "description", "country", "city", "location_name", "latitude",
        "longitude", "phase_number", "scenario_type", "difficulty_level", "initial_monsters",
        "monster_increase_percentage", "ambient_color", "image_url", "is_active"] scenario }

/-- Models `handleEditClick(card)` of `CardsManagement.jsx` (lines 49-56). -/
def CardsManagement.handleEditClick (s : PanelState) (id : Int) (card : JsObject) :
    PanelState :=
  { s with
    editing := some id
    editFormData :=
      copyFields ["name", "description", "card_series", "card_number", "rarity",
        "available_in_phase", "drop_rate", "image_url", "background_color", "is_active"] card }

/-- Models `handleEditClick(user)` of `UsersManagement.jsx` (lines 48-56). -/
def UsersManagement.handleEditClick (s : UsersState) (id : Int) (user : JsObject) :
    UsersState :=
  { s with
    editingUser := some id
    editFormData := copyFields ["username", "email", "is_admin", "is_active"] user }

/-! ## Further mutations of the admin panels -/

/-- Models `handleBanUnban(userId, action)` of `UsersManagement.jsx` (lines
96-123), given the answer of `window.confirm`, the outcome of the request and of
the list request started after an accepted one. -/
def UsersManagement.handleBanUnban (s : UsersState) (confirmed : Bool) (userId : Int)
    (action : String) (o : Fetched ErrPayload) (refetch : Fetched ListPayload) : UsersRun :=
  if !confirmed then ⟨s, [], []⟩
  else
    let s1 : UsersState := { s with loading := true }
    let req : Request :=
      ⟨"POST", "/api/admin/users/" ++ toString userId ++ "/" ++ action, none⟩
    let failed (msg : String) : UsersRun :=
      ⟨{ s1 with error := some msg, loading := false }, [req],
        ["Erro ao " ++ (if action == "ban" then "banir" else "desbanir") ++ " usuário: " ++
          msg]⟩
    match o with
    | .failed msg => failed msg
    | .response status body =>
      if httpOk status then
        match body with
        | .error msg => failed msg
        | .ok _ =>
          let r := UsersManagement.fetchUsers s1 refetch
          ⟨r.state, req :: r.requests,
            ["Usuário " ++ (if action == "ban" then "banido" else "desbanido") ++
              " com sucesso!"]⟩
      else
        failed ("HTTP error! status: " ++ toString status)

/-- The `catch`/`finally` path of the AdSense mutations. -/
def AdSenseManagement.mutationFailed (s1 : AdSenseState) (req : Request) (label msg : String) :
    AdSenseRun :=
  ⟨{ s1 with error := some msg, loading := false }, [req], [label ++ msg]⟩

/-- Models `handleSaveConfig` of `AdSenseManagement.jsx` (lines 69-95). -/
def AdSenseManagement.handleSaveConfig (s : AdSenseState) (save : Fetched ErrPayload)
    (configO : Fetched JsObject) (unitsO : Fetched (List JsObject)) : AdSenseRun :=
  let s1 : AdSenseState := { s with loading := true, error := none }
  let req : Request := ⟨"PUT", "/api/admin/adsense/config", some s.configFormData⟩
  let label := "Erro ao atualizar configuração: "
  match save with
  | .failed msg => AdSenseManagement.mutationFailed s1 req label msg
  | .response status body =>
    if httpOk status then
      match body with
      | .error msg => AdSenseManagement.mutationFailed s1 req label msg
      | .ok _ =>
        let r := AdSenseManagement.fetchAdSenseData { s1 with editingConfig := false }
          configO unitsO
        ⟨r.state, req :: r.requests, ["Configuração do AdSense atualizada com sucesso!"]⟩
    else
      AdSenseManagement.mutationFailed s1 req label (failureMessage status body)

/-- Models `handleCreateAdUnit` of `AdSenseManagement.jsx` (lines 97-124). -/
def AdSenseManagement.handleCreateAdUnit (s : AdSenseState) (save : Fetched ErrPayload)
    (configO : Fetched JsObject) (unitsO : Fetched (List JsObject)) : AdSenseRun :=
  let s1 : AdSenseState := { s with loading := true, error := none }
  let req : Request := ⟨"POST", "/api/admin/adsense/ad-units", some s.adUnitFormData⟩
  let label := "Erro ao criar unidade de anúncio: "
  match save with
  | .failed msg => AdSenseManagement.mutationFailed s1 req label msg
  | .response status body =>
    if httpOk status then
      match body with
      | .error msg => AdSenseManagement.mutationFailed s1 req label msg
      | .ok _ =>
        let r := AdSenseManagement.fetchAdSenseData
          { s1 with
            creatingNewAdUnit := false
            adUnitFormData :=
              [("name", .str ""), ("ad_unit_id", .str ""), ("ad_format", .str "display"),
               ("is_active", .bool true)] }
          configO unitsO
        ⟨r.state, req :: r.requests, ["Unidade de anúncio criada com sucesso!"]⟩
    else
      AdSenseManagement.mutationFailed s1 req label (failureMessage status body)

/-- Models `handleUpdateAdUnit(adUnitId)` of `AdSenseManagement.jsx` (lines
126-153). -/
def AdSenseManagement.handleUpdateAdUnit (s : AdSenseState) (adUnitId : Int)
    (save : Fetched ErrPayload) (configO : Fetched JsObject)
    (unitsO : Fetched (List JsObject)) : AdSenseRun :=
  let s1 : AdSenseState := { s with loading := true, error := none }
  let req : Request :=
    ⟨"PUT", "/api/admin/adsense/ad-units/" ++ toString adUnitId, some s.adUnitFormData⟩
  let label := "Erro ao atualizar unidade de anúncio: "
  match save with
  | .failed msg => AdSenseManagement.mutationFailed s1 req label msg
  | .response status body =>
    if httpOk status then
      match body with
      | .error msg => AdSenseManagement.mutationFailed s1 req label msg
      | .ok _ =>
        let r := AdSenseManagement.fetchAdSenseData
          { s1 with
            editingAdUnit := none
            adUnitFormData :=
              [("name", .str ""), ("ad_unit_id", .str ""), ("ad_format", .str "display"),
               ("is_active", .bool true)] }
          configO unitsO
        ⟨r.state, req :: r.requests, ["Unidade de anúncio atualizada com sucesso!"]⟩
    else
      AdSenseManagement.mutationFailed s1 req label (failureMessage status body)

/-! ## Settings panel (`AdminSettings.jsx`) -/

/-- State of `AdminSettings` (lines 5-31). -/
structure SettingsState where
  settings : JsRef JsObject
  loading : Bool
  error : Option String
  editFormData : JsObject
  deriving DecidableEq, Repr

/-- What a run of a settings handler leaves behind once settled. -/
structure SettingsRun where
  state : SettingsState
  requests : List Request
  alerts : List String
  deriving DecidableEq, Repr

/-- The state on mount (lines 5-31). -/
def AdminSettings.init : SettingsState :=
  { settings := .null, loading := true, error := none
    editFormData :=
      [("pvp_coin_percentage", .num ⟨20, -2⟩),
       ("self_kill_coin_reward", .str "0.00000000000001"),
       ("monster_kill_health_fill_count", .num ⟨100, 0⟩),
       ("monster_kill_power_fill_count", .num ⟨100, 0⟩),
       ("level_up_player_kill_count", .num ⟨90, 0⟩),
       ("level_up_monster_kill_count", .num ⟨500, 0⟩),
       ("initial_monsters_per_phase", .num ⟨300, 0⟩),
       ("monster_increase_per_phase_percentage", .num ⟨25, -2⟩),
       ("mining_initial_dooficoin", .str "0.0000000000000000000000000000000000101"),
       ("mining_time_double_threshold", .str "0.0000000000000000000000000000000000101"),
       ("mining_time_multiplier", .num ⟨2, 0⟩),
       ("ad_display_interval_minutes", .num ⟨10, 0⟩),
       ("ad_display_duration_seconds", .num ⟨30, 0⟩),
       ("fraud_detection_threshold", .num ⟨5, -1⟩),
       ("is_adsense_active", .bool false), ("is_pvp_active", .bool true),
       ("is_mining_active", .bool true), ("is_shop_active", .bool true),
       ("is_inventory_active", .bool true), ("is_scenarios_active", .bool true),
       ("is_leaderboard_active", .bool true), ("is_collectible_cards_active", .bool true)] }

/-- Models `fetchSettings` (lines 37-55). -/
def AdminSettings.fetchSettings (s : SettingsState) (o : Fetched JsObject) : SettingsRun :=
  let s1 : SettingsState := { s with loading := true, error := none }
  let req : Request := ⟨"GET", "/api/admin/settings", none⟩
  match o with
  | .failed msg => ⟨{ s1 with error := some msg, loading := false }, [req], []⟩
  | .response status body =>
    if httpOk status then
      match body with
      | .error msg => ⟨{ s1 with error := some msg, loading := false }, [req], []⟩
      | .ok data => ⟨{ s1 with settings := .val data, editFormData := data, loading := false },
          [req], []⟩
    else
      ⟨{ s1 with error := some ("HTTP error! status: " ++ toString status), loading := false },
        [req], []⟩

/-- The `onChange` handler of a text input of the settings form:
`setEditFormData({ ...editFormData, [name]: e.target.value })`. -/
def AdminSettings.typeText (s : SettingsState) (name value : String) : SettingsState :=
  { s with editFormData := setField s.editFormData name (.str value) }

/-- Models `handleSaveSettings` (lines 57-82), up to the moment the reload
started after an accepted save has settled. -/
def AdminSettings.handleSaveSettings (s : SettingsState) (save : Fetched ErrPayload)
    (reload : Fetched JsObject) : SettingsRun :=
  let s1 : SettingsState := { s with loading := true, error := none }
  let req : Request := ⟨"PUT", "/api/admin/settings", some s.editFormData⟩
  let failed (msg : String) : SettingsRun :=
    ⟨{ s1 with error := some msg, loading := false }, [req],
      ["Erro ao atualizar configurações: " ++ msg]⟩
  match save with
  | .failed msg => failed msg
  | .response status body =>
    if httpOk status then
      match body with
      | .error msg => failed msg
      | .ok _ =>
        let r := AdminSettings.fetchSettings s1 reload
        ⟨r.state, req :: r.requests, ["Configurações atualizadas com sucesso!"]⟩
    else
      failed (failureMessage status body)

/-- Whether a response arrived, its status is 2xx and its body decoded. -/
def Fetched.decoded2xx {α : Type} : Fetched α → Bool
  | .failed _ => false
  | .response status (.ok _) => httpOk status
  | .response _ (.error _) => false

/-- The object serialised as body of the first request of a run (the empty
object when there is none). -/
def firstBody (requests : List Request) : JsObject :=
  (requests.head?.bind (fun q => q.body)).getD []

/-! ## Mining panel (`Mining.jsx`) -/

/-- The mining status JSON as far as the countdown reads it: `is_mining`, and
`end_time` as the millisecond timestamp that `new Date(end_time)` denotes
(`none` when the field is absent, null or empty). -/
structure MiningSession where
  is_mining : Bool
  end_time : Option Int
  deriving DecidableEq, Repr

/-- The countdown `Math.max(0, Math.floor((endTime - now) / 1000))` of lines 19
and 47, with both times in milliseconds; `/` on `Int` rounds down for the
positive divisor 1000. -/
def Mining.remaining (endTime now : Int) : Int := max 0 ((endTime - now) / 1000)

/-- State of `Mining` (lines 5-8). -/
structure MiningState where
  miningStatus : Option MiningSession
  miningStats : JsRef JsObject
  loading : Bool
  timeRemaining : Int
  deriving DecidableEq, Repr

/-- The component together with what its effect (lines 10-29) has set up: the
`miningStatus` captured by the callback of the running interval, and how many
`GET /api/mining/status` requests the interval callback and the effect body
have issued so far. -/
structure MiningTrace where
  state : MiningState
  timerStatus : Option MiningSession
  timerFetches : Nat
  effectFetches : Nat
  deriving DecidableEq, Repr

/-- What can happen to the mining panel. -/
inductive MiningEvent where
  /-- The interval callback runs at time `now`. -/
  | tick (now : Int) : MiningEvent
  /-- A status request resolves 2xx with the body `data` at time `now`. -/
  | statusLoaded (data : MiningSession) (now : Int) : MiningEvent
  /-- A status request fails (non-2xx, or an exception). -/
  | statusFailed : MiningEvent
  /-- An accepted start or stop sets `miningStatus` to `data.session`. -/
  | sessionSet (session : Option MiningSession) : MiningEvent
  deriving DecidableEq, Repr

/-- The dependency of the effect, `miningStatus?.is_mining`: `none` stands for
`undefined`. -/
def Mining.dep (status : Option MiningSession) : Option Bool :=
  status.map (fun st => st.is_mining)

/-- The panel on mount: the effect has run once, so one status request is out and
the interval callback has captured the `null` status. -/
def Mining.mount : MiningTrace :=
  { state := { miningStatus := none, miningStats := .null, loading := true, timeRemaining := 0 }
    timerStatus := none
    timerFetches := 0
    effectFetches := 1 }

/-- The call `setMiningStatus(status)` and the re-render after it: when
`miningStatus?.is_mining` has changed, the effect runs again, which replaces the
interval by one whose callback sees the new status and issues a status
request. -/
def Mining.setMiningStatus (t : MiningTrace) (status : Option MiningSession) : MiningTrace :=
  if Mining.dep status = Mining.dep t.state.miningStatus then
    { t with state := { t.state with miningStatus := status } }
  else
    { t with
      state := { t.state with miningStatus := status }
      timerStatus := status
      effectFetches := t.effectFetches + 1 }

/-- One event of the mining panel. -/
def Mining.step (t : MiningTrace) : MiningEvent → MiningTrace
  | .tick now =>
    match t.timerStatus with
    | some ⟨true, some endTime⟩ =>
      { t with
        state := { t.state with timeRemaining := Mining.remaining endTime now }
        timerFetches :=
          if Mining.remaining endTime now = 0 then t.timerFetches + 1 else t.timerFetches }
    | _ => t
  | .statusLoaded data now =>
    let t1 := Mining.setMiningStatus t (some data)
    match data.end_time with
    | some endTime =>
      { t1 with
        state := { t1.state with timeRemaining := Mining.remaining endTime now
                                 loading := false } }
    | none => { t1 with state := { t1.state with loading := false } }
  | .statusFailed => { t with state := { t.state with loading := false } }
  | .sessionSet session => Mining.setMiningStatus t session

/-- A sequence of events. -/
def Mining.run (t : MiningTrace) (events : List MiningEvent) : MiningTrace :=
  events.foldl Mining.step t

/-- The `disabled` expression of the stop button (line 247): `timeRemaining > 0`. -/
def Mining.stopDisabled (s : MiningState) : Bool := decide (s.timeRemaining > 0)

/-- The start button (lines 266-272) has no `disabled` attribute. -/
def Mining.startDisabled (_ : MiningState) : Bool := false

/-! ## JavaScript numbers

A JavaScript number is an IEEE 754 binary64 value. The model covers the finite
values of the normal range, which is where the shop's prices and balances lie:
a value is `mant × 2 ^ exp` with `mant = 0` or `2 ^ 52 ≤ |mant| < 2 ^ 53`, and
every operation rounds its exact result to the nearest such value, ties to the
even mantissa. -/

/-- A finite binary64 value `mant × 2 ^ exp`. -/
structure F64 where
  mant : Int
  exp : Int
  deriving DecidableEq, Repr

/-- The number of binary digits of `n`, found in at most `fuel` halvings. -/
def bitLength : Nat → Nat → Nat
  | 0, _ => 0
  | fuel + 1, n => if n = 0 then 0 else bitLength fuel (n / 2) + 1

/-- Rounds the positive ratio `n / d` to a magnitude `(m, e)` with
`2 ^ 52 ≤ m < 2 ^ 53`, nearest to it, ties to even. -/
def F64.roundRatio (n d : Nat) : Nat × Int :=
  let e0 : Int := (bitLength 4096 n : Int) - (bitLength 4096 d : Int) - 53
  let num0 := if 0 ≤ e0 then n else n * 2 ^ (-e0).toNat
  let den0 := if 0 ≤ e0 then d * 2 ^ e0.toNat else d
  let high := decide (2 ^ 53 ≤ num0 / den0)
  let den := if high then den0 * 2 else den0
  let e := if high then e0 + 1 else e0
  let q := num0 / den
  let r := num0 % den
  let m := if 2 * r < den then q else if den < 2 * r then q + 1 else if q % 2 = 0 then q else q + 1
  if m = 2 ^ 53 then (2 ^ 52, e + 1) else (m, e)

/-- The binary64 value nearest to the signed ratio `n / d`. -/
def F64.ofRatio (n : Int) (d : Nat) : F64 :=
  if n = 0 then ⟨0, 0⟩
  else
    let me := F64.roundRatio n.natAbs d
    ⟨if n < 0 then -(me.1 : Int) else (me.1 : Int), me.2⟩

/-- The value of a numeric literal: the binary64 value nearest to the decimal. -/
def F64.ofDecimal (n : JsNum) : F64 :=
  if 0 ≤ n.exp10 then F64.ofRatio (n.mantissa * 10 ^ n.exp10.toNat) 1
  else F64.ofRatio n.mantissa (10 ^ (-n.exp10).toNat)

/-- The exact difference `a − b` as a multiple of `2 ^ min a.exp b.exp`. -/
def F64.exactDiff (a b : F64) : Int :=
  a.mant * 2 ^ (a.exp - min a.exp b.exp).toNat - b.mant * 2 ^ (b.exp - min a.exp b.exp).toNat

/-- The binary64 value nearest to the multiple `k × 2 ^ e`. -/
def F64.ofScaled (k e : Int) : F64 :=
  if 0 ≤ e then F64.ofRatio (k * 2 ^ e.toNat) 1 else F64.ofRatio k (2 ^ (-e).toNat)

/-- The operator `a - b` on numbers. -/
def F64.sub (a b : F64) : F64 := F64.ofScaled (F64.exactDiff a b) (min a.exp b.exp)

/-- The operator `a + b` on numbers. -/
def F64.add (a b : F64) : F64 := F64.sub a ⟨-b.mant, b.exp⟩

/-- The operator `a >= b` on numbers. -/
def F64.ge (a b : F64) : Bool := decide (0 ≤ F64.exactDiff a b)

/-- The operator `a < b` on numbers. -/
def F64.lt (a b : F64) : Bool := decide (F64.exactDiff a b < 0)

/-! ## Further binary64 operations -/

/-- The binary64 value of a whole number. -/
def F64.ofInt (k : Int) : F64 := F64.ofRatio k 1

/-- The operator `a * b` on numbers. -/
def F64.mul (a b : F64) : F64 := F64.ofScaled (a.mant * b.mant) (a.exp + b.exp)

/-- The operator `a / b` on numbers; `none` stands for the quotient by 0, which
is not a finite number. -/
def F64.div (a b : F64) : Option F64 :=
  if b.mant = 0 then none
  else
    let n : Int := if b.mant < 0 then -a.mant else a.mant
    let d : Nat := b.mant.natAbs
    let e : Int := a.exp - b.exp
    some (if 0 ≤ e then F64.ofRatio (n * 2 ^ e.toNat) d else F64.ofRatio n (d * 2 ^ (-e).toNat))

/-- Models `Math.max(a, b)` on finite numbers. -/
def F64.max (a b : F64) : F64 := if F64.ge a b then a else b

/-- Models `Math.min(a, b)` on finite numbers. -/
def F64.min (a b : F64) : F64 := if F64.ge b a then a else b

/-- The rational number a binary64 value denotes. -/
def F64.toRat (a : F64) : ℚ := (a.mant : ℚ) * (2 : ℚ) ^ a.exp

/-! ## Shop panel (`Shop.jsx`) -/

/-- An entry of the shop's catalogue, with the fields `buyItem` reads: the name,
the power (weapons only) and the price, each number as the literal written in
the source. -/
structure ShopItem where
  id : Nat
  name : String
  power : Option JsNum
  price : JsNum
  deriving DecidableEq, Repr

/-- The `weapons` literal (lines 12-17). -/
def Shop.weapons : List ShopItem :=
  [⟨1, "Espada Básica", some ⟨5, 0⟩, ⟨1, -7⟩⟩, ⟨2, "Machado de Guerra", some ⟨10, 0⟩, ⟨5, -7⟩⟩,
   ⟨3, "Adaga Envenenada", some ⟨15, 0⟩, ⟨1, -6⟩⟩, ⟨4, "Espada Lendária", some ⟨25, 0⟩, ⟨1, -5⟩⟩]

/-- The `armors` literal (lines 19-24). -/
def Shop.armors : List ShopItem :=
  [⟨5, "Armadura de Couro", none, ⟨1, -7⟩⟩, ⟨6, "Cota de Malha", none, ⟨5, -7⟩⟩,
   ⟨7, "Armadura de Placas", none, ⟨1, -6⟩⟩, ⟨8, "Armadura Divina", none, ⟨1, -5⟩⟩]

/-- The `accessories` literal (lines 26-31). -/
def Shop.accessories : List ShopItem :=
  [⟨9, "Anel da Sorte", none, ⟨2, -7⟩⟩, ⟨10, "Amuleto de Vida", none, ⟨5, -7⟩⟩,
   ⟨11, "Colar de Mana", none, ⟨1, -6⟩⟩, ⟨12, "Coroa do Rei", none, ⟨2, -5⟩⟩]

/-- The `player` prop as the shop reads it: the numbers held in
`dooficoin_balance` and in `power`, and the other fields. -/
structure ShopPlayer where
  dooficoin_balance : F64
  power : F64
  rest : JsObject
  deriving DecidableEq, Repr

/-- State of `Shop` (line 9). -/
structure ShopState where
  loading : Bool
  deriving DecidableEq, Repr

/-- What a purchase leaves behind once its timeout has fired. -/
structure ShopRun where
  state : ShopState
  alerts : List String
  onPlayerUpdateCalls : List ShopPlayer
  deriving DecidableEq, Repr

/-- The state between the click and the timeout: `setLoading(true)` (line 34). -/
def Shop.pending (s : ShopState) : ShopState := { s with loading := true }

/-- The `disabled` expression of a buy button (line 86):
`loading || player.dooficoin_balance < item.price`. -/
def Shop.buyDisabled (s : ShopState) (player : ShopPlayer) (item : ShopItem) : Bool :=
  s.loading || F64.lt player.dooficoin_balance (F64.ofDecimal item.price)

/-- Models `buyItem(item)` (lines 33-61) for the `player` prop of the render in
which the button was clicked. -/
def Shop.buyItem (s : ShopState) (player : ShopPlayer) (item : ShopItem) : ShopRun :=
  let s1 := Shop.pending s
  if F64.ge player.dooficoin_balance (F64.ofDecimal item.price) then
    let updatedPlayer : ShopPlayer :=
      { player with
        dooficoin_balance := F64.sub player.dooficoin_balance (F64.ofDecimal item.price)
        power := match item.power with
          | some p => if p.mantissa != 0 then F64.add player.power (F64.ofDecimal p)
              else player.power
          | none => player.power }
    ⟨{ s1 with loading := false }, ["Item " ++ item.name ++ " comprado com sucesso!"],
      [updatedPlayer]⟩
  else
    ⟨{ s1 with loading := false }, ["Saldo insuficiente para comprar este item!"], []⟩

/-! ## Mutating actions of the game panels

A handler of a game panel awaits one request. The component state seen while
that request is in flight is the one left by the `setState` calls made before
the first `await` (the `pending` state); everything after it is applied when
the handler settles. -/

/-- State of `GameArena` (lines 8-10). -/
structure ArenaState where
  monstersInPhase : Int
  currentPhase : Int
  loading : Bool
  deriving DecidableEq, Repr

/-- What a run of an arena handler leaves behind once settled. -/
structure ArenaRun where
  state : ArenaState
  requests : List Request
  onPlayerUpdateCalls : List (JsRef Player)
  deriving DecidableEq, Repr

/-- The state on mount (lines 8-10). -/
def GameArena.init : ArenaState := ⟨300, 1, false⟩

/-- The `disabled` expression of the three arena buttons (lines 147, 156, 165):
`loading`. -/
def GameArena.controlsDisabled (s : ArenaState) : Bool := s.loading

/-- The state while a request of `killMonster`, `selfEliminate` or `die` is in
flight: `setLoading(true)` has been called (lines 13, 40, 61). -/
def GameArena.pending (s : ArenaState) : ArenaState := { s with loading := true }

/-! ## Conversion to a number (`ToNumber`)

The remainder operator converts its operands to numbers: `undefined` becomes
`NaN`, `null` and `false` become 0, `true` becomes 1, and a text is read as a
numeric literal after trimming white space, the empty text being 0. -/

/-- Whether a character is white space or a line terminator of JavaScript. -/
def isJsSpace (c : Char) : Bool :=
  c.toNat == 9 || c.toNat == 10 || c.toNat == 11 || c.toNat == 12 || c.toNat == 13 ||
  c.toNat == 32 || c.toNat == 160 || c.toNat == 5760 ||
  (decide (8192 ≤ c.toNat) && decide (c.toNat ≤ 8202)) ||
  c.toNat == 8232 || c.toNat == 8233 || c.toNat == 8239 || c.toNat == 8287 ||
  c.toNat == 12288 || c.toNat == 65279

/-- The value of a digit in the given base, letters in either case. -/
def digitValue (base : Nat) (c : Char) : Option Nat :=
  let v : Option Nat :=
    if 48 ≤ c.toNat ∧ c.toNat ≤ 57 then some (c.toNat - 48)
    else if 97 ≤ c.toNat ∧ c.toNat ≤ 122 then some (c.toNat - 87)
    else if 65 ≤ c.toNat ∧ c.toNat ≤ 90 then some (c.toNat - 55)
    else none
  match v with
  | some d => if d < base then some d else none
  | none => none

/-- The value of a run of digits, continuing from `acc`; `none` when a
character is no digit of the base. -/
def digitsValue (base : Nat) : List Char → Nat → Option Nat
  | [], acc => some acc
  | c :: cs, acc =>
    match digitValue base c with
    | some d => digitsValue base cs (acc * base + d)
    | none => none

/-- The value of a non-empty run of digits. -/
def parseDigits (base : Nat) (cs : List Char) : Option Nat :=
  if cs.isEmpty then none else digitsValue base cs 0

/-- The exponent part `e`, `e+` or `e-` followed by digits, or nothing. -/
def parseExponent (cs : List Char) : Option Int :=
  match cs with
  | [] => some 0
  | e :: rest =>
    if e.toNat == 101 || e.toNat == 69 then
      match rest with
      | sign :: digits =>
        if sign.toNat == 43 then (parseDigits 10 digits).map (fun x => (x : Int))
        else if sign.toNat == 45 then (parseDigits 10 digits).map (fun x => -(x : Int))
        else (parseDigits 10 rest).map (fun x => (x : Int))
      | [] => none
    else none

/-- An unsigned decimal literal: digits, an optional fraction and an optional
exponent, with a digit before or after the point; the result is the mantissa and
the power of ten. -/
def parseUnsignedDecimal (cs : List Char) : Option (Nat × Int) :=
  let intPart := cs.takeWhile Char.isDigit
  let rest := cs.dropWhile Char.isDigit
  let fracPart := match rest with
    | c :: r => if c.toNat == 46 then r.takeWhile Char.isDigit else []
    | [] => []
  let rest2 := match rest with
    | c :: r => if c.toNat == 46 then r.dropWhile Char.isDigit else rest
    | [] => []
  if intPart.isEmpty && fracPart.isEmpty then none
  else
    match digitsValue 10 (intPart ++ fracPart) 0, parseExponent rest2 with
    | some mant, some e => some (mant, e - (fracPart.length : Int))
    | _, _ => none

/-- Models `StringToNumber` for a text whose value is finite: the decimal number
the text denotes after trimming; `none` stands for `NaN` and for the
infinities. A literal in base 16, 8 or 2 takes no sign. -/
def stringToNumber (s : String) : Option JsNum :=
  let cs := ((s.toList.dropWhile isJsSpace).reverse.dropWhile isJsSpace).reverse
  match cs with
  | [] => some ⟨0, 0⟩
  | c :: rest =>
    if c.toNat == 48 && (rest.head?.map (fun x => x.toNat == 120 || x.toNat == 88)) == some true
      then (parseDigits 16 rest.tail).map (fun n => ⟨(n : Int), 0⟩)
    else if c.toNat == 48 && (rest.head?.map (fun x => x.toNat == 111 || x.toNat == 79)) == some true
      then (parseDigits 8 rest.tail).map (fun n => ⟨(n : Int), 0⟩)
    else if c.toNat == 48 && (rest.head?.map (fun x => x.toNat == 98 || x.toNat == 66)) == some true
      then (parseDigits 2 rest.tail).map (fun n => ⟨(n : Int), 0⟩)
    else if c.toNat == 45 then
      (parseUnsignedDecimal rest).map (fun me => ⟨-(me.1 : Int), me.2⟩)
    else if c.toNat == 43 then
      (parseUnsignedDecimal rest).map (fun me => ⟨(me.1 : Int), me.2⟩)
    else (parseUnsignedDecimal cs).map (fun me => ⟨(me.1 : Int), me.2⟩)

/-- The binary64 value of a decimal number; `none` when it rounds to an
infinity (from 2 ^ 1024 - 2 ^ 970 on, written with small exponents), and 0 when
it is at most 2 ^ -1075 and so rounds to 0. -/
def JsNum.toF64 (n : JsNum) : Option F64 :=
  if n.mantissa = 0 then some ⟨0, 0⟩
  else if 0 ≤ n.exp10 then
    if (2 ^ 256) ^ 4 - (2 ^ 194) ^ 5 ≤ n.mantissa.natAbs * 10 ^ n.exp10.toNat then none
    else some (F64.ofDecimal n)
  else if ((2 ^ 256) ^ 4 - (2 ^ 194) ^ 5) * 10 ^ (-n.exp10).toNat ≤ n.mantissa.natAbs then none
  else if n.mantissa.natAbs * (2 ^ 215) ^ 5 ≤ 10 ^ (-n.exp10).toNat then some ⟨0, 0⟩
  else some (F64.ofDecimal n)

/-- Models `ToNumber` on a primitive; `none` stands for `NaN` and for the
infinities, whose remainder is `NaN`. -/
def JsVal.toNumber : JsVal → Option F64
  | .undefined => none
  | .null => some ⟨0, 0⟩
  | .bool b => some (if b then ⟨4503599627370496, -52⟩ else ⟨0, 0⟩)
  | .num n => n.toF64
  | .str s => (stringToNumber s).bind JsNum.toF64

/-- The whole number a binary64 value is, if it is one. -/
def F64.toInt? (a : F64) : Option Int :=
  if 0 ≤ a.exp then some (a.mant * 2 ^ a.exp.toNat)
  else if a.mant % 2 ^ (-a.exp).toNat = 0 then some (a.mant / 2 ^ (-a.exp).toNat)
  else none

/-- The kill count of a player snapshot as the remainder operator of
`killMonster` reads it (line 27): the field converted to a number. `none` when
the conversion gives `NaN`, an infinity or a number that is not whole, in which
case the remainder is not 0. -/
def monstersKilled (p : Player) : Option Int :=
  (jsGet p "monsters_killed").toNumber.bind F64.toInt?

/-- Models `killMonster` (lines 12-37) for the player with id `playerId`. A
response without a player makes `data.player.monsters_killed` throw after
`onPlayerUpdate` was called; a phase is completed when the kill count is a
multiple of `monstersInPhase`, which then grows by a quarter, rounded down. -/
def GameArena.killMonster (s : ArenaState) (playerId : Int) (o : Fetched PlayerPayload) :
    ArenaRun :=
  let s1 := GameArena.pending s
  let req : Request :=
    ⟨"POST", "/api/game/player/" ++ toString playerId ++ "/kill-monster", none⟩
  match o with
  | .failed _ => ⟨{ s1 with loading := false }, [req], []⟩
  | .response status body =>
    if httpOk status then
      match body with
      | .error _ => ⟨{ s1 with loading := false }, [req], []⟩
      | .ok data =>
        match data.player with
        | .val p =>
          if s.monstersInPhase ≠ 0 ∧
              (monstersKilled p).map (fun k => Int.tmod k s.monstersInPhase) = some 0 then
            ⟨{ s1 with currentPhase := s.currentPhase + 1
                       monstersInPhase := s.monstersInPhase * 5 / 4
                       loading := false }, [req], [data.player]⟩
          else
            ⟨{ s1 with loading := false }, [req], [data.player]⟩
        | _ => ⟨{ s1 with loading := false }, [req], [data.player]⟩
    else
      ⟨{ s1 with loading := false }, [req], []⟩

/-- Models `selfEliminate` (lines 39-58) and `die` (lines 60-79), which differ in
the last segment of the URL only. -/
def GameArena.simpleAction (action : String) (s : ArenaState) (playerId : Int)
    (o : Fetched PlayerPayload) : ArenaRun :=
  let s1 := GameArena.pending s
  let req : Request :=
    ⟨"POST", "/api/game/player/" ++ toString playerId ++ "/" ++ action, none⟩
  match o with
  | .failed _ => ⟨{ s1 with loading := false }, [req], []⟩
  | .response status body =>
    if httpOk status then
      match body with
      | .error _ => ⟨{ s1 with loading := false }, [req], []⟩
      | .ok data => ⟨{ s1 with loading := false }, [req], [data.player]⟩
    else
      ⟨{ s1 with loading := false }, [req], []⟩

/-- Models `selfEliminate` (lines 39-58). -/
def GameArena.selfEliminate : ArenaState → Int → Fetched PlayerPayload → ArenaRun :=
  GameArena.simpleAction "self-eliminate"

/-- Models `die` (lines 60-79). -/
def GameArena.die : ArenaState → Int → Fetched PlayerPayload → ArenaRun :=
  GameArena.simpleAction "die"

/-- The JSON body of an accepted mining start or stop, or of a refused one: the
session, the player, the amount of the reward (`none` when the body has no
`reward` object, so that reading `data.reward.amount` throws) and the error
text. -/
structure MiningPayload where
  session : Option MiningSession
  player : JsRef Player
  rewardAmount : Option (JsRef String)
  error : JsRef String
  deriving DecidableEq, Repr

/-- What a run of a mining handler leaves behind once settled. -/
structure MiningRun where
  state : MiningState
  requests : List Request
  alerts : List String
  onPlayerUpdateCalls : List (JsRef Player)
  deriving DecidableEq, Repr

/-- The state while the request of `startMining` or `stopMining` is in flight:
neither handler calls a state setter before its `await` (lines 76-84,
100-108). -/
def Mining.pending (s : MiningState) : MiningState := s

/-- Models `startMining` (lines 76-98). -/
def Mining.startMining (s : MiningState) (o : Fetched MiningPayload) : MiningRun :=
  let req : Request := ⟨"POST", "/api/mining/start", none⟩
  match o with
  | .failed _ => ⟨s, [req], ["Erro ao iniciar mineração"], []⟩
  | .response status body =>
    match body with
    | .error _ => ⟨s, [req], ["Erro ao iniciar mineração"], []⟩
    | .ok data =>
      if httpOk status then
        ⟨{ s with miningStatus := data.session }, [req], [], [data.player]⟩
      else
        ⟨s, [req], ["Erro: " ++ data.error.toDOMString], []⟩

/-- Models `stopMining` (lines 100-124), given also the outcome of the statistics
request it starts when accepted. -/
def Mining.stopMining (s : MiningState) (o : Fetched MiningPayload)
    (statsO : Fetched JsObject) : MiningRun :=
  let req : Request := ⟨"POST", "/api/mining/stop", none⟩
  match o with
  | .failed _ => ⟨s, [req], ["Erro ao parar mineração"], []⟩
  | .response status body =>
    match body with
    | .error _ => ⟨s, [req], ["Erro ao parar mineração"], []⟩
    | .ok data =>
      if httpOk status then
        ⟨{ s with
            miningStatus := data.session
            miningStats := match statsO with
              | .response st (.ok stats) => if httpOk st then .val stats else s.miningStats
              | _ => s.miningStats },
          [req, ⟨"GET", "/api/mining/statistics", none⟩],
          [match data.rewardAmount with
            | some amount => "Mineração concluída! Você ganhou " ++ amount.toDOMString ++ " DOOF"
            | none => "Erro ao parar mineração"],
          [data.player]⟩
      else
        ⟨s, [req], ["Erro: " ++ data.error.toDOMString], []⟩

/-- The state while the request of `equipItem` or `sellItem` is in flight:
neither handler calls a state setter before its `await` (`Inventory.jsx` lines
53-61, 77-87). -/
def Inventory.pending (s : InventoryState) : InventoryState := s

/-- The equip and sell buttons (`Inventory.jsx` lines 308-328) have no `disabled`
attribute. -/
def Inventory.controlsDisabled (_ : InventoryState) : Bool := false

/-- Models `equipItem(inventoryItemId)` (`Inventory.jsx` lines 53-75). -/
def Inventory.equipItem (s : InventoryState) (inventoryItemId : Int)
    (o : Fetched PlayerPayload) : InventoryRun :=
  let req : Request :=
    ⟨"POST", "/api/inventory/" ++ toString inventoryItemId ++ "/equip", none⟩
  match o with
  | .failed _ => ⟨s, [req], [], []⟩
  | .response status body =>
    if httpOk status then
      match body with
      | .error _ => ⟨s, [req], [], []⟩
      | .ok data =>
        ⟨{ s with inventory := s.inventory.map (fun item =>
            if item.id = inventoryItemId then { item with is_equipped := !item.is_equipped }
            else item) },
          [req], [], [data.player]⟩
    else
      ⟨s, [req], [], []⟩

/-- State of `Scenarios` (lines 5-9). -/
structure ScenariosState where
  scenarios : List JsObject
  playerProgress : List JsObject
  loading : Bool
  selectedCountry : String
  countries : List JsObject
  deriving DecidableEq, Repr

/-- What a run of a scenarios handler leaves behind once settled. -/
structure ScenariosRun where
  state : ScenariosState
  requests : List Request
  alerts : List String
  deriving DecidableEq, Repr

/-- The JSON body of the scenario start: the name of the started scenario (`none`
when the body has no `scenario` object, so that reading `data.scenario.name`
throws) and the error text of a refusal. -/
structure ScenarioStartPayload where
  scenarioName : Option (JsRef String)
  error : JsRef String
  deriving DecidableEq, Repr

/-- The JSON body of the player progress: both lists of scenarios. -/
structure ProgressPayload where
  completed_scenarios : List JsObject
  in_progress_scenarios : List JsObject
  deriving DecidableEq, Repr

/-- The state while the request of `startScenario` is in flight: the handler
calls no state setter before its `await` (lines 67-75). -/
def Scenarios.pending (s : ScenariosState) : ScenariosState := s

/-- The `disabled` expression of the start button (lines 210, 290):
`!(scenario.phase_number <= (player.current_phase || 1))`, with both phases
whole numbers; it reads nothing of the component state. -/
def Scenarios.startDisabled (_ : ScenariosState) (phaseNumber : Int)
    (currentPhase : Option Int) : Bool :=
  !decide (phaseNumber ≤ if idTruthy currentPhase then currentPhase.getD 1 else 1)

/-- Models `fetchPlayerProgress` (lines 35-53). -/
def Scenarios.fetchPlayerProgress (s : ScenariosState) (o : Fetched ProgressPayload) :
    ScenariosRun :=
  let req : Request := ⟨"GET", "/api/scenarios/player-progress", none⟩
  match o with
  | .failed _ => ⟨{ s with loading := false }, [req], []⟩
  | .response status body =>
    if httpOk status then
      match body with
      | .error _ => ⟨{ s with loading := false }, [req], []⟩
      | .ok data =>
        ⟨{ s with playerProgress := data.completed_scenarios ++ data.in_progress_scenarios
                  loading := false }, [req], []⟩
    else
      ⟨{ s with loading := false }, [req], []⟩

/-- Models `startScenario(scenarioId)` (lines 67-89), given also the outcome of
the progress request it starts when accepted. -/
def Scenarios.startScenario (s : ScenariosState) (scenarioId : Int)
    (o : Fetched ScenarioStartPayload) (progressO : Fetched ProgressPayload) : ScenariosRun :=
  let req : Request := ⟨"POST", "/api/scenarios/" ++ toString scenarioId ++ "/start", none⟩
  match o with
  | .failed _ => ⟨s, [req], ["Erro ao iniciar cenário"]⟩
  | .response status body =>
    match body with
    | .error _ => ⟨s, [req], ["Erro ao iniciar cenário"]⟩
    | .ok data =>
      if httpOk status then
        match data.scenarioName with
        | none => ⟨s, [req], ["Erro ao iniciar cenário"]⟩
        | some name =>
          let r := Scenarios.fetchPlayerProgress s progressO
          ⟨r.state, req :: r.requests, ["Cenário iniciado: " ++ name.toDOMString]⟩
      else
        ⟨s, [req], ["Erro: " ++ data.error.toDOMString]⟩

/-! ## What the shell mounts (`App.jsx` lines 66-141, `GameHeader.jsx`) -/

/-- The components the shell can mount. -/
inductive Component where
  | LoginForm
  | GameHeader
  | GameArena
  | Scenarios
  | Shop
  | Inventory
  | CollectibleCards
  | Mining
  | Leaderboard
  | Profile
  | AdminDashboard
  deriving DecidableEq, Repr

/-- The children of `<main>` (`App.jsx` lines 80-139): nine conditional
expressions `activeTab === id && <Panel />` in this order, the last one also
requiring `player.is_admin`. -/
def App.panels (activeTab : String) (player : Player) : List Component :=
  (if activeTab == "arena" then [Component.GameArena] else []) ++
  (if activeTab == "scenarios" then [Component.Scenarios] else []) ++
  (if activeTab == "shop" then [Component.Shop] else []) ++
  (if activeTab == "inventory" then [Component.Inventory] else []) ++
  (if activeTab == "cards" then [Component.CollectibleCards] else []) ++
  (if activeTab == "mining" then [Component.Mining] else []) ++
  (if activeTab == "leaderboard" then [Component.Leaderboard] else []) ++
  (if activeTab == "profile" then [Component.Profile] else []) ++
  (if activeTab == "admin" && (jsGet player "is_admin").truthy then
    [Component.AdminDashboard] else [])

/-- The components mounted by a render of `App` (lines 66-141): the login form
alone when `!player`, otherwise the header followed by the panels. -/
def App.render (s : AppState) : List Component :=
  match s.player with
  | .val player => Component.GameHeader :: App.panels s.activeTab player
  | _ => [Component.LoginForm]

/-- Models `setActiveTab`, which the shell hands to the header as `onTabChange`
(`App.jsx` line 75). -/
def App.setActiveTab (s : AppState) (id : String) : AppState := { s with activeTab := id }

/-- An entry of the header's `tabs` literal; `adminOnly` is absent (falsy) on
all entries but the last. -/
structure Tab where
  id : String
  label : String
  adminOnly : Bool
  deriving DecidableEq, Repr

/-- The `tabs` literal (`GameHeader.jsx` lines 21-31). -/
def GameHeader.tabs : List Tab :=
  [⟨"arena", "Arena", false⟩, ⟨"scenarios", "Cenários", false⟩, ⟨"shop", "Loja", false⟩,
   ⟨"inventory", "Inventário", false⟩, ⟨"cards", "Cartas", false⟩,
   ⟨"mining", "Mineração", false⟩, ⟨"leaderboard", "Ranking", false⟩,
   ⟨"profile", "Perfil", false⟩, ⟨"admin", "Admin", true⟩]

/-- The buttons of the desktop navigation (lines 107-124): every tab but those
for which `tab.adminOnly && !player.is_admin` holds. -/
def GameHeader.desktopNav (player : Player) : List Tab :=
  GameHeader.tabs.filter (fun tab => !(tab.adminOnly && !(jsGet player "is_admin").truthy))

/-- The buttons of the mobile navigation (lines 127, 158-178): the same tabs,
rendered only while the mobile menu is open. -/
def GameHeader.mobileNav (mobileMenuOpen : Bool) (player : Player) : List Tab :=
  if mobileMenuOpen then
    GameHeader.tabs.filter (fun tab => !(tab.adminOnly && !(jsGet player "is_admin").truthy))
  else []

/-- The `onClick` of a navigation button (lines 113, 165-168) as seen by the
shell: `onTabChange(tab.id)`. -/
def GameHeader.clickTab (s : AppState) (tab : Tab) : AppState := App.setActiveTab s tab.id

/-- The expression `player.health || 100` of the header (lines 80, 83, 146) and
of the profile (`Profile.jsx` line 367), for a health that is a whole number or
absent. -/
def healthShown (health : Option Int) : Int :=
  if idTruthy health then health.getD 100 else 100

/-- The width of the desktop health bar (`GameHeader.jsx` line 80). -/
def GameHeader.healthBarWidth (health : Option Int) : String :=
  toString (healthShown health) ++ "%"

/-- The text next to the desktop health bar (`GameHeader.jsx` line 83). -/
def GameHeader.healthLabel (health : Option Int) : String :=
  toString (healthShown health) ++ "/100"

/-- The health text of the mobile menu (`GameHeader.jsx` line 146). -/
def GameHeader.mobileHealthLabel (health : Option Int) : String :=
  toString (healthShown health) ++ "/100"

/-- The text of `Vida Atual` (`Profile.jsx` line 367). -/
def Profile.vidaAtual (health : Option Int) : String :=
  toString (healthShown health) ++ "/100"

/-! ## Scenario cards (`Scenarios.jsx` lines 208-307) -/

/-- The text of the action button (lines 299-306), given the progress entry
found for the scenario (`none` when `find` returns `undefined`). -/
def Scenarios.startLabel (s : ScenariosState) (phaseNumber : Int) (currentPhase : Option Int)
    (progress : Option JsObject) : String :=
  if Scenarios.startDisabled s phaseNumber currentPhase then "Bloqueado"
  else if (match progress with
      | some p => (jsGet p "is_completed").truthy
      | none => false) then "Jogar Novamente"
  else if progress.isSome then "Continuar"
  else "Iniciar Cenário"

/-- A click on the action button (lines 288-290): a disabled button dispatches
no click, an enabled one runs `startScenario(scenario.id)`. -/
def Scenarios.clickStart (s : ScenariosState) (phaseNumber : Int) (currentPhase : Option Int)
    (scenarioId : Int) (o : Fetched ScenarioStartPayload) (progressO : Fetched ProgressPayload) :
    ScenariosRun :=
  if Scenarios.startDisabled s phaseNumber currentPhase then ⟨s, [], []⟩
  else Scenarios.startScenario s scenarioId o progressO

/-! ## Arena phases (`GameArena.jsx` lines 8-37, 81-101) -/

/-- A settled action of the arena: the handler that ran, the id of the player
it ran for and the outcome of its request. -/
inductive ArenaEvent where
  | killMonster (playerId : Int) (o : Fetched PlayerPayload)
  | selfEliminate (playerId : Int) (o : Fetched PlayerPayload)
  | die (playerId : Int) (o : Fetched PlayerPayload)

/-- The state of the arena after one settled action. -/
def GameArena.step (s : ArenaState) : ArenaEvent → ArenaState
  | .killMonster playerId o => (GameArena.killMonster s playerId o).state
  | .selfEliminate playerId o => (GameArena.selfEliminate s playerId o).state
  | .die playerId o => (GameArena.die s playerId o).state

/-- The state of the arena after a sequence of settled actions. -/
def GameArena.run (s : ArenaState) (events : List ArenaEvent) : ArenaState :=
  events.foldl GameArena.step s

/-- The expression `player.monsters_killed % monstersInPhase` (line 81) for a
whole kill count; `none` stands for `NaN`, the remainder by 0. -/
def GameArena.monstersKilledInPhase (s : ArenaState) (monsters_killed : Int) : Option Int :=
  if s.monstersInPhase = 0 then none else some (Int.tmod monsters_killed s.monstersInPhase)

/-- The expression `(monstersKilledInPhase / monstersInPhase) * 100` (line 82)
as the exact ratio; `none` stands for `NaN`. -/
def GameArena.progressPercentage (s : ArenaState) (monsters_killed : Int) : Option ℚ :=
  (GameArena.monstersKilledInPhase s monsters_killed).map
    (fun r => (r : ℚ) / (s.monstersInPhase : ℚ) * 100)

/-- The expression `Math.floor(monstersInPhase * 1.25)` of the next-phase text
(line 101). -/
def GameArena.nextPhaseMonsters (s : ArenaState) : Int := s.monstersInPhase * 5 / 4

/-! ## Card collection statistics (`CollectibleCards.jsx` lines 14-21, 66-107) -/

/-- A card of the catalogue, with the fields the statistics read. -/
structure Card where
  id : Int
  rarity : String
  deriving DecidableEq, Repr

/-- A card of the player's collection, with the field the statistics read. -/
structure PlayerCard where
  card_id : Int
  deriving DecidableEq, Repr

/-- An entry of the `rarities` literal. -/
structure Rarity where
  id : String
  label : String
  color : String
  deriving DecidableEq, Repr

/-- The `rarities` literal (lines 14-21). -/
def CollectibleCards.rarities : List Rarity :=
  [⟨"all", "Todas", "#9CA3AF"⟩, ⟨"common", "Comum", "#9CA3AF"⟩, ⟨"rare", "Raro", "#3B82F6"⟩,
   ⟨"epic", "Épico", "#8B5CF6"⟩, ⟨"legendary", "Lendário", "#F59E0B"⟩,
   ⟨"mythic", "Mítico", "#EF4444"⟩]

/-- Models `getPlayerCard(cardId)` (lines 66-68): `none` stands for the
`undefined` that `find` returns when no entry matches. -/
def CollectibleCards.getPlayerCard (cards : List PlayerCard) (cardId : Int) : Option PlayerCard :=
  cards.find? (fun c => c.card_id == cardId)

/-- An element of `rarityStats`: the rarity spread, with the two counts and the
percentage as the exact ratio. -/
structure RarityStat where
  rarity : Rarity
  total : Nat
  owned : Nat
  percentage : ℚ
  deriving DecidableEq

/-- The object returned by `getCollectionStats`, percentages as exact ratios. -/
structure CollectionStats where
  totalCards : Nat
  ownedCards : Nat
  completionPercentage : ℚ
  rarityStats : List RarityStat
  deriving DecidableEq

/-- Models `getCollectionStats()` (lines 87-107) for the `allCards` and `cards`
state; `rarities.slice(1)` drops the `all` entry. -/
def CollectibleCards.getCollectionStats (allCards : List Card) (cards : List PlayerCard) :
    CollectionStats :=
  let totalCards := allCards.length
  let ownedCards :=
    (allCards.filter (fun card => (CollectibleCards.getPlayerCard cards card.id).isSome)).length
  let completionPercentage : ℚ :=
    if totalCards > 0 then (ownedCards : ℚ) / (totalCards : ℚ) * 100 else 0
  let rarityStats := (CollectibleCards.rarities.drop 1).map (fun rarity =>
    let totalOfRarity := (allCards.filter (fun card => card.rarity == rarity.id)).length
    let ownedOfRarity := (allCards.filter (fun card =>
      card.rarity == rarity.id && (CollectibleCards.getPlayerCard cards card.id).isSome)).length
    { rarity := rarity
      total := totalOfRarity
      owned := ownedOfRarity
      percentage :=
        if totalOfRarity > 0 then (ownedOfRarity : ℚ) / (totalOfRarity : ℚ) * 100 else 0 })
  { totalCards := totalCards, ownedCards := ownedCards
    completionPercentage := completionPercentage, rarityStats := rarityStats }

/-! ## Level progress of the profile (`Profile.jsx` lines 119-130)

Every step of the computation is an operation on JavaScript numbers, so every
step is modelled as a binary64 operation. -/

/-- Models `getPlayerLevel()` (lines 119-121): `player.level || 1` for a level
that is a whole number or absent. -/
def Profile.getPlayerLevel (level : Option Int) : F64 :=
  if idTruthy level then F64.ofInt (level.getD 1) else F64.ofInt 1

/-- The experience `(player.monsters_killed || 0) + (player.players_killed || 0) * 5`
(line 125), for counts that are whole numbers or absent. -/
def Profile.currentExp (monsters_killed players_killed : Option Int) : F64 :=
  F64.add (if idTruthy monsters_killed then F64.ofInt (monsters_killed.getD 0) else F64.ofInt 0)
    (F64.mul (if idTruthy players_killed then F64.ofInt (players_killed.getD 0) else F64.ofInt 0)
      (F64.ofInt 5))

/-- The value `currentLevelExp = (getPlayerLevel() - 1) * 100` (line 126). -/
def Profile.currentLevelExp (level : Option Int) : F64 :=
  F64.mul (F64.sub (Profile.getPlayerLevel level) (F64.ofInt 1)) (F64.ofInt 100)

/-- The value `nextLevelExp = getPlayerLevel() * 100` (line 127). -/
def Profile.nextLevelExp (level : Option Int) : F64 :=
  F64.mul (Profile.getPlayerLevel level) (F64.ofInt 100)

/-- The divisor `nextLevelExp - currentLevelExp` of line 128. -/
def Profile.levelSpan (level : Option Int) : F64 :=
  F64.sub (Profile.nextLevelExp level) (Profile.currentLevelExp level)

/-- The clamping `Math.min(100, Math.max(0, progress))` of line 129. -/
def Profile.clamp (progress : F64) : F64 :=
  F64.min (F64.ofInt 100) (F64.max (F64.ofInt 0) progress)

/-- Models `getNextLevelProgress()` (lines 123-130). When the divisor is 0 the
quotient is an infinity of the sign of the dividend, which the clamping turns
into 100 or 0, or `NaN` when the dividend is 0 too; `none` stands for `NaN`. -/
def Profile.getNextLevelProgress (monsters_killed players_killed level : Option Int) :
    Option F64 :=
  let dividend :=
    F64.sub (Profile.currentExp monsters_killed players_killed) (Profile.currentLevelExp level)
  match F64.div dividend (Profile.levelSpan level) with
  | some quotient => some (Profile.clamp (F64.mul quotient (F64.ofInt 100)))
  | none =>
    if 0 < dividend.mant then some (F64.ofInt 100)
    else if dividend.mant < 0 then some (F64.ofInt 0)
    else none

/-- The level of the claim as a whole number: `player.level`, 1 when absent or 0. -/
def Profile.exactLevel (level : Option Int) : Int :=
  match level with
  | some 0 => 1
  | some l => l
  | none => 1

/-- The experience of the claim as a whole number:
`monsters_killed + 5 × players_killed`, absent counts taken as 0. -/
def Profile.exactExp (monsters_killed players_killed : Option Int) : Int :=
  monsters_killed.getD 0 + 5 * players_killed.getD 0

/-- The level progress for a whole number `x` of experience points above the
start of the level: the binary64 quotient of `x` by 100, multiplied by 100 in
binary64 and clamped. -/
def Profile.progressOf (x : Int) : Option F64 :=
  (F64.div (F64.ofInt x) (F64.ofInt 100)).map
    (fun quotient => Profile.clamp (F64.mul quotient (F64.ofInt 100)))

/-! ## Sample data for the concrete runs -/

/-- A user listing with one account. -/
def sampleUsers : List User := [⟨1, "bob", "bob@example.com"⟩]

/-- A player snapshot. -/
def samplePlayer : Player := [("id", .num ⟨1, 0⟩), ("username", .str "bob")]

/-- A shell state with a logged-in player on the shop tab. -/
def sampleAppState : AppState :=
  { player := .val samplePlayer
    activeTab := "shop"
    token := .val "tok-1"
    localStorage := [("theme", "dark"), ("token", "tok-1")] }

/-- The listing succeeds and the player record exists. -/
def worldPlayerExists : LoginWorld :=
  { users := .response 200 (.ok sampleUsers)
    player := .response 200 (.ok ⟨.val samplePlayer⟩)
    create := .failed "unused" }

/-- The listing succeeds and the player lookup throws (network failure). -/
def worldPlayerLookupThrows : LoginWorld :=
  { users := .response 200 (.ok sampleUsers)
    player := .failed "Failed to fetch"
    create := .response 200 (.ok ⟨.val samplePlayer⟩) }

/-- The listing succeeds, the player record is missing and its creation is refused. -/
def worldCreateRefused : LoginWorld :=
  { users := .response 200 (.ok sampleUsers)
    player := .response 404 (.ok ⟨.undefined⟩)
    create := .response 500 (.ok ⟨.undefined⟩) }

/-- The monsters panel on page 2 of 5 while monster 4 is edited with a changed
reward. -/
def sampleMonsterEdit : PanelState :=
  { rows := [], loading := false, error := none, currentPage := 2, totalPages := 5,
    searchTerm := "zom", editing := some 4
    editFormData := [("name", .str "Zed"), ("dooficoin_reward", .str "0.5")]
    creatingNew := false }

/-- A row of the users list. -/
def sampleUserRow : JsObject :=
  [("username", .str "bob"), ("email", .str "bob@example.com"), ("is_admin", .bool false),
   ("is_active", .bool true)]

/-- The users panel while user 5 is being edited. -/
def sampleUsersEdit : UsersState :=
  UsersManagement.handleEditClick { UsersManagement.init with loading := false } 5 sampleUserRow

/-- A row of the items list whose id is 0. -/
def sampleItemRow : JsObject :=
  [("name", .str "Adaga"), ("description", .str ""), ("item_type", .str "weapon"),
   ("rarity", .str "rare"), ("base_price", .str "0.000001"), ("current_price", .str "0.000002"),
   ("required_level", .num ⟨1, 0⟩), ("required_phase", .num ⟨1, 0⟩),
   ("is_tradeable", .bool true), ("is_sellable", .bool true), ("drop_rate", .num ⟨1, -1⟩),
   ("max_stack", .num ⟨1, 0⟩), ("image_url", .str ""), ("is_active", .bool true)]

/-- The items panel after the edit button of the item with id 0 was clicked. -/
def sampleItemZeroEdit : PanelState :=
  ItemsManagement.handleEditClick { ItemsManagement.panel.init with loading := false } 0
    sampleItemRow none

/-- A refusal carrying a message of the server. -/
def sampleRefusal : Fetched ErrPayload := .response 400 (.ok ⟨.val "E-mail já cadastrado"⟩)

/-- A list response with one row on one page. -/
def sampleListLoaded : Fetched ListPayload := .response 200 (.ok ⟨[[("name", .str "Zed")]], 1⟩)

/-- The mining panel once the status has loaded with no session running. -/
def sampleMiningIdle : MiningState :=
  (Mining.run Mining.mount [.statusLoaded ⟨false, none⟩ 0]).state

/-- An inventory holding one sellable sword. -/
def sampleInventory : InventoryState :=
  { inventory := [⟨3, [("name", .str "Espada"), ("is_sellable", .bool true)], 1, false⟩]
    loading := false, selectedCategory := "all", selectedRarity := "all", searchTerm := "" }

/-- A player holding 0.0000101 DOOF and 10 power. -/
def sampleShopPlayer : ShopPlayer :=
  { dooficoin_balance := F64.ofDecimal ⟨101, -7⟩, power := F64.ofDecimal ⟨10, 0⟩, rest := [] }

/-- The first weapon of the catalogue, priced 0.0000001. -/
def espadaBasica : ShopItem := ⟨1, "Espada Básica", some ⟨5, 0⟩, ⟨1, -7⟩⟩

/-- The last weapon of the catalogue, priced 0.00001. -/
def espadaLendaria : ShopItem := ⟨4, "Espada Lendária", some ⟨25, 0⟩, ⟨1, -5⟩⟩

/-- A player who is not an administrator. -/
def sampleVisitor : Player :=
  [("id", .num ⟨1, 0⟩), ("username", .str "bob"), ("is_admin", .bool false)]

/-- A shell state whose tab is `admin` while the player is not an administrator. -/
def sampleVisitorOnAdmin : AppState :=
  { player := .val sampleVisitor, activeTab := "admin", token := .val "tok-1"
    localStorage := [("token", "tok-1")] }

/-- The scenarios panel once loaded, with nothing listed. -/
def sampleScenarios : ScenariosState :=
  { scenarios := [], playerProgress := [], loading := false, selectedCountry := "all"
    countries := [] }

/-- A player snapshot with 300 kills. -/
def samplePlayer300 : Player := [("id", .num ⟨1, 0⟩), ("monsters_killed", .num ⟨300, 0⟩)]

/-- A catalogue of three cards of known rarities. -/
def sampleAllCards : List Card := [⟨1, "common"⟩, ⟨2, "rare"⟩, ⟨3, "common"⟩]

/-- A collection holding card 3, twice. -/
def sampleCollection : List PlayerCard := [⟨3⟩, ⟨3⟩]

/-- A player holding 1 DOOF and 10 power. -/
def sampleShopPlayerOne : ShopPlayer :=
  { dooficoin_balance := F64.ofDecimal ⟨1, 0⟩, power := F64.ofDecimal ⟨10, 0⟩, rest := [] }

/-- A player snapshot whose kill count is `null`. -/
def samplePlayerNullKills : Player := [("id", .num ⟨1, 0⟩), ("monsters_killed", .null)]

/-! ## Theorems -/

/-! ### Local storage -/

theorem Storage.getItem_removeItem (st : Storage) (key : String) :
    (st.removeItem key).getItem key = none := by
  unfold Storage.getItem Storage.removeItem
  have h : (st.filter (fun kv => kv.1 != key)).find? (fun kv => kv.1 == key) = none := by
    rw [List.find?_eq_none]
    intro kv hkv
    have := (List.mem_filter.mp hkv).2
    simpa using this
  rw [h]
  rfl

theorem Storage.getItem_setItem (st : Storage) (key value : String) :
    (st.setItem key value).getItem key = some value := by
  simp [Storage.getItem, Storage.setItem]

theorem App.handleLogout_loggedOut (s : AppState) : (App.handleLogout s).loggedOut :=
  ⟨rfl, rfl, Storage.getItem_removeItem _ _, rfl⟩

/-! ### Session shell -/

/-- C1: for every shell state, `handleLogout` leaves no player, no in-memory
token, no `token` entry in local storage, and the active tab `arena`. -/
theorem handleLogout_clears_session (s : AppState) :
    (App.handleLogout s).player = .null ∧
    (App.handleLogout s).token = .null ∧
    (App.handleLogout s).localStorage.getItem "token" = none ∧
    (App.handleLogout s).activeTab = "arena" ∧
    (App.handleLogout s).activeTab = (App.init s.localStorage).activeTab :=
  ⟨rfl, rfl, Storage.getItem_removeItem _ _, rfl, rfl⟩

/-- C2: validating the stored token by `GET /api/profile` ends logged out when
`fetch` throws, when the response is not 2xx, and when the body of the response
does not decode; a 2xx response with a decodable body only replaces the player
by the one of the response, so the token stays in memory and in storage. -/
theorem fetchPlayerData_validation (s : AppState) :
    (∀ msg, (App.fetchPlayerData s (.failed msg)).loggedOut) ∧
    (∀ status body, httpOk status = false →
      (App.fetchPlayerData s (.response status body)).loggedOut) ∧
    (∀ status msg, (App.fetchPlayerData s (.response status (.error msg))).loggedOut) ∧
    (∀ status data, httpOk status = true →
      App.fetchPlayerData s (.response status (.ok data)) = { s with player := data.player }) := by
  refine ⟨fun _ => App.handleLogout_loggedOut s, ?_, ?_, ?_⟩
  · intro status body h
    simp only [App.fetchPlayerData, h]
    exact App.handleLogout_loggedOut s
  · intro status msg
    simp only [App.fetchPlayerData]
    split_ifs <;> exact App.handleLogout_loggedOut s
  · intro status data h
    simp [App.fetchPlayerData, h]

/-- Witness of `fetchPlayerData_validation`: a 401 logs the sample shell out, a
200 replaces its player and keeps the token. -/
theorem fetchPlayerData_validation_witness :
    (App.fetchPlayerData sampleAppState (.response 401 (.ok ⟨.null⟩))).loggedOut ∧
    App.fetchPlayerData sampleAppState (.response 200 (.ok ⟨.val []⟩)) =
      { sampleAppState with player := .val [] } :=
  ⟨(fetchPlayerData_validation sampleAppState).2.1 401 _ (by decide),
   (fetchPlayerData_validation sampleAppState).2.2.2 200 ⟨.val []⟩ (by decide)⟩

/-- C3 (code evaluated at the failing input): a successful login of `bob`
through the form calls `onLogin` with the player only; the shell then holds the
player, its in-memory token is `undefined`, and local storage holds the
nine-letter text `undefined` under `token`. -/
theorem login_leaves_token_undefined :
    (LoginForm.handleLogin (LoginForm.typeLoginUsername LoginForm.init "bob")
        worldPlayerExists).onLoginCalls = [.val samplePlayer] ∧
    (App.afterLoginRun (App.init [])
        (LoginForm.handleLogin (LoginForm.typeLoginUsername LoginForm.init "bob")
          worldPlayerExists)).player = .val samplePlayer ∧
    (App.afterLoginRun (App.init [])
        (LoginForm.handleLogin (LoginForm.typeLoginUsername LoginForm.init "bob")
          worldPlayerExists)).token = .undefined ∧
    (App.afterLoginRun (App.init [])
        (LoginForm.handleLogin (LoginForm.typeLoginUsername LoginForm.init "bob")
          worldPlayerExists)).localStorage.getItem "token" = some "undefined" := by
  refine ⟨?_, ?_, ?_, ?_⟩ <;> decide

/-- C4 (code evaluated at the failing input): typing the e-mail address of the
only listed user into the login field finds nobody: the error is
`Usuário não encontrado`, the listing is the only request, and `onLogin` is not
called, although that user has exactly this e-mail. -/
theorem login_by_email_not_found :
    (sampleUsers.any (fun u => u.email == "bob@example.com")) = true ∧
    (LoginForm.typeLoginUsername LoginForm.init "bob@example.com").loginData.email = "" ∧
    (LoginForm.handleLogin (LoginForm.typeLoginUsername LoginForm.init "bob@example.com")
        worldPlayerExists).state.error = "Usuário não encontrado" ∧
    (LoginForm.handleLogin (LoginForm.typeLoginUsername LoginForm.init "bob@example.com")
        worldPlayerExists).requests = [⟨"GET", "/api/users", none⟩] ∧
    (LoginForm.handleLogin (LoginForm.typeLoginUsername LoginForm.init "bob@example.com")
        worldPlayerExists).onLoginCalls = [] := by
  refine ⟨?_, ?_, ?_, ?_, ?_⟩ <;> decide

/-! ### Login form -/

/-- C5, as stated, fails when the player lookup throws: the user `bob` is found
and `GET /api/game/player/1` is not a 2xx response, yet no `POST` is sent at all;
the error is `Erro de conexão` and `onLogin` is not called. -/
theorem handleLogin_lookup_throws_sends_no_create :
    sampleUsers.find? (LoginForm.matchesLogin
        (LoginForm.typeLoginUsername LoginForm.init "bob").loginData) =
      some ⟨1, "bob", "bob@example.com"⟩ ∧
    worldPlayerLookupThrows.player.is2xx = false ∧
    ((LoginForm.handleLogin (LoginForm.typeLoginUsername LoginForm.init "bob")
        worldPlayerLookupThrows).requests.filter (fun q => q.method == "POST")).length = 0 ∧
    (LoginForm.handleLogin (LoginForm.typeLoginUsername LoginForm.init "bob")
        worldPlayerLookupThrows).state.error = "Erro de conexão" ∧
    (LoginForm.handleLogin (LoginForm.typeLoginUsername LoginForm.init "bob")
        worldPlayerLookupThrows).onLoginCalls = [] := by
  refine ⟨?_, ?_, ?_, ?_, ?_⟩ <;> decide

/-- C5 (amended): loading ends false in every outcome, and once a user is found:
a 2xx player lookup with a decodable body gives its player to `onLogin` and no
create request is sent; a non-2xx lookup sends exactly one
`POST /api/game/player/create` with that user's id, whose 2xx decodable answer
gives the created player to `onLogin` and whose non-2xx answer sets
`Erro ao criar jogador` without calling `onLogin`; when a fetch or its JSON
decoding throws, `Erro de conexão` is set, `onLogin` is not called and nothing
further is sent. -/
theorem handleLogin_fetch_or_create (s : LoginFormState) (ust : Nat) (users : List User)
    (user : User) (p c : Fetched PlayerPayload)
    (hfind : users.find? (LoginForm.matchesLogin s.loginData) = some user) :
    (∀ w, (LoginForm.handleLogin s w).state.loading = false) ∧
    (∀ st d, p = .response st (.ok d) → httpOk st = true →
      (LoginForm.handleLogin s ⟨.response ust (.ok users), p, c⟩).onLoginCalls = [d.player] ∧
      (LoginForm.handleLogin s ⟨.response ust (.ok users), p, c⟩).requests =
        [⟨"GET", "/api/users", none⟩,
         ⟨"GET", "/api/game/player/" ++ toString user.id, none⟩]) ∧
    (∀ st b, p = .response st b → httpOk st = false →
      (LoginForm.handleLogin s ⟨.response ust (.ok users), p, c⟩).requests =
        [⟨"GET", "/api/users", none⟩,
         ⟨"GET", "/api/game/player/" ++ toString user.id, none⟩,
         ⟨"POST", "/api/game/player/create", some [("user_id", .num ⟨user.id, 0⟩)]⟩] ∧
      (∀ cst d, c = .response cst (.ok d) → httpOk cst = true →
        (LoginForm.handleLogin s ⟨.response ust (.ok users), p, c⟩).onLoginCalls =
          [d.player]) ∧
      (∀ cst cb, c = .response cst cb → httpOk cst = false →
        (LoginForm.handleLogin s ⟨.response ust (.ok users), p, c⟩).state.error =
          "Erro ao criar jogador" ∧
        (LoginForm.handleLogin s ⟨.response ust (.ok users), p, c⟩).onLoginCalls = []) ∧
      ((∃ msg, c = .failed msg) ∨ (∃ cst msg, c = .response cst (.error msg) ∧
          httpOk cst = true) →
        (LoginForm.handleLogin s ⟨.response ust (.ok users), p, c⟩).state.error =
          "Erro de conexão" ∧
        (LoginForm.handleLogin s ⟨.response ust (.ok users), p, c⟩).onLoginCalls = [])) ∧
    ((∃ msg, p = .failed msg) ∨ (∃ st msg, p = .response st (.error msg) ∧
        httpOk st = true) →
      (LoginForm.handleLogin s ⟨.response ust (.ok users), p, c⟩).state.error =
        "Erro de conexão" ∧
      (LoginForm.handleLogin s ⟨.response ust (.ok users), p, c⟩).onLoginCalls = [] ∧
      (LoginForm.handleLogin s ⟨.response ust (.ok users), p, c⟩).requests =
        [⟨"GET", "/api/users", none⟩,
         ⟨"GET", "/api/game/player/" ++ toString user.id, none⟩]) := by
  refine ⟨?_, ?_, ?_, ?_⟩
  · intro w
    unfold LoginForm.handleLogin LoginForm.connectionError
    repeat (first | rfl | split)
  · rintro st d rfl hst
    simp [LoginForm.handleLogin, hfind, hst]
  · rintro st b rfl hst
    refine ⟨?_, ?_, ?_, ?_⟩
    · rcases c with msg | ⟨cst, cmsg | cd⟩ <;>
        simp [LoginForm.handleLogin, hfind, hst, LoginForm.connectionError, userIdBody] <;>
        split_ifs <;> rfl
    · rintro cst d rfl hcst
      simp [LoginForm.handleLogin, hfind, hst, hcst]
    · rintro cst cb rfl hcst
      simp [LoginForm.handleLogin, hfind, hst, hcst]
    · rintro (⟨msg, rfl⟩ | ⟨cst, msg, rfl, hcst⟩) <;>
        simp [LoginForm.handleLogin, hfind, hst, LoginForm.connectionError, *]
  · rintro (⟨msg, rfl⟩ | ⟨st, msg, rfl, hst⟩) <;>
      simp [LoginForm.handleLogin, hfind, LoginForm.connectionError, *]

/-- Witness of `handleLogin_fetch_or_create`: `bob` is found, the lookup answers
404 and the creation 500, so one create request is sent and the error is
`Erro ao criar jogador`. -/
theorem handleLogin_fetch_or_create_witness :
    (LoginForm.handleLogin (LoginForm.typeLoginUsername LoginForm.init "bob")
        worldCreateRefused).state.loading = false ∧
    (LoginForm.handleLogin (LoginForm.typeLoginUsername LoginForm.init "bob")
        worldCreateRefused).requests =
      [⟨"GET", "/api/users", none⟩, ⟨"GET", "/api/game/player/1", none⟩,
       ⟨"POST", "/api/game/player/create", some [("user_id", .num ⟨1, 0⟩)]⟩] ∧
    (LoginForm.handleLogin (LoginForm.typeLoginUsername LoginForm.init "bob")
        worldCreateRefused).state.error = "Erro ao criar jogador" ∧
    (LoginForm.handleLogin (LoginForm.typeLoginUsername LoginForm.init "bob")
        worldCreateRefused).onLoginCalls = [] := by
  have h := handleLogin_fetch_or_create (LoginForm.typeLoginUsername LoginForm.init "bob")
    200 sampleUsers ⟨1, "bob", "bob@example.com"⟩ (.response 404 (.ok ⟨.undefined⟩))
    (.response 500 (.ok ⟨.undefined⟩)) (by decide)
  have h3 := h.2.2.1 404 _ rfl (by decide)
  exact ⟨h.1 worldCreateRefused, h3.1, (h3.2.2.1 500 _ rfl (by decide)).1,
    (h3.2.2.1 500 _ rfl (by decide)).2⟩

/-! ### Admin panels -/

theorem CrudPanel.fetchList_keeps (cfg : CrudPanel) (s : PanelState) (o : Fetched ListPayload) :
    (cfg.fetchList s o).state.editFormData = s.editFormData ∧
    (cfg.fetchList s o).state.editing = s.editing ∧
    (cfg.fetchList s o).state.creatingNew = s.creatingNew ∧
    (cfg.fetchList s o).state.currentPage = s.currentPage := by
  unfold CrudPanel.fetchList
  rcases o with msg | ⟨status, msg | data⟩ <;> simp <;> split_ifs <;> simp

theorem UsersManagement.fetchUsers_keeps (s : UsersState) (o : Fetched ListPayload) :
    (UsersManagement.fetchUsers s o).state.editFormData = s.editFormData ∧
    (UsersManagement.fetchUsers s o).state.editingUser = s.editingUser ∧
    (UsersManagement.fetchUsers s o).state.currentPage = s.currentPage := by
  unfold UsersManagement.fetchUsers
  rcases o with msg | ⟨status, msg | data⟩ <;> simp <;> split_ifs <;> simp

/-- C6: in the Items, Monsters, Scenarios and Cards panels (every `CrudPanel`),
in the AdSense panel and in `Inventory.sellItem`, a declined confirmation
returns with the state unchanged, no request and no alert; hence a request or a
state change implies an affirmative answer, and after an affirmative answer the
first request is the `DELETE` (respectively the sell `POST`). -/
theorem declined_confirmation_does_nothing :
    (∀ (cfg : CrudPanel) (s : PanelState) (id : Int) del refetch,
      cfg.handleDelete s false id del refetch = ⟨s, [], []⟩) ∧
    (∀ (s : AdSenseState) (id : Int) del configO unitsO,
      AdSenseManagement.handleDeleteAdUnit s false id del configO unitsO = ⟨s, [], []⟩) ∧
    (∀ (s : InventoryState) (id : Int) o, Inventory.sellItem s false id o = ⟨s, [], [], []⟩) ∧
    (∀ (cfg : CrudPanel) (s : PanelState) (c : Bool) (id : Int) del refetch,
      (cfg.handleDelete s c id del refetch).requests ≠ [] ∨
        (cfg.handleDelete s c id del refetch).state ≠ s → c = true) ∧
    (∀ (s : AdSenseState) (c : Bool) (id : Int) del configO unitsO,
      (AdSenseManagement.handleDeleteAdUnit s c id del configO unitsO).requests ≠ [] ∨
        (AdSenseManagement.handleDeleteAdUnit s c id del configO unitsO).state ≠ s →
      c = true) ∧
    (∀ (s : InventoryState) (c : Bool) (id : Int) o,
      (Inventory.sellItem s c id o).requests ≠ [] ∨ (Inventory.sellItem s c id o).state ≠ s →
      c = true) ∧
    (∀ (cfg : CrudPanel) (s : PanelState) (id : Int) del refetch,
      (cfg.handleDelete s true id del refetch).requests.head? =
        some ⟨"DELETE", cfg.path ++ "/" ++ toString id, none⟩) ∧
    (∀ (s : AdSenseState) (id : Int) del configO unitsO,
      (AdSenseManagement.handleDeleteAdUnit s true id del configO unitsO).requests.head? =
        some ⟨"DELETE", "/api/admin/adsense/ad-units/" ++ toString id, none⟩) ∧
    (∀ (s : InventoryState) (id : Int) o,
      (Inventory.sellItem s true id o).requests.head? =
        some ⟨"POST", "/api/inventory/" ++ toString id ++ "/sell", none⟩) := by
  refine ⟨fun _ _ _ _ _ => rfl, fun _ _ _ _ _ => rfl, fun _ _ _ => rfl, ?_, ?_, ?_, ?_, ?_, ?_⟩
  · intro cfg s c id del refetch h
    cases c
    · simp [CrudPanel.handleDelete] at h
    · rfl
  · intro s c id del configO unitsO h
    cases c
    · simp [AdSenseManagement.handleDeleteAdUnit] at h
    · rfl
  · intro s c id o h
    cases c
    · simp [Inventory.sellItem] at h
    · rfl
  · intro cfg s id del refetch
    rcases del with msg | ⟨status, body⟩
    · simp [CrudPanel.handleDelete, CrudPanel.mutationFailed]
    · simp only [CrudPanel.handleDelete, CrudPanel.mutationFailed]
      split_ifs <;> simp_all
  · intro s id del configO unitsO
    rcases del with msg | ⟨status, body⟩
    · simp [AdSenseManagement.handleDeleteAdUnit]
    · simp only [AdSenseManagement.handleDeleteAdUnit]
      split_ifs <;> simp_all
  · intro s id o
    rcases o with msg | ⟨status, msg | data⟩
    · simp [Inventory.sellItem]
    · simp only [Inventory.sellItem]
      split_ifs <;> simp_all
    · simp only [Inventory.sellItem]
      split_ifs <;> simp_all

/-- Witness of `declined_confirmation_does_nothing`: on the items panel a
declined deletion of item 7 changes and sends nothing, a run that sent a
request had an affirmative answer, and that request is `DELETE
/api/admin/items/7`. -/
theorem declined_confirmation_does_nothing_witness :
    ItemsManagement.panel.handleDelete ItemsManagement.panel.init false 7
        (.response 200 (.ok ⟨.undefined⟩)) (.failed "offline") =
      ⟨ItemsManagement.panel.init, [], []⟩ ∧
    ((ItemsManagement.panel.handleDelete ItemsManagement.panel.init true 7
        (.response 200 (.ok ⟨.undefined⟩)) (.failed "offline")).requests ≠ [] ∧
      true = true) ∧
    (ItemsManagement.panel.handleDelete ItemsManagement.panel.init true 7
        (.response 200 (.ok ⟨.undefined⟩)) (.failed "offline")).requests.head? =
      some ⟨"DELETE", "/api/admin/items/7", none⟩ :=
  ⟨declined_confirmation_does_nothing.1 ItemsManagement.panel ItemsManagement.panel.init 7
     (.response 200 (.ok ⟨.undefined⟩)) (.failed "offline"),
   ⟨by decide,
    declined_confirmation_does_nothing.2.2.2.1 ItemsManagement.panel
      ItemsManagement.panel.init true 7 (.response 200 (.ok ⟨.undefined⟩)) (.failed "offline")
      (Or.inl (by decide))⟩,
   declined_confirmation_does_nothing.2.2.2.2.2.2.1 ItemsManagement.panel
     ItemsManagement.panel.init 7 (.response 200 (.ok ⟨.undefined⟩)) (.failed "offline")⟩

/-- C7: in each paginated panel `Anterior` is disabled when `currentPage = 1`,
`Próxima` is disabled when `currentPage = totalPages`, both are disabled while
loading, and neither is disabled in any other case. -/
theorem pagination_buttons_disabled (currentPage totalPages : Int) (loading : Bool) :
    (currentPage = 1 → anteriorDisabled currentPage loading = true) ∧
    (currentPage = totalPages → proximaDisabled currentPage totalPages loading = true) ∧
    (loading = true → anteriorDisabled currentPage loading = true ∧
      proximaDisabled currentPage totalPages loading = true) ∧
    (anteriorDisabled currentPage loading = true ↔ currentPage = 1 ∨ loading = true) ∧
    (proximaDisabled currentPage totalPages loading = true ↔
      currentPage = totalPages ∨ loading = true) := by
  refine ⟨?_, ?_, ?_, ?_, ?_⟩
  · intro h
    simp [anteriorDisabled, h]
  · intro h
    simp [proximaDisabled, h]
  · intro h
    simp [anteriorDisabled, proximaDisabled, h]
  · simp [anteriorDisabled]
  · simp [proximaDisabled]

/-- Witness of `pagination_buttons_disabled`: on page 1 of 1, not loading, both
buttons are disabled. -/
theorem pagination_buttons_disabled_witness :
    anteriorDisabled 1 false = true ∧ proximaDisabled 1 1 false = true :=
  ⟨(pagination_buttons_disabled 1 1 false).1 rfl, (pagination_buttons_disabled 1 1 false).2.1 rfl⟩

/-! ### Pagination -/

theorem Pager.step_click (s : Pager) (e : PagerEvent) (he : e = .anterior ∨ e = .proxima)
    (h : s.inRange) :
    (s.step e).inRange ∧ (s.step e).totalPages = s.totalPages ∧
    s.currentPage - 1 ≤ (s.step e).currentPage ∧
    (s.step e).currentPage ≤ s.currentPage + 1 := by
  obtain ⟨cp, tp, l⟩ := s
  obtain ⟨h1, h2⟩ := h
  simp only at h1 h2
  rcases he with rfl | rfl
  · simp only [Pager.step, Pager.inRange, anteriorPage]
    split_ifs
    · refine ⟨⟨?_, ?_⟩, rfl, ?_, ?_⟩ <;> dsimp only <;> omega
    · refine ⟨⟨?_, ?_⟩, rfl, ?_, ?_⟩ <;> dsimp only <;> omega
  · simp only [Pager.step, Pager.inRange, proximaPage]
    split_ifs
    · refine ⟨⟨?_, ?_⟩, rfl, ?_, ?_⟩ <;> dsimp only <;> omega
    · refine ⟨⟨?_, ?_⟩, rfl, ?_, ?_⟩ <;> dsimp only <;> omega

theorem Pager.run_inRange (events : List PagerEvent) :
    ∀ s : Pager, s.inRange → s.coversPage events = true → (s.run events).inRange := by
  induction events with
  | nil => intro s h _; exact h
  | cons e rest ih =>
    intro s h hc
    have hstep : (s.step e).inRange ∧ (s.step e).coversPage rest = true := by
      cases e with
      | anterior => exact ⟨(Pager.step_click s _ (Or.inl rfl) h).1, by simpa [Pager.coversPage] using hc⟩
      | proxima => exact ⟨(Pager.step_click s _ (Or.inr rfl) h).1, by simpa [Pager.coversPage] using hc⟩
      | listLoaded n =>
        simp only [Pager.coversPage, Bool.and_eq_true, decide_eq_true_eq] at hc
        exact ⟨⟨h.1, hc.1⟩, hc.2⟩
      | listFailed => exact ⟨h, by simpa [Pager.coversPage] using hc⟩
      | search => exact ⟨h, by simpa [Pager.coversPage] using hc⟩
    exact ih (s.step e) hstep.1 hstep.2

/-- C8, as stated, fails once the list shrinks: from mount, going to page 3 of
3 and then receiving a list response with `total_pages = 1` (a narrower search)
leaves page 3 of 1, outside `1 ≤ currentPage ≤ totalPages`; there `Próxima` is
enabled and a click on it moves the page by two, from 3 to 1. -/
theorem pager_out_of_range_after_shrink :
    Pager.init.run [.listLoaded 3, .proxima, .listLoaded 3, .proxima, .listLoaded 3,
      .search, .listLoaded 1] = ⟨3, 1, false⟩ ∧
    ¬ (⟨3, 1, false⟩ : Pager).inRange ∧
    proximaDisabled 3 1 false = false ∧
    (Pager.step ⟨3, 1, false⟩ .proxima).currentPage = 1 := by
  refine ⟨by decide, by decide, by decide, by decide⟩

/-- C8 (amended): from mount, as long as every list response reports at least as
many pages as the page then shown, `1 ≤ currentPage ≤ totalPages` holds in every
state reached, and every `Anterior`/`Próxima` action keeps it, leaves
`totalPages` alone and moves the page by at most one. -/
theorem pager_in_range_while_covered (events : List PagerEvent)
    (hc : Pager.init.coversPage events = true) :
    (Pager.init.run events).inRange ∧
    ∀ e : PagerEvent, e = .anterior ∨ e = .proxima →
      ((Pager.init.run events).step e).inRange ∧
      ((Pager.init.run events).step e).totalPages = (Pager.init.run events).totalPages ∧
      (Pager.init.run events).currentPage - 1 ≤ ((Pager.init.run events).step e).currentPage ∧
      ((Pager.init.run events).step e).currentPage ≤ (Pager.init.run events).currentPage + 1 := by
  have h := Pager.run_inRange events Pager.init (by decide) hc
  exact ⟨h, fun e he => Pager.step_click _ e he h⟩

/-- Witness of `pager_in_range_while_covered`: after two pages of three have
been turned the page is 3 of 3, and `Anterior` leads to page 2. -/
theorem pager_in_range_while_covered_witness :
    (Pager.init.run [.listLoaded 3, .proxima, .listLoaded 3, .proxima, .listLoaded 3]).inRange ∧
    ((Pager.init.run [.listLoaded 3, .proxima, .listLoaded 3, .proxima,
      .listLoaded 3]).step .anterior).inRange :=
  ⟨(pager_in_range_while_covered
      [.listLoaded 3, .proxima, .listLoaded 3, .proxima, .listLoaded 3] (by decide)).1,
   ((pager_in_range_while_covered
      [.listLoaded 3, .proxima, .listLoaded 3, .proxima, .listLoaded 3] (by decide)).2
        .anterior (Or.inl rfl)).1⟩

/-- C9: for each paginated list (items, monsters, scenarios, cards, users,
security logs), every filter value and every two pages `p` and `q`, the two
request URLs are the same text before and the same text after the page number;
the text after it starts with `&per_page=10&` and ends with the filter
parameter followed by the search term as typed (for the logs, the search term
and then `&type=` with the log type). -/
theorem list_urls_vary_only_in_page (term filterType : String) (p q : Int) :
    (∀ cfg ∈ crudPanels, ∃ pre post : String,
      cfg.listUrl p term = pre ++ toString p ++ post ∧
      cfg.listUrl q term = pre ++ toString q ++ post ∧
      pre = cfg.path ++ "?page=" ∧ post = "&per_page=10&name=" ++ term) ∧
    (∃ pre post : String,
      UsersManagement.usersUrl p term = pre ++ toString p ++ post ∧
      UsersManagement.usersUrl q term = pre ++ toString q ++ post ∧
      pre = "/api/admin/users?page=" ∧ post = "&per_page=10&username=" ++ term) ∧
    (∃ pre post : String,
      SecurityLogsManagement.logsUrl p term filterType = pre ++ toString p ++ post ∧
      SecurityLogsManagement.logsUrl q term filterType = pre ++ toString q ++ post ∧
      pre = "/api/admin/security-logs?page=" ∧
      post = "&per_page=10&search=" ++ term ++ "&type=" ++ filterType) ∧
    crudPanels.map (fun cfg => cfg.path) =
      ["/api/admin/items", "/api/admin/monsters", "/api/admin/scenarios", "/api/admin/cards"] := by
  refine ⟨fun cfg _ => ⟨_, _, ?_, ?_, rfl, rfl⟩, ⟨_, _, ?_, ?_, rfl, rfl⟩,
    ⟨_, _, ?_, ?_, rfl, rfl⟩, rfl⟩ <;>
  simp only [CrudPanel.listUrl, UsersManagement.usersUrl, SecurityLogsManagement.logsUrl,
    String.append_assoc]

/-- C10, as stated, fails: an update of monster 4 that the server accepts with
status 204 and no body leaves the form as typed, the editing id set and the
page as it was, and raises the failure alert, because `response.json()` throws
after the 2xx answer; the users panel does the same. -/
theorem accepted_save_without_body_keeps_form :
    httpOk 204 = true ∧
    (MonstersManagement.panel.handleSave sampleMonsterEdit (some 4)
      (.response 204 (.error "Unexpected end of JSON input")) (.failed "unused")).state =
      { sampleMonsterEdit with error := some "Unexpected end of JSON input" } ∧
    sampleMonsterEdit.editFormData ≠ MonstersManagement.initialForm ∧
    sampleMonsterEdit.editing = some 4 ∧
    (MonstersManagement.panel.handleSave sampleMonsterEdit (some 4)
      (.response 204 (.error "Unexpected end of JSON input")) (.failed "unused")).alerts =
      ["Erro ao atualizar monstro: Unexpected end of JSON input"] ∧
    (UsersManagement.handleSaveEdit sampleUsersEdit 5
      (.response 204 (.error "Unexpected end of JSON input")) (.failed "unused")).state =
      { sampleUsersEdit with error := some "Unexpected end of JSON input" } ∧
    sampleUsersEdit.editFormData ≠ UsersManagement.cancelForm ∧
    sampleUsersEdit.editingUser = some 5 ∧
    (UsersManagement.handleSaveEdit sampleUsersEdit 5
      (.response 204 (.error "Unexpected end of JSON input")) (.failed "unused")).alerts =
      ["Erro ao atualizar usuário: Unexpected end of JSON input"] := by
  refine ⟨by decide, by decide, by decide, by decide, by decide, by decide, by decide,
    by decide, by decide⟩

/-- C10 (amended): in the Items, Monsters, Scenarios, Cards and Users panels,
after a create or update answered 2xx with a decodable body, the form data are
the hard-coded defaults, which are the values of the initial state, the
editing and creating flags are cleared, and `currentPage` is what it was. A
create or update answered 2xx with a body that does not decode is handled as a
failure: the form, the flags and the page stay as they were, the message of the
exception is shown and alerted, and nothing but the save request is sent. -/
theorem save_success_resets_form_keeps_page :
    (∀ cfg ∈ crudPanels, ∀ (s : PanelState) (id : Option Int) (status : Nat)
        (payload : ErrPayload) (refetch : Fetched ListPayload), httpOk status = true →
      (cfg.handleSave s id (.response status (.ok payload)) refetch).state.editFormData =
        cfg.cancelForm ∧
      cfg.cancelForm = cfg.init.editFormData ∧
      cfg.cancelForm = cfg.createForm ∧
      (cfg.handleSave s id (.response status (.ok payload)) refetch).state.editing = none ∧
      (cfg.handleSave s id (.response status (.ok payload)) refetch).state.creatingNew =
        false ∧
      (cfg.handleSave s id (.response status (.ok payload)) refetch).state.currentPage =
        s.currentPage) ∧
    (∀ (s : UsersState) (userId : Int) (status : Nat) (payload : ErrPayload)
        (refetch : Fetched ListPayload), httpOk status = true →
      (UsersManagement.handleSaveEdit s userId (.response status (.ok payload))
        refetch).state.editFormData = UsersManagement.cancelForm ∧
      UsersManagement.cancelForm = UsersManagement.init.editFormData ∧
      (UsersManagement.handleSaveEdit s userId (.response status (.ok payload))
        refetch).state.editingUser = none ∧
      (UsersManagement.handleSaveEdit s userId (.response status (.ok payload))
        refetch).state.currentPage = s.currentPage) ∧
    (∀ (cfg : CrudPanel) (s : PanelState) (id : Option Int) (status : Nat) (msg : String)
        (refetch : Fetched ListPayload), httpOk status = true →
      (cfg.handleSave s id (.response status (.error msg)) refetch).state =
        { s with error := some msg, loading := false } ∧
      (cfg.handleSave s id (.response status (.error msg)) refetch).requests.length = 1 ∧
      (cfg.handleSave s id (.response status (.error msg)) refetch).alerts =
        [(if idTruthy id then cfg.updateFailed else cfg.createFailed) ++ msg]) ∧
    (∀ (s : UsersState) (userId : Int) (status : Nat) (msg : String)
        (refetch : Fetched ListPayload), httpOk status = true →
      (UsersManagement.handleSaveEdit s userId (.response status (.error msg)) refetch).state =
        { s with error := some msg, loading := false } ∧
      (UsersManagement.handleSaveEdit s userId (.response status (.error msg))
        refetch).requests.length = 1 ∧
      (UsersManagement.handleSaveEdit s userId (.response status (.error msg)) refetch).alerts =
        ["Erro ao atualizar usuário: " ++ msg]) := by
  refine ⟨?_, ?_, ?_, ?_⟩
  · intro cfg hcfg s id status payload refetch hok
    have hk := CrudPanel.fetchList_keeps cfg
      (cfg.handleCancelEdit { s with loading := true, error := none }) refetch
    have hdefaults : cfg.cancelForm = cfg.init.editFormData ∧ cfg.cancelForm = cfg.createForm := by
      simp only [crudPanels, List.mem_cons, List.mem_singleton, List.not_mem_nil, or_false] at hcfg
      rcases hcfg with rfl | rfl | rfl | rfl <;> exact ⟨rfl, rfl⟩
    simp only [CrudPanel.handleSave, hok, if_true]
    exact ⟨hk.1, hdefaults.1, hdefaults.2, hk.2.1, hk.2.2.1, hk.2.2.2⟩
  · intro s userId status payload refetch hok
    have hk := UsersManagement.fetchUsers_keeps
      (UsersManagement.handleCancelEdit { s with loading := true }) refetch
    simp only [UsersManagement.handleSaveEdit, hok, if_true]
    exact ⟨hk.1, rfl, hk.2.1, hk.2.2⟩
  · intro cfg s id status msg refetch hok
    simp [CrudPanel.handleSave, CrudPanel.mutationFailed, hok]
  · intro s userId status msg refetch hok
    simp [UsersManagement.handleSaveEdit, hok]

/-- Witness of `save_success_resets_form_keeps_page`: saving monster 4 from
page 2 with a changed reward, answered 200, gives back the default form on
page 2. -/
theorem save_success_resets_form_keeps_page_witness :
    (MonstersManagement.panel.handleSave sampleMonsterEdit (some 4)
      (.response 200 (.ok ⟨.undefined⟩)) (.failed "offline")).state.editFormData =
      MonstersManagement.initialForm ∧
    (MonstersManagement.panel.handleSave sampleMonsterEdit (some 4)
      (.response 200 (.ok ⟨.undefined⟩)) (.failed "offline")).state.currentPage = 2 :=
  ⟨(save_success_resets_form_keeps_page.1 MonstersManagement.panel (by simp [crudPanels])
      sampleMonsterEdit (some 4) 200 ⟨.undefined⟩ (.failed "offline") (by decide)).1,
   (save_success_resets_form_keeps_page.1 MonstersManagement.panel (by simp [crudPanels])
      sampleMonsterEdit (some 4) 200 ⟨.undefined⟩ (.failed "offline") (by decide)).2.2.2.2.2⟩

/-! ### Cancelling and saving the forms -/

/-- C18: in the Items, Monsters, Scenarios and Cards panels, cancelling resets
`editFormData` to the hard-coded defaults, which are the values of the initial
state and of the create action, and clears the editing id and the creating
flag, whatever the form contained. -/
theorem cancel_resets_form_to_defaults :
    ∀ cfg ∈ crudPanels, ∀ s : PanelState,
      (cfg.handleCancelEdit s).editFormData = cfg.init.editFormData ∧
      (cfg.handleCancelEdit s).editFormData = (cfg.handleCreateClick s).editFormData ∧
      (cfg.handleCancelEdit s).editing = none ∧
      (cfg.handleCancelEdit s).creatingNew = false := by
  intro cfg hcfg s
  simp only [crudPanels, List.mem_cons, List.mem_singleton, List.not_mem_nil, or_false] at hcfg
  rcases hcfg with rfl | rfl | rfl | rfl <;> exact ⟨rfl, rfl, rfl, rfl⟩

/-- Witness of `cancel_resets_form_to_defaults`: cancelling the edit of monster 4
gives back the default monster form. -/
theorem cancel_resets_form_to_defaults_witness :
    (MonstersManagement.panel.handleCancelEdit sampleMonsterEdit).editFormData =
      MonstersManagement.initialForm ∧
    (MonstersManagement.panel.handleCancelEdit sampleMonsterEdit).editing = none :=
  ⟨(cancel_resets_form_to_defaults MonstersManagement.panel (by simp [crudPanels])
      sampleMonsterEdit).1,
   (cancel_resets_form_to_defaults MonstersManagement.panel (by simp [crudPanels])
      sampleMonsterEdit).2.2.1⟩

/-- C19, as stated, fails: while user 5 (`bob`) is being edited the form holds
his values, and after `handleCancelEdit` it does not hold them any more. -/
theorem users_cancel_drops_form_values :
    jsGet sampleUsersEdit.editFormData "username" = .str "bob" ∧
    (UsersManagement.handleCancelEdit sampleUsersEdit).editFormData ≠
      sampleUsersEdit.editFormData ∧
    jsGet (UsersManagement.handleCancelEdit sampleUsersEdit).editFormData "username" =
      .str "" := by
  refine ⟨by decide, by decide, by decide⟩

/-- C19 (amended): in the Users panel, cancelling an edit resets `editFormData`
to the hard-coded defaults, the values of the initial state, clears
`editingUser` and changes nothing else, whatever the form contained. -/
theorem users_cancel_resets_form (s : UsersState) :
    (UsersManagement.handleCancelEdit s).editFormData =
      [("username", .str ""), ("email", .str ""), ("is_admin", .bool false),
       ("is_active", .bool false)] ∧
    (UsersManagement.handleCancelEdit s).editFormData = UsersManagement.init.editFormData ∧
    (UsersManagement.handleCancelEdit s).editingUser = none ∧
    UsersManagement.handleCancelEdit s =
      { s with editingUser := none, editFormData := UsersManagement.init.editFormData } :=
  ⟨rfl, rfl, rfl, rfl⟩

/-- C20 (code evaluated at the failing input): after the edit button of the item
with id 0, the edit form is not mounted, and saving with that id sends `POST` to
`/api/admin/items` with the form data as body, not `PUT` to
`/api/admin/items/0`. -/
theorem save_of_entity_zero_posts :
    sampleItemZeroEdit.editing = some 0 ∧
    CrudPanel.editFormMounted sampleItemZeroEdit = false ∧
    (ItemsManagement.panel.submitForm sampleItemZeroEdit false
        (.response 201 (.ok ⟨.undefined⟩)) (.failed "offline")).requests.head? =
      some ⟨"POST", "/api/admin/items", some sampleItemZeroEdit.editFormData⟩ ∧
    (ItemsManagement.panel.handleSave sampleItemZeroEdit (some 0)
        (.response 201 (.ok ⟨.undefined⟩)) (.failed "offline")).alerts =
      ["Item criado com sucesso!"] := by
  refine ⟨by decide, by decide, by decide, by decide⟩

/-! ### Failed and accepted mutations -/

theorem failureMessage_cases (status : Nat) :
    (∀ e : String, e ≠ "" → failureMessage status (.ok ⟨.val e⟩) = e) ∧
    (∀ p : ErrPayload, p.error.truthyStr = false →
      failureMessage status (.ok p) = "HTTP error! status: " ++ toString status) ∧
    (∀ m : String, failureMessage status (.error m) = m) := by
  refine ⟨?_, ?_, fun _ => rfl⟩
  · intro e he
    simp [failureMessage, JsRef.truthyStr, JsRef.toDOMString, he]
  · intro p hp
    simp [failureMessage, hp]

/-- C15, as stated, fails in the Users panel: an update refused with status 400
and the payload `{ error: 'E-mail já cadastrado' }` surfaces the generic
`HTTP error! status: 400` in the banner and in the alert, not the server's
text. -/
theorem users_refusal_hides_server_message :
    (UsersManagement.handleSaveEdit sampleUsersEdit 5 sampleRefusal
        sampleListLoaded).state.error = some "HTTP error! status: 400" ∧
    (UsersManagement.handleSaveEdit sampleUsersEdit 5 sampleRefusal sampleListLoaded).alerts =
      ["Erro ao atualizar usuário: HTTP error! status: 400"] ∧
    failureMessage 400 (.ok ⟨.val "E-mail já cadastrado"⟩) = "E-mail já cadastrado" := by
  refine ⟨by decide, by decide, by decide⟩

/-- C15 (amended): a create, update or delete answered non-2xx is surfaced in the
banner state and in one alert, loading ends false and the mutation is the only
request sent. In the Items, Monsters, Scenarios, Cards, AdSense and Settings
panels the message is `failureMessage`: the payload's error string when the
decoded payload has a non-empty one, the generic `HTTP error! status: <code>`
when it has none, and the decoder's exception when the body does not decode. In
the Users panel it is always the generic message. -/
theorem failed_mutation_is_surfaced (status : Nat) (body : Except String ErrPayload)
    (hfail : httpOk status = false) :
    (∀ (cfg : CrudPanel) (s : PanelState) (id : Option Int) (refetch : Fetched ListPayload),
      (cfg.handleSave s id (.response status body) refetch).state.error =
        some (failureMessage status body) ∧
      (cfg.handleSave s id (.response status body) refetch).alerts =
        [(if idTruthy id then cfg.updateFailed else cfg.createFailed) ++
          failureMessage status body] ∧
      (cfg.handleSave s id (.response status body) refetch).state.loading = false ∧
      (cfg.handleSave s id (.response status body) refetch).requests.length = 1) ∧
    (∀ (cfg : CrudPanel) (s : PanelState) (id : Int) (refetch : Fetched ListPayload),
      (cfg.handleDelete s true id (.response status body) refetch).state.error =
        some (failureMessage status body) ∧
      (cfg.handleDelete s true id (.response status body) refetch).alerts =
        [cfg.deleteFailed ++ failureMessage status body] ∧
      (cfg.handleDelete s true id (.response status body) refetch).state.loading = false ∧
      (cfg.handleDelete s true id (.response status body) refetch).requests.length = 1) ∧
    (∀ (s : AdSenseState) (id : Int) (configO : Fetched JsObject)
        (unitsO : Fetched (List JsObject)),
      (∀ r ∈ [AdSenseManagement.handleSaveConfig s (.response status body) configO unitsO,
              AdSenseManagement.handleCreateAdUnit s (.response status body) configO unitsO,
              AdSenseManagement.handleUpdateAdUnit s id (.response status body) configO unitsO,
              AdSenseManagement.handleDeleteAdUnit s true id (.response status body) configO
                unitsO],
        r.state.error = some (failureMessage status body) ∧ r.state.loading = false ∧
        r.requests.length = 1 ∧
        ∃ label : String, r.alerts = [label ++ failureMessage status body])) ∧
    (∀ (s : SettingsState) (reload : Fetched JsObject),
      (AdminSettings.handleSaveSettings s (.response status body) reload).state.error =
        some (failureMessage status body) ∧
      (AdminSettings.handleSaveSettings s (.response status body) reload).alerts =
        ["Erro ao atualizar configurações: " ++ failureMessage status body] ∧
      (AdminSettings.handleSaveSettings s (.response status body) reload).state.loading =
        false ∧
      (AdminSettings.handleSaveSettings s (.response status body) reload).requests.length =
        1) ∧
    (∀ (s : UsersState) (userId : Int) (refetch : Fetched ListPayload),
      (UsersManagement.handleSaveEdit s userId (.response status body) refetch).state.error =
        some ("HTTP error! status: " ++ toString status) ∧
      (UsersManagement.handleSaveEdit s userId (.response status body) refetch).alerts =
        ["Erro ao atualizar usuário: " ++ ("HTTP error! status: " ++ toString status)] ∧
      (UsersManagement.handleSaveEdit s userId (.response status body) refetch).state.loading =
        false ∧
      (UsersManagement.handleSaveEdit s userId (.response status body)
        refetch).requests.length = 1) ∧
    (∀ e : String, e ≠ "" → failureMessage status (.ok ⟨.val e⟩) = e) ∧
    (∀ p : ErrPayload, p.error.truthyStr = false →
      failureMessage status (.ok p) = "HTTP error! status: " ++ toString status) ∧
    (∀ m : String, failureMessage status (.error m) = m) := by
  refine ⟨?_, ?_, ?_, ?_, ?_, (failureMessage_cases status).1, (failureMessage_cases status).2.1,
    (failureMessage_cases status).2.2⟩
  · intro cfg s id refetch
    simp [CrudPanel.handleSave, CrudPanel.mutationFailed, hfail]
  · intro cfg s id refetch
    simp [CrudPanel.handleDelete, CrudPanel.mutationFailed, hfail]
  · intro s id configO unitsO r hr
    simp only [List.mem_cons, List.mem_singleton, List.not_mem_nil, or_false] at hr
    rcases hr with rfl | rfl | rfl | rfl
    · simp only [AdSenseManagement.handleSaveConfig, AdSenseManagement.mutationFailed, hfail]
      exact ⟨rfl, rfl, rfl, _, rfl⟩
    · simp only [AdSenseManagement.handleCreateAdUnit, AdSenseManagement.mutationFailed, hfail]
      exact ⟨rfl, rfl, rfl, _, rfl⟩
    · simp only [AdSenseManagement.handleUpdateAdUnit, AdSenseManagement.mutationFailed, hfail]
      exact ⟨rfl, rfl, rfl, _, rfl⟩
    · simp only [AdSenseManagement.handleDeleteAdUnit, hfail]
      exact ⟨rfl, rfl, rfl, _, rfl⟩
  · intro s reload
    simp [AdminSettings.handleSaveSettings, hfail]
  · intro s userId refetch
    simp [UsersManagement.handleSaveEdit, hfail]

/-- Witness of `failed_mutation_is_surfaced`: an item update refused with 409 and
the payload `{ error: 'Nome duplicado' }` shows that text in the banner and in
the alert. -/
theorem failed_mutation_is_surfaced_witness :
    (ItemsManagement.panel.handleSave ItemsManagement.panel.init (some 7)
        (.response 409 (.ok ⟨.val "Nome duplicado"⟩)) sampleListLoaded).state.error =
      some "Nome duplicado" ∧
    (ItemsManagement.panel.handleSave ItemsManagement.panel.init (some 7)
        (.response 409 (.ok ⟨.val "Nome duplicado"⟩)) sampleListLoaded).alerts =
      ["Erro ao atualizar item: Nome duplicado"] :=
  ⟨((failed_mutation_is_surfaced 409 (.ok ⟨.val "Nome duplicado"⟩) (by decide)).1
      ItemsManagement.panel ItemsManagement.panel.init (some 7) sampleListLoaded).1,
   ((failed_mutation_is_surfaced 409 (.ok ⟨.val "Nome duplicado"⟩) (by decide)).1
      ItemsManagement.panel ItemsManagement.panel.init (some 7) sampleListLoaded).2.1⟩

theorem CrudPanel.fetchList_requests (cfg : CrudPanel) (s : PanelState)
    (o : Fetched ListPayload) :
    (cfg.fetchList s o).requests = [⟨"GET", cfg.listUrl s.currentPage s.searchTerm, none⟩] ∧
    ((cfg.fetchList s o).state.rows = s.rows ∨
      ∃ status data, o = .response status (.ok data) ∧
        (cfg.fetchList s o).state.rows = data.rows) := by
  unfold CrudPanel.fetchList
  rcases o with msg | ⟨status, msg | data⟩ <;> simp <;> split_ifs <;> simp
  exact Or.inr ⟨status, data, ⟨rfl, rfl⟩, rfl⟩

theorem UsersManagement.fetchUsers_requests (s : UsersState) (o : Fetched ListPayload) :
    (UsersManagement.fetchUsers s o).requests =
      [⟨"GET", UsersManagement.usersUrl s.currentPage s.searchTerm, none⟩] ∧
    ((UsersManagement.fetchUsers s o).state.users = s.users ∨
      ∃ status data, o = .response status (.ok data) ∧
        (UsersManagement.fetchUsers s o).state.users = data.rows) := by
  unfold UsersManagement.fetchUsers
  rcases o with msg | ⟨status, msg | data⟩ <;> simp <;> split_ifs <;> simp
  exact Or.inr ⟨status, data, ⟨rfl, rfl⟩, rfl⟩

theorem AdSenseManagement.fetchAdSenseData_requests (s : AdSenseState)
    (configO : Fetched JsObject) (unitsO : Fetched (List JsObject)) :
    ((AdSenseManagement.fetchAdSenseData s configO unitsO).requests =
        [⟨"GET", "/api/admin/adsense/config", none⟩] ∨
      (AdSenseManagement.fetchAdSenseData s configO unitsO).requests =
        [⟨"GET", "/api/admin/adsense/config", none⟩,
         ⟨"GET", "/api/admin/adsense/ad-units", none⟩]) ∧
    ((AdSenseManagement.fetchAdSenseData s configO unitsO).state.adUnits = s.adUnits ∨
      ∃ status data, unitsO = .response status (.ok data) ∧
        (AdSenseManagement.fetchAdSenseData s configO unitsO).state.adUnits = data) := by
  have hunits : ∀ (s2 : AdSenseState),
      (AdSenseManagement.loadAdUnits s2 [⟨"GET", "/api/admin/adsense/config", none⟩]
          unitsO).requests =
        [⟨"GET", "/api/admin/adsense/config", none⟩,
         ⟨"GET", "/api/admin/adsense/ad-units", none⟩] ∧
      ((AdSenseManagement.loadAdUnits s2 [⟨"GET", "/api/admin/adsense/config", none⟩]
          unitsO).state.adUnits = s2.adUnits ∨
        ∃ status data, unitsO = .response status (.ok data) ∧
          (AdSenseManagement.loadAdUnits s2 [⟨"GET", "/api/admin/adsense/config", none⟩]
            unitsO).state.adUnits = data) := by
    intro s2
    unfold AdSenseManagement.loadAdUnits
    rcases unitsO with msg | ⟨status, msg | data⟩ <;> simp <;> split_ifs <;> simp
  unfold AdSenseManagement.fetchAdSenseData
  rcases configO with msg | ⟨status, msg | data⟩
  · simp
  · simp only
    split_ifs
    · simp
    · exact ⟨Or.inr (hunits _).1, (hunits _).2⟩
    · simp
  · simp only
    split_ifs
    · exact ⟨Or.inr (hunits _).1, (hunits _).2⟩
    · exact ⟨Or.inr (hunits _).1, (hunits _).2⟩
    · simp

/-- C16, as stated, fails: an update of monster 4 refused with status 500 is
the only request of the run; no list request follows it. -/
theorem refused_mutation_is_not_refetched :
    (MonstersManagement.panel.handleSave sampleMonsterEdit (some 4)
        (.response 500 (.ok ⟨.undefined⟩)) sampleListLoaded).requests =
      [⟨"PUT", "/api/admin/monsters/4", some sampleMonsterEdit.editFormData⟩] ∧
    ((MonstersManagement.panel.handleSave sampleMonsterEdit (some 4)
        (.response 500 (.ok ⟨.undefined⟩)) sampleListLoaded).requests.filter
      (fun q => q.method == "GET")).length = 0 := by
  refine ⟨by decide, by decide⟩

/-- C16 (amended): in the Items, Monsters, Scenarios, Cards and Users panels, a
mutation that is accepted (2xx, with a decodable body where the handler decodes
it) is followed by exactly one list request for the current page and search
term, a mutation that fails is followed by no request and leaves the list as it
was, and in every case the list held afterwards is either the one held before
or the rows of that list response. In the AdSense panel the same holds with the
reload of the configuration and of the ad units in place of the list
request. -/
theorem accepted_mutation_is_refetched :
    (∀ (cfg : CrudPanel) (s : PanelState) (id : Option Int) (save : Fetched ErrPayload)
        (refetch : Fetched ListPayload),
      (save.decoded2xx = true →
        (cfg.handleSave s id save refetch).requests.length = 2 ∧
        (cfg.handleSave s id save refetch).requests.tail =
          [⟨"GET", cfg.listUrl s.currentPage s.searchTerm, none⟩]) ∧
      (save.decoded2xx = false →
        (cfg.handleSave s id save refetch).requests.length = 1 ∧
        (cfg.handleSave s id save refetch).state.rows = s.rows) ∧
      ((cfg.handleSave s id save refetch).state.rows = s.rows ∨
        ∃ status data, refetch = .response status (.ok data) ∧
          (cfg.handleSave s id save refetch).state.rows = data.rows)) ∧
    (∀ (cfg : CrudPanel) (s : PanelState) (id : Int) (del : Fetched ErrPayload)
        (refetch : Fetched ListPayload),
      (del.is2xx = true →
        (cfg.handleDelete s true id del refetch).requests.length = 2 ∧
        (cfg.handleDelete s true id del refetch).requests.tail =
          [⟨"GET", cfg.listUrl s.currentPage s.searchTerm, none⟩]) ∧
      (del.is2xx = false →
        (cfg.handleDelete s true id del refetch).requests.length = 1 ∧
        (cfg.handleDelete s true id del refetch).state.rows = s.rows) ∧
      ((cfg.handleDelete s true id del refetch).state.rows = s.rows ∨
        ∃ status data, refetch = .response status (.ok data) ∧
          (cfg.handleDelete s true id del refetch).state.rows = data.rows)) ∧
    (∀ (s : UsersState) (userId : Int) (action : String) (o : Fetched ErrPayload)
        (refetch : Fetched ListPayload),
      ∀ r ∈ [UsersManagement.handleSaveEdit s userId o refetch,
             UsersManagement.handleBanUnban s true userId action o refetch],
        (o.decoded2xx = true →
          r.requests.length = 2 ∧
          r.requests.tail =
            [⟨"GET", UsersManagement.usersUrl s.currentPage s.searchTerm, none⟩]) ∧
        (o.decoded2xx = false → r.requests.length = 1 ∧ r.state.users = s.users) ∧
        (r.state.users = s.users ∨
          ∃ status data, refetch = .response status (.ok data) ∧
            r.state.users = data.rows)) ∧
    (∀ (s : AdSenseState) (id : Int) (o : Fetched ErrPayload) (configO : Fetched JsObject)
        (unitsO : Fetched (List JsObject)),
      ∀ ra ∈ [(AdSenseManagement.handleCreateAdUnit s o configO unitsO, o.decoded2xx),
              (AdSenseManagement.handleUpdateAdUnit s id o configO unitsO, o.decoded2xx),
              (AdSenseManagement.handleDeleteAdUnit s true id o configO unitsO, o.is2xx)],
        (ra.2 = true →
          ra.1.requests.tail = [⟨"GET", "/api/admin/adsense/config", none⟩] ∨
          ra.1.requests.tail =
            [⟨"GET", "/api/admin/adsense/config", none⟩,
             ⟨"GET", "/api/admin/adsense/ad-units", none⟩]) ∧
        (ra.2 = false → ra.1.requests.length = 1 ∧ ra.1.state.adUnits = s.adUnits) ∧
        (ra.1.state.adUnits = s.adUnits ∨
          ∃ status data, unitsO = .response status (.ok data) ∧
            ra.1.state.adUnits = data)) := by
  refine ⟨?_, ?_, ?_, ?_⟩
  · intro cfg s id save refetch
    have hk := CrudPanel.fetchList_requests cfg
      (cfg.handleCancelEdit { s with loading := true, error := none }) refetch
    rcases save with msg | ⟨status, msg | payload⟩ <;>
      simp only [Fetched.decoded2xx, CrudPanel.handleSave, CrudPanel.mutationFailed] <;>
      (try split_ifs) <;> simp_all [CrudPanel.handleCancelEdit]
  · intro cfg s id del refetch
    have hk := CrudPanel.fetchList_requests cfg { s with loading := true } refetch
    rcases del with msg | ⟨status, body⟩ <;>
      simp only [Fetched.is2xx, CrudPanel.handleDelete, CrudPanel.mutationFailed] <;>
      (try split_ifs) <;> simp_all
  · intro s userId action o refetch r hr
    have hk1 := UsersManagement.fetchUsers_requests
      (UsersManagement.handleCancelEdit { s with loading := true }) refetch
    have hk2 := UsersManagement.fetchUsers_requests { s with loading := true } refetch
    simp only [List.mem_cons, List.mem_singleton, List.not_mem_nil, or_false] at hr
    rcases hr with rfl | rfl <;> rcases o with msg | ⟨status, msg | payload⟩ <;>
      simp only [Fetched.decoded2xx, UsersManagement.handleSaveEdit,
        UsersManagement.handleBanUnban] <;>
      (try split_ifs) <;> simp_all [UsersManagement.handleCancelEdit]
  · intro s id o configO unitsO ra hra
    have hk1 := AdSenseManagement.fetchAdSenseData_requests
      { s with loading := true, error := none, creatingNewAdUnit := false,
               adUnitFormData := [("name", .str ""), ("ad_unit_id", .str ""),
                 ("ad_format", .str "display"), ("is_active", .bool true)] } configO unitsO
    have hk2 := AdSenseManagement.fetchAdSenseData_requests
      { s with loading := true, error := none, editingAdUnit := none,
               adUnitFormData := [("name", .str ""), ("ad_unit_id", .str ""),
                 ("ad_format", .str "display"), ("is_active", .bool true)] } configO unitsO
    have hk3 := AdSenseManagement.fetchAdSenseData_requests { s with loading := true }
      configO unitsO
    simp only [List.mem_cons, List.mem_singleton, List.not_mem_nil, or_false] at hra
    rcases hra with rfl | rfl | rfl <;> rcases o with msg | ⟨status, msg | payload⟩ <;>
      simp only [Fetched.decoded2xx, Fetched.is2xx, AdSenseManagement.handleCreateAdUnit,
        AdSenseManagement.handleUpdateAdUnit, AdSenseManagement.handleDeleteAdUnit,
        AdSenseManagement.mutationFailed] <;>
      (try split_ifs) <;> simp_all

/-- Witness of `accepted_mutation_is_refetched`: an accepted update of monster 4
on page 2 with the search term `zom` is followed by the list request for that
page and term. -/
theorem accepted_mutation_is_refetched_witness :
    (MonstersManagement.panel.handleSave sampleMonsterEdit (some 4)
        (.response 200 (.ok ⟨.undefined⟩)) sampleListLoaded).requests.tail =
      [⟨"GET", "/api/admin/monsters?page=2&per_page=10&name=zom", none⟩] :=
  ((accepted_mutation_is_refetched.1 MonstersManagement.panel sampleMonsterEdit (some 4)
    (.response 200 (.ok ⟨.undefined⟩)) sampleListLoaded).1 (by decide)).2

/-! ### Monetary form fields -/

theorem jsGet_setField_same (o : JsObject) (key : String) (v : JsVal) :
    jsGet (setField o key v) key = v := by
  induction o with
  | nil => simp [setField, jsGet, List.lookup]
  | cons kv rest ih =>
    obtain ⟨k, w⟩ := kv
    by_cases h : k = key
    · simp [setField, jsGet, List.lookup, h]
    · have h2 : (key == k) = false := by simpa using fun e => h e.symm
      simp only [jsGet] at ih
      simp [setField, jsGet, List.lookup, h, h2, ih]

theorem jsGet_setField_other (o : JsObject) (key other : String) (v : JsVal)
    (h : other ≠ key) : jsGet (setField o key v) other = jsGet o other := by
  induction o with
  | nil =>
    have h2 : (other == key) = false := by simpa using h
    simp [setField, jsGet, List.lookup, h2]
  | cons kv rest ih =>
    obtain ⟨k, w⟩ := kv
    simp only [jsGet] at ih
    by_cases hk : k = key
    · subst hk
      have h2 : (other == k) = false := by simpa using h
      simp [setField, jsGet, List.lookup, h2]
    · by_cases ho : other = k
      · subst ho
        simp [setField, jsGet, List.lookup, hk]
      · have h2 : (other == k) = false := by simpa using ho
        simp [setField, jsGet, List.lookup, hk, h2, ih]

theorem CrudPanel.handleSave_body (cfg : CrudPanel) (s : PanelState) (id : Option Int)
    (save : Fetched ErrPayload) (refetch : Fetched ListPayload) :
    firstBody (cfg.handleSave s id save refetch).requests = s.editFormData := by
  rcases save with msg | ⟨status, msg | payload⟩ <;>
    simp only [CrudPanel.handleSave, CrudPanel.mutationFailed, firstBody] <;>
    split_ifs <;> simp

theorem AdminSettings.handleSaveSettings_body (s : SettingsState) (save : Fetched ErrPayload)
    (reload : Fetched JsObject) :
    firstBody (AdminSettings.handleSaveSettings s save reload).requests = s.editFormData := by
  rcases save with msg | ⟨status, msg | payload⟩ <;>
    simp only [AdminSettings.handleSaveSettings, firstBody] <;>
    (try split_ifs) <;> simp

/-- C13: monetary form fields round-trip as strings. A string typed into a text
field of the shared form (Monster `dooficoin_reward`, Item `base_price` and
`current_price`) or of the settings form (`self_kill_coin_reward`,
`mining_initial_dooficoin`, `mining_time_double_threshold`) is the value of
that field in the body of the following save, also when other fields are typed
in between; a value loaded by the edit action, or by the settings load, and
left untouched is sent back as it was received; and a string is never a
number. -/
theorem monetary_fields_round_trip :
    (∀ (cfg : CrudPanel) (s : PanelState) (field value : String) (id : Option Int)
        (save : Fetched ErrPayload) (refetch : Fetched ListPayload),
      jsGet (firstBody (cfg.handleSave (CrudPanel.typeText s field value) id save
        refetch).requests) field = .str value) ∧
    (∀ (s : SettingsState) (field value : String) (save : Fetched ErrPayload)
        (reload : Fetched JsObject),
      jsGet (firstBody (AdminSettings.handleSaveSettings (AdminSettings.typeText s field value)
        save reload).requests) field = .str value) ∧
    (∀ (cfg : CrudPanel) (s : PanelState) (field value other text : String) (id : Option Int)
        (save : Fetched ErrPayload) (refetch : Fetched ListPayload), other ≠ field →
      jsGet (firstBody (cfg.handleSave
        (CrudPanel.typeText (CrudPanel.typeText s field value) other text) id save
        refetch).requests) field = .str value) ∧
    (∀ (s : PanelState) (id : Int) (monster : JsObject) (saved : Option Int)
        (save : Fetched ErrPayload) (refetch : Fetched ListPayload),
      jsGet (firstBody (MonstersManagement.panel.handleSave
        (MonstersManagement.handleEditClick s id monster) saved save refetch).requests)
        "dooficoin_reward" = jsGet monster "dooficoin_reward") ∧
    (∀ (s : PanelState) (id : Int) (item : JsObject) (attributes : Option String)
        (saved : Option Int) (save : Fetched ErrPayload) (refetch : Fetched ListPayload),
      jsGet (firstBody (ItemsManagement.panel.handleSave
        (ItemsManagement.handleEditClick s id item attributes) saved save refetch).requests)
        "base_price" = jsGet item "base_price" ∧
      jsGet (firstBody (ItemsManagement.panel.handleSave
        (ItemsManagement.handleEditClick s id item attributes) saved save refetch).requests)
        "current_price" = jsGet item "current_price") ∧
    (∀ (s : SettingsState) (status : Nat) (data : JsObject) (save : Fetched ErrPayload)
        (reload : Fetched JsObject), httpOk status = true →
      firstBody (AdminSettings.handleSaveSettings
        (AdminSettings.fetchSettings s (.response status (.ok data))).state save
        reload).requests = data) ∧
    (∀ (value : String) (n : JsNum), JsVal.str value ≠ JsVal.num n) := by
  refine ⟨?_, ?_, ?_, ?_, ?_, ?_, ?_⟩
  · intro cfg s field value id save refetch
    rw [CrudPanel.handleSave_body]
    exact jsGet_setField_same _ _ _
  · intro s field value save reload
    rw [AdminSettings.handleSaveSettings_body]
    exact jsGet_setField_same _ _ _
  · intro cfg s field value other text id save refetch h
    rw [CrudPanel.handleSave_body]
    simp only [CrudPanel.typeText]
    rw [jsGet_setField_other _ _ _ _ (Ne.symm h)]
    exact jsGet_setField_same _ _ _
  · intro s id monster saved save refetch
    rw [CrudPanel.handleSave_body]
    simp [MonstersManagement.handleEditClick, copyFields, jsGet, List.lookup]
  · intro s id item attributes saved save refetch
    rw [CrudPanel.handleSave_body]
    simp [ItemsManagement.handleEditClick, copyFields, jsGet, List.lookup]
  · intro s status data save reload hok
    rw [AdminSettings.handleSaveSettings_body]
    simp [AdminSettings.fetchSettings, hok]
  · intro value n h
    cases h

/-- Witness of `monetary_fields_round_trip`: a 35-digit reward typed into the
monster form, followed by a new name, is the reward of the request body; and
the settings loaded with status 200 are sent back as loaded. -/
theorem monetary_fields_round_trip_witness :
    jsGet (firstBody (MonstersManagement.panel.handleSave
      (CrudPanel.typeText
        (CrudPanel.typeText sampleMonsterEdit "dooficoin_reward"
          "0.00000000000000000000000000000000101") "name" "Zed II")
      (some 4) sampleRefusal sampleListLoaded).requests) "dooficoin_reward" =
      .str "0.00000000000000000000000000000000101" ∧
    firstBody (AdminSettings.handleSaveSettings
      (AdminSettings.fetchSettings AdminSettings.init
        (.response 200 (.ok [("self_kill_coin_reward", .str "0.00000000000001")]))).state
      sampleRefusal (.failed "offline")).requests =
      [("self_kill_coin_reward", .str "0.00000000000001")] :=
  ⟨monetary_fields_round_trip.2.2.1 MonstersManagement.panel sampleMonsterEdit
      "dooficoin_reward" "0.00000000000000000000000000000000101" "name" "Zed II" (some 4)
      sampleRefusal sampleListLoaded (by decide),
   monetary_fields_round_trip.2.2.2.2.2.1 AdminSettings.init 200
      [("self_kill_coin_reward", .str "0.00000000000001")] sampleRefusal (.failed "offline")
      (by decide)⟩

/-! ### Mining countdown -/

theorem Mining.remaining_nonneg (endTime now : Int) : 0 ≤ Mining.remaining endTime now :=
  le_max_left _ _

theorem Mining.step_timeRemaining_nonneg (t : MiningTrace) (e : MiningEvent)
    (h : 0 ≤ t.state.timeRemaining) : 0 ≤ (Mining.step t e).state.timeRemaining := by
  cases e with
  | tick now =>
    simp only [Mining.step]
    split
    · exact Mining.remaining_nonneg _ _
    · exact h
  | statusLoaded data now =>
    simp only [Mining.step]
    split
    · exact Mining.remaining_nonneg _ _
    · simp only [Mining.setMiningStatus]
      split_ifs <;> exact h
  | statusFailed => exact h
  | sessionSet session =>
    simp only [Mining.step, Mining.setMiningStatus]
    split_ifs <;> exact h

theorem Mining.run_timeRemaining_nonneg (events : List MiningEvent) :
    ∀ t : MiningTrace, 0 ≤ t.state.timeRemaining →
      0 ≤ (Mining.run t events).state.timeRemaining := by
  induction events with
  | nil => intro t h; exact h
  | cons e rest ih =>
    intro t h
    exact ih (Mining.step t e) (Mining.step_timeRemaining_nonneg t e h)

/-- C11: for every end time and every current time the computed countdown is
`max(0, floor((end_time − now) / 1000))`, a non-negative whole number that is 0
whenever `now ≥ end_time`; and `timeRemaining ≥ 0` in every state the panel
reaches from mount, where it is 0. -/
theorem mining_countdown_never_negative :
    (∀ endTime now : Int,
      Mining.remaining endTime now = max 0 ⌊((endTime - now : Int) : ℚ) / 1000⌋ ∧
      0 ≤ Mining.remaining endTime now ∧
      (endTime ≤ now → Mining.remaining endTime now = 0)) ∧
    Mining.mount.state.timeRemaining = 0 ∧
    (∀ events : List MiningEvent, 0 ≤ (Mining.run Mining.mount events).state.timeRemaining) := by
  refine ⟨?_, rfl, fun events => Mining.run_timeRemaining_nonneg events _ (le_refl _)⟩
  intro endTime now
  refine ⟨?_, Mining.remaining_nonneg _ _, ?_⟩
  · have h := Rat.floor_intCast_div_natCast (endTime - now) 1000
    simp only [Nat.cast_ofNat] at h
    rw [h]
    rfl
  · intro hle
    unfold Mining.remaining
    omega

/-- Witness of `mining_countdown_never_negative`: 2.5 seconds after the end the
countdown is 0, and 2.5 seconds before it is 2. -/
theorem mining_countdown_never_negative_witness :
    Mining.remaining 10000 12500 = 0 ∧ Mining.remaining 10000 7500 = 2 :=
  ⟨(mining_countdown_never_negative.1 10000 12500).2.2 (by decide), by decide⟩

theorem Mining.run_ticks (endTime : Int) (nows : List Int) :
    ∀ t : MiningTrace, t.timerStatus = some ⟨true, some endTime⟩ →
      (Mining.run t (nows.map .tick)).timerFetches =
        t.timerFetches + (nows.filter (fun now => Mining.remaining endTime now = 0)).length ∧
      (Mining.run t (nows.map .tick)).timerStatus = some ⟨true, some endTime⟩ := by
  induction nows with
  | nil => intro t h; exact ⟨rfl, h⟩
  | cons now rest ih =>
    intro t h
    have hstep : (Mining.step t (.tick now)).timerStatus = some ⟨true, some endTime⟩ ∧
        (Mining.step t (.tick now)).timerFetches =
          if Mining.remaining endTime now = 0 then t.timerFetches + 1 else t.timerFetches := by
      simp [Mining.step, h]
    have hrest := ih (Mining.step t (.tick now)) hstep.1
    simp only [List.map_cons, Mining.run, List.foldl_cons] at hrest ⊢
    refine ⟨?_, hrest.2⟩
    rw [hrest.1, hstep.2, List.filter_cons]
    split_ifs with h0 h1 h1
    · simp only [List.length_cons]; omega
    · simp [h0] at h1
    · simp [h0] at h1
    · rfl

/-- C12, as stated, fails: with a session ending at 10 s that the server keeps
reporting as mining, the ticks at 10 s and at 11 s each issue a status request,
so the timer has issued 2 re-fetches, not 1; the tick at 9 s issued none. -/
theorem mining_timer_refetches_every_tick :
    (Mining.run Mining.mount
      [.statusLoaded ⟨true, some 10000⟩ 0, .statusLoaded ⟨true, some 10000⟩ 50, .tick 9000,
       .tick 10000]).timerFetches = 1 ∧
    (Mining.run Mining.mount
      [.statusLoaded ⟨true, some 10000⟩ 0, .statusLoaded ⟨true, some 10000⟩ 50, .tick 9000,
       .tick 10000, .statusLoaded ⟨true, some 10000⟩ 10100, .tick 11000]).timerFetches = 2 ∧
    (Mining.run Mining.mount
      [.statusLoaded ⟨true, some 10000⟩ 0, .statusLoaded ⟨true, some 10000⟩ 50,
       .tick 9000]).timerFetches = 0 := by
  refine ⟨by decide, by decide, by decide⟩

/-- C12 (amended): while the interval callback holds a mining session with end
time `endTime`, a sequence of timer ticks issues one `GET /api/mining/status`
for each tick at which the countdown is zero, which is the case exactly when the
tick is less than a second before `endTime` or later; so ticks at or after
`endTime` issue one request each, and ticks at which the countdown is above zero
issue none. -/
theorem mining_timer_refetch_count (t : MiningTrace) (endTime : Int) (nows : List Int)
    (h : t.timerStatus = some ⟨true, some endTime⟩) :
    (Mining.run t (nows.map .tick)).timerFetches =
      t.timerFetches + (nows.filter (fun now => Mining.remaining endTime now = 0)).length ∧
    (∀ now : Int, Mining.remaining endTime now = 0 ↔ endTime - now < 1000) ∧
    ((∀ now ∈ nows, endTime ≤ now) →
      (Mining.run t (nows.map .tick)).timerFetches = t.timerFetches + nows.length) ∧
    ((∀ now ∈ nows, 0 < Mining.remaining endTime now) →
      (Mining.run t (nows.map .tick)).timerFetches = t.timerFetches) := by
  have hrun := (Mining.run_ticks endTime nows t h).1
  have hzero : ∀ now : Int, Mining.remaining endTime now = 0 ↔ endTime - now < 1000 := by
    intro now
    unfold Mining.remaining
    omega
  refine ⟨hrun, hzero, ?_, ?_⟩
  · intro hall
    rw [hrun, List.filter_eq_self.mpr]
    intro now hnow
    have := hall now hnow
    simp only [decide_eq_true_eq]
    rw [hzero]
    omega
  · intro hall
    rw [hrun, List.filter_eq_nil_iff.mpr]
    · rfl
    · intro now hnow
      have := hall now hnow
      simp only [decide_eq_true_eq]
      omega

/-- Witness of `mining_timer_refetch_count`: once the session ending at 10 s is
captured, the ticks at 10 s, 11 s and 12 s issue three status requests. -/
theorem mining_timer_refetch_count_witness :
    (Mining.run (Mining.run Mining.mount [.statusLoaded ⟨true, some 10000⟩ 0])
      ([10000, 11000, 12000].map .tick)).timerFetches = 0 + 3 :=
  (mining_timer_refetch_count (Mining.run Mining.mount [.statusLoaded ⟨true, some 10000⟩ 0])
    10000 [10000, 11000, 12000] (by decide)).2.2.1 (by decide)

/-! ### Controls during a request -/

/-- C17, as stated, fails outside the arena: while the request of
`startMining` is in flight the start button is not disabled, and while the
request of `sellItem` is in flight the sell button is not disabled; a second
click during the flight sends the same request again. -/
theorem mining_and_inventory_controls_stay_enabled :
    sampleMiningIdle.loading = false ∧
    Mining.startDisabled (Mining.pending sampleMiningIdle) = false ∧
    (Mining.startMining (Mining.pending sampleMiningIdle) (.failed "offline")).requests =
      [⟨"POST", "/api/mining/start", none⟩] ∧
    Inventory.controlsDisabled (Inventory.pending sampleInventory) = false ∧
    (Inventory.sellItem (Inventory.pending sampleInventory) true 3 (.failed "offline")).requests =
      [⟨"POST", "/api/inventory/3/sell", none⟩] := by
  refine ⟨by decide, by decide, by decide, by decide, by decide⟩

/-- C17 (amended): each arena action (kill-monster, self-eliminate, die) has the
three arena buttons disabled while its request is in flight and enabled again
once it has settled, in every outcome, and sends one request. The other game
panels do not bind their controls to the request: in flight, the mining start
button and the inventory equip and sell buttons are not disabled, the mining
stop button is disabled exactly when `timeRemaining > 0`, and the scenario start
button exactly when the scenario's phase is above the player's. -/
theorem arena_actions_disable_controls (s : ArenaState) (playerId : Int)
    (o : Fetched PlayerPayload) :
    GameArena.controlsDisabled (GameArena.pending s) = true ∧
    (GameArena.controlsDisabled (GameArena.killMonster s playerId o).state = false ∧
      (GameArena.killMonster s playerId o).requests.length = 1) ∧
    (GameArena.controlsDisabled (GameArena.selfEliminate s playerId o).state = false ∧
      (GameArena.selfEliminate s playerId o).requests.length = 1) ∧
    (GameArena.controlsDisabled (GameArena.die s playerId o).state = false ∧
      (GameArena.die s playerId o).requests.length = 1) ∧
    (∀ m : MiningState, Mining.startDisabled (Mining.pending m) = false ∧
      (Mining.stopDisabled (Mining.pending m) = true ↔ m.timeRemaining > 0)) ∧
    (∀ i : InventoryState, Inventory.controlsDisabled (Inventory.pending i) = false) ∧
    (∀ (sc : ScenariosState) (phase : Int) (current : Option Int),
      (Scenarios.startDisabled (Scenarios.pending sc) phase current = true ↔
        ¬ phase ≤ (if idTruthy current then current.getD 1 else 1))) := by
  have hsimple : ∀ action : String,
      GameArena.controlsDisabled (GameArena.simpleAction action s playerId o).state = false ∧
      (GameArena.simpleAction action s playerId o).requests.length = 1 := by
    intro action
    rcases o with msg | ⟨status, msg | data⟩ <;>
      simp only [GameArena.simpleAction, GameArena.controlsDisabled, GameArena.pending] <;>
      (try split_ifs) <;> simp
  refine ⟨rfl, ?_, hsimple _, hsimple _, ?_, fun _ => rfl, ?_⟩
  · rcases o with msg | ⟨status, msg | data⟩
    · simp [GameArena.killMonster, GameArena.controlsDisabled, GameArena.pending]
    · simp only [GameArena.killMonster, GameArena.controlsDisabled, GameArena.pending]
      split_ifs <;> simp
    · simp only [GameArena.killMonster, GameArena.controlsDisabled, GameArena.pending]
      rcases hp : data.player with _ | _ | p <;> simp only [] <;> split_ifs <;> simp
  · intro m
    simp [Mining.startDisabled, Mining.stopDisabled, Mining.pending]
  · intro sc phase current
    simp [Scenarios.startDisabled]

/-! ### Shop arithmetic -/

/-- C14, as stated, fails in the shop: a player holding 0.0000101 DOOF who buys
the 0.0000001 sword is handed to `onPlayerUpdate` with the binary64 difference
as balance, which is not the number 0.00001 although 0.0000101 − 0.0000001 =
0.00001; and with that balance the affordability test refuses the 0.00001
sword. -/
theorem shop_balance_is_binary64 :
    espadaBasica ∈ Shop.weapons ∧ espadaLendaria ∈ Shop.weapons ∧
    ((101 : ℚ) / 10 ^ 7 - 1 / 10 ^ 7 = 1 / 10 ^ 5) ∧
    (Shop.buyItem ⟨false⟩ sampleShopPlayer espadaBasica).onPlayerUpdateCalls.map
        (fun p => p.dooficoin_balance) = [⟨5902958103587056, -69⟩] ∧
    F64.ofDecimal ⟨1, -5⟩ = ⟨5902958103587057, -69⟩ ∧
    (Shop.buyItem ⟨false⟩ { sampleShopPlayer with dooficoin_balance := ⟨5902958103587056, -69⟩ }
        espadaLendaria).alerts = ["Saldo insuficiente para comprar este item!"] ∧
    (Shop.buyItem ⟨false⟩ { sampleShopPlayer with dooficoin_balance := ⟨5902958103587056, -69⟩ }
        espadaLendaria).onPlayerUpdateCalls = [] := by
  refine ⟨by decide, by decide, by norm_num, by decide, by decide, by decide, by decide⟩

/-- C14 (amended): `Shop.buyItem` computes with binary64 numbers. Its
affordability test is the number comparison `balance >= price` against the
price literal; when it holds, `onPlayerUpdate` receives the player with the
rounded binary64 difference `balance - price` as balance and the success alert
is raised; when it fails, `onPlayerUpdate` is not called and the refusal alert
is raised. The buy buttons are disabled between the click and the timeout, and
loading ends false. -/
theorem shop_buy_uses_number_arithmetic (s : ShopState) (player : ShopPlayer)
    (item : ShopItem) :
    (F64.ge player.dooficoin_balance (F64.ofDecimal item.price) = true →
      (Shop.buyItem s player item).onPlayerUpdateCalls.map (fun p => p.dooficoin_balance) =
        [F64.sub player.dooficoin_balance (F64.ofDecimal item.price)] ∧
      (Shop.buyItem s player item).alerts =
        ["Item " ++ item.name ++ " comprado com sucesso!"]) ∧
    (F64.ge player.dooficoin_balance (F64.ofDecimal item.price) = false →
      (Shop.buyItem s player item).onPlayerUpdateCalls = [] ∧
      (Shop.buyItem s player item).alerts = ["Saldo insuficiente para comprar este item!"]) ∧
    (Shop.buyItem s player item).state.loading = false ∧
    Shop.buyDisabled (Shop.pending s) player item = true ∧
    (F64.ge player.dooficoin_balance (F64.ofDecimal item.price) = true ↔
      0 ≤ F64.exactDiff player.dooficoin_balance (F64.ofDecimal item.price)) := by
  refine ⟨?_, ?_, ?_, ?_, ?_⟩
  · intro h
    simp [Shop.buyItem, h]
  · intro h
    simp [Shop.buyItem, h]
  · simp only [Shop.buyItem]
    split_ifs <;> rfl
  · simp [Shop.buyDisabled, Shop.pending]
  · simp [F64.ge]

/-- Witness of `shop_buy_uses_number_arithmetic`: with 0.0000101 DOOF the
0.0000001 sword is affordable and the balance handed on is the binary64
difference. -/
theorem shop_buy_uses_number_arithmetic_witness :
    (Shop.buyItem ⟨false⟩ sampleShopPlayer espadaBasica).onPlayerUpdateCalls.map
        (fun p => p.dooficoin_balance) =
      [F64.sub (F64.ofDecimal ⟨101, -7⟩) (F64.ofDecimal ⟨1, -7⟩)] ∧
    (Shop.buyItem ⟨false⟩ sampleShopPlayer espadaBasica).alerts =
      ["Item Espada Básica comprado com sucesso!"] :=
  (shop_buy_uses_number_arithmetic ⟨false⟩ sampleShopPlayer espadaBasica).1 (by decide)

/-! ### What the shell mounts -/

theorem App.panels_cases (tab : String) (p : Player) :
    App.panels tab p =
      if tab = "arena" then [Component.GameArena]
      else if tab = "scenarios" then [Component.Scenarios]
      else if tab = "shop" then [Component.Shop]
      else if tab = "inventory" then [Component.Inventory]
      else if tab = "cards" then [Component.CollectibleCards]
      else if tab = "mining" then [Component.Mining]
      else if tab = "leaderboard" then [Component.Leaderboard]
      else if tab = "profile" then [Component.Profile]
      else if tab = "admin" ∧ (jsGet p "is_admin").truthy = true then [Component.AdminDashboard]
      else [] := by
  by_cases h1 : tab = "arena"
  · subst h1; simp [App.panels]
  by_cases h2 : tab = "scenarios"
  · subst h2; simp [App.panels]
  by_cases h3 : tab = "shop"
  · subst h3; simp [App.panels]
  by_cases h4 : tab = "inventory"
  · subst h4; simp [App.panels]
  by_cases h5 : tab = "cards"
  · subst h5; simp [App.panels]
  by_cases h6 : tab = "mining"
  · subst h6; simp [App.panels]
  by_cases h7 : tab = "leaderboard"
  · subst h7; simp [App.panels]
  by_cases h8 : tab = "profile"
  · subst h8; simp [App.panels]
  simp [App.panels, h1, h2, h3, h4, h5, h6, h7, h8]

/-- C21: the shell gates the whole UI on having a player. Whatever the token,
the tab and local storage are, a render with `player` null (or undefined)
mounts the login form and nothing else; a render with a player mounts the
header followed by at most one panel, and each panel is mounted exactly when
`activeTab` is its tab id (the admin panel also needs `player.is_admin`). -/
theorem render_gated_on_player (activeTab : String) (token : JsRef String) (st : Storage)
    (p : Player) :
    App.render ⟨.null, activeTab, token, st⟩ = [Component.LoginForm] ∧
    App.render ⟨.undefined, activeTab, token, st⟩ = [Component.LoginForm] ∧
    App.render ⟨.val p, activeTab, token, st⟩ = Component.GameHeader :: App.panels activeTab p ∧
    (App.panels activeTab p).length ≤ 1 ∧
    Component.LoginForm ∉ App.panels activeTab p ∧
    Component.GameHeader ∉ App.panels activeTab p ∧
    (Component.GameArena ∈ App.panels activeTab p ↔ activeTab = "arena") ∧
    (Component.Scenarios ∈ App.panels activeTab p ↔ activeTab = "scenarios") ∧
    (Component.Shop ∈ App.panels activeTab p ↔ activeTab = "shop") ∧
    (Component.Inventory ∈ App.panels activeTab p ↔ activeTab = "inventory") ∧
    (Component.CollectibleCards ∈ App.panels activeTab p ↔ activeTab = "cards") ∧
    (Component.Mining ∈ App.panels activeTab p ↔ activeTab = "mining") ∧
    (Component.Leaderboard ∈ App.panels activeTab p ↔ activeTab = "leaderboard") ∧
    (Component.Profile ∈ App.panels activeTab p ↔ activeTab = "profile") ∧
    (Component.AdminDashboard ∈ App.panels activeTab p ↔
      activeTab = "admin" ∧ (jsGet p "is_admin").truthy = true) := by
  refine ⟨rfl, rfl, rfl, ?_⟩
  rw [App.panels_cases]
  by_cases h1 : activeTab = "arena"
  · subst h1; simp
  by_cases h2 : activeTab = "scenarios"
  · subst h2; simp
  by_cases h3 : activeTab = "shop"
  · subst h3; simp
  by_cases h4 : activeTab = "inventory"
  · subst h4; simp
  by_cases h5 : activeTab = "cards"
  · subst h5; simp
  by_cases h6 : activeTab = "mining"
  · subst h6; simp
  by_cases h7 : activeTab = "leaderboard"
  · subst h7; simp
  by_cases h8 : activeTab = "profile"
  · subst h8; simp
  simp only [h1, h2, h3, h4, h5, h6, h7, h8, if_false]
  split_ifs <;> simp_all

/-- C26: the admin back-office is reachable only by admins. For a player whose
`is_admin` is falsy and every `activeTab`, `admin` included, the render does
not mount `AdminDashboard`; and no button of the desktop navigation, nor of the
mobile navigation whether the menu is open or not, is the admin tab or sets
`activeTab` to `admin` when clicked. The logout buttons, the only other
controls of the header that reach the shell, set it to `arena`. -/
theorem admin_dashboard_only_for_admins (s : AppState) (p : Player)
    (hp : s.player = .val p) (hadmin : (jsGet p "is_admin").truthy = false) :
    Component.AdminDashboard ∉ App.render s ∧
    Component.AdminDashboard ∉ App.render (App.setActiveTab s "admin") ∧
    (∀ tab ∈ GameHeader.desktopNav p,
      tab.id ≠ "admin" ∧ (GameHeader.clickTab s tab).activeTab ≠ "admin" ∧
      Component.AdminDashboard ∉ App.render (GameHeader.clickTab s tab)) ∧
    (∀ mobileMenuOpen, ∀ tab ∈ GameHeader.mobileNav mobileMenuOpen p,
      tab.id ≠ "admin" ∧ (GameHeader.clickTab s tab).activeTab ≠ "admin" ∧
      Component.AdminDashboard ∉ App.render (GameHeader.clickTab s tab)) ∧
    (App.handleLogout s).activeTab = "arena" := by
  have hpan : ∀ tab : String, Component.AdminDashboard ∉ App.panels tab p := by
    intro tab
    rw [App.panels_cases]
    split_ifs <;> simp_all
  have hrender : ∀ tab : String,
      Component.AdminDashboard ∉ App.render (App.setActiveTab s tab) := by
    intro tab
    simp only [App.render, App.setActiveTab, hp]
    simp [hpan tab]
  have hnav : ∀ tab ∈ GameHeader.tabs.filter
      (fun tab => !(tab.adminOnly && !(jsGet p "is_admin").truthy)), tab.id ≠ "admin" := by
    intro tab htab
    simp only [hadmin, GameHeader.tabs] at htab
    simp at htab
    rcases htab with h | h | h | h | h | h | h | h <;> subst h <;> decide
  refine ⟨?_, hrender "admin", ?_, ?_, ?_⟩
  · simp only [App.render, hp]
    simp [hpan s.activeTab]
  · intro tab htab
    exact ⟨hnav tab htab, hnav tab htab, hrender tab.id⟩
  · intro mobileMenuOpen tab htab
    cases mobileMenuOpen
    · simp [GameHeader.mobileNav] at htab
    · exact ⟨hnav tab htab, hnav tab htab, hrender tab.id⟩
  · simp [App.handleLogout]

/-- Witness of `admin_dashboard_only_for_admins`: a player who is no
administrator, with the tab set to `admin`, sees the header alone. -/
theorem admin_dashboard_only_for_admins_witness :
    App.render sampleVisitorOnAdmin = [Component.GameHeader] ∧
    Component.AdminDashboard ∉ App.render sampleVisitorOnAdmin :=
  ⟨by decide, (admin_dashboard_only_for_admins sampleVisitorOnAdmin sampleVisitor rfl
    (by decide)).1⟩

/-! ### Scenario cards -/

/-- C22: phase gating of scenarios. The start control of a scenario is enabled
if and only if its `phase_number` is at most the player's current phase, taken
as 1 when `current_phase` is absent or 0; a scenario of a higher phase is
labelled `Bloqueado`, its control is disabled, and a click on it runs nothing:
no request is sent and no alert raised. A click on an enabled control runs
`startScenario`, which posts the start request. -/
theorem scenario_start_gated_by_phase (s : ScenariosState) (phaseNumber scenarioId : Int)
    (currentPhase : Option Int) (progress : Option JsObject)
    (o : Fetched ScenarioStartPayload) (progressO : Fetched ProgressPayload) :
    (Scenarios.startDisabled s phaseNumber currentPhase = false ↔
      phaseNumber ≤ (match currentPhase with
        | some 0 => 1
        | some c => c
        | none => 1)) ∧
    (Scenarios.startDisabled s phaseNumber currentPhase = true →
      Scenarios.startLabel s phaseNumber currentPhase progress = "Bloqueado" ∧
      Scenarios.clickStart s phaseNumber currentPhase scenarioId o progressO = ⟨s, [], []⟩) ∧
    (Scenarios.startDisabled s phaseNumber currentPhase = false →
      Scenarios.startLabel s phaseNumber currentPhase progress ≠ "Bloqueado" ∧
      Scenarios.clickStart s phaseNumber currentPhase scenarioId o progressO =
        Scenarios.startScenario s scenarioId o progressO ∧
      (Scenarios.startScenario s scenarioId o progressO).requests.head? =
        some ⟨"POST", "/api/scenarios/" ++ toString scenarioId ++ "/start", none⟩) := by
  refine ⟨?_, ?_, ?_⟩
  · rcases currentPhase with _ | c
    · simp [Scenarios.startDisabled, idTruthy]
    · by_cases hc : c = 0
      · subst hc; simp [Scenarios.startDisabled, idTruthy]
      · simp [Scenarios.startDisabled, idTruthy, hc]
  · intro h
    simp [Scenarios.startLabel, Scenarios.clickStart, h]
  · intro h
    refine ⟨?_, by simp [Scenarios.clickStart, h], ?_⟩
    · simp only [Scenarios.startLabel, h, Bool.false_eq_true, if_false]
      split_ifs <;> decide
    · rcases o with msg | ⟨status, msg | data⟩
      · simp [Scenarios.startScenario]
      · simp [Scenarios.startScenario]
      · simp only [Scenarios.startScenario]
        split_ifs
        · rcases data.scenarioName with _ | name <;> simp
        · simp

/-- Witness of `scenario_start_gated_by_phase`: for a player whose
`current_phase` is 0 a scenario of phase 2 is blocked and a click on it does
nothing. -/
theorem scenario_start_gated_by_phase_witness :
    Scenarios.startLabel sampleScenarios 2 (some 0) none = "Bloqueado" ∧
    Scenarios.clickStart sampleScenarios 2 (some 0) 7 (.failed "unused") (.failed "unused") =
      ⟨sampleScenarios, [], []⟩ :=
  (scenario_start_gated_by_phase sampleScenarios 2 7 (some 0) none (.failed "unused")
    (.failed "unused")).2.1 (by decide)

/-! ### Health shown by the header -/

/-- C30: the health shown by the header. For every health from 1 to 100 the
width of the bar, the label next to it, the label of the mobile menu and the
`Vida Atual` text of the profile show that health; when the health is 0 or
absent they show 100, so a player whose health is 0 is displayed with full
health. -/
theorem header_health_defaults_to_full (h : Int) (hlo : 1 ≤ h) (hhi : h ≤ 100) :
    GameHeader.healthBarWidth (some h) = toString h ++ "%" ∧
    GameHeader.healthLabel (some h) = toString h ++ "/100" ∧
    GameHeader.mobileHealthLabel (some h) = toString h ++ "/100" ∧
    Profile.vidaAtual (some h) = toString h ++ "/100" ∧
    GameHeader.healthBarWidth (some 0) = "100%" ∧
    GameHeader.healthLabel (some 0) = "100/100" ∧
    GameHeader.mobileHealthLabel (some 0) = "100/100" ∧
    Profile.vidaAtual (some 0) = "100/100" ∧
    GameHeader.healthBarWidth none = "100%" ∧
    GameHeader.healthLabel none = "100/100" ∧
    GameHeader.mobileHealthLabel none = "100/100" ∧
    Profile.vidaAtual none = "100/100" := by
  have hne : h ≠ 0 := by omega
  have hs : healthShown (some h) = h := by simp [healthShown, idTruthy, hne]
  refine ⟨?_, ?_, ?_, ?_, by decide, by decide, by decide, by decide, by decide, by decide,
    by decide, by decide⟩
  · simp [GameHeader.healthBarWidth, hs]
  · simp [GameHeader.healthLabel, hs]
  · simp [GameHeader.mobileHealthLabel, hs]
  · simp [Profile.vidaAtual, hs]

/-- Witness of `header_health_defaults_to_full`: a health of 37 is shown as 37. -/
theorem header_health_defaults_to_full_witness :
    GameHeader.healthBarWidth (some 37) = "37%" ∧ GameHeader.healthLabel (some 37) = "37/100" :=
  ⟨(header_health_defaults_to_full 37 (by decide) (by decide)).1,
    (header_health_defaults_to_full 37 (by decide) (by decide)).2.1⟩

/-! ### Arena phases -/

theorem floor_five_quarters (m : Int) : ⌊(5 / 4 : ℚ) * (m : ℚ)⌋ = m * 5 / 4 := by
  have h : (5 / 4 : ℚ) * (m : ℚ) = ((m * 5 : ℤ) : ℚ) / ((4 : ℕ) : ℚ) := by
    push_cast
    ring
  rw [h, Rat.floor_intCast_div_natCast]
  rfl

theorem GameArena.simpleAction_state (action : String) (s : ArenaState) (playerId : Int)
    (o : Fetched PlayerPayload) :
    (GameArena.simpleAction action s playerId o).state = { s with loading := false } := by
  rcases o with msg | ⟨status, msg | data⟩ <;> simp only [GameArena.simpleAction, GameArena.pending]
  all_goals split_ifs <;> rfl

theorem GameArena.killMonster_state (s : ArenaState) (playerId : Int)
    (o : Fetched PlayerPayload) :
    (GameArena.killMonster s playerId o).state = { s with loading := false } ∨
    (GameArena.killMonster s playerId o).state =
      ⟨s.monstersInPhase * 5 / 4, s.currentPhase + 1, false⟩ := by
  rcases o with msg | ⟨status, msg | data⟩
  · exact Or.inl rfl
  · simp only [GameArena.killMonster, GameArena.pending]
    split_ifs <;> exact Or.inl rfl
  · simp only [GameArena.killMonster, GameArena.pending]
    rcases data.player with _ | _ | p <;> simp only [] <;> split_ifs <;>
      first | exact Or.inl rfl | exact Or.inr rfl

theorem GameArena.step_cases (s : ArenaState) (e : ArenaEvent) :
    GameArena.step s e = { s with loading := false } ∨
    GameArena.step s e = ⟨s.monstersInPhase * 5 / 4, s.currentPhase + 1, false⟩ := by
  rcases e with ⟨playerId, o⟩ | ⟨playerId, o⟩ | ⟨playerId, o⟩
  · exact GameArena.killMonster_state s playerId o
  · exact Or.inl (GameArena.simpleAction_state _ s playerId o)
  · exact Or.inl (GameArena.simpleAction_state _ s playerId o)

theorem GameArena.run_monstersInPhase_ge (s : ArenaState) (events : List ArenaEvent)
    (h : 300 ≤ s.monstersInPhase) : 300 ≤ (GameArena.run s events).monstersInPhase := by
  induction events generalizing s with
  | nil => exact h
  | cons e rest ih =>
    simp only [GameArena.run, List.foldl_cons]
    apply ih
    rcases GameArena.step_cases s e with h1 | h1 <;> (rw [h1]; dsimp only; omega)

theorem GameArena.reachable_monstersInPhase_ge (events : List ArenaEvent) :
    300 ≤ (GameArena.run GameArena.init events).monstersInPhase :=
  GameArena.run_monstersInPhase_ge _ events (by decide)

/-- C27: in every state the arena reaches from its initial one,
`monstersInPhase` is a whole number of at least 300, hence not 0; an action
never lowers it, and an action that changes `currentPhase` (a phase
completion) strictly raises it. Consequently, for every non-negative kill
count the remainder `monsters_killed % monstersInPhase` is defined and lies in
`[0, monstersInPhase)`, and `progressPercentage` is defined and lies in
`[0, 100)`. -/
theorem arena_phase_size_stays_positive (events : List ArenaEvent) (e : ArenaEvent)
    (monsters_killed : Int) (hk : 0 ≤ monsters_killed) :
    300 ≤ (GameArena.run GameArena.init events).monstersInPhase ∧
    (GameArena.run GameArena.init events).monstersInPhase ≠ 0 ∧
    (GameArena.run GameArena.init events).monstersInPhase ≤
      (GameArena.step (GameArena.run GameArena.init events) e).monstersInPhase ∧
    ((GameArena.step (GameArena.run GameArena.init events) e).currentPhase ≠
        (GameArena.run GameArena.init events).currentPhase →
      (GameArena.step (GameArena.run GameArena.init events) e).currentPhase =
        (GameArena.run GameArena.init events).currentPhase + 1 ∧
      (GameArena.run GameArena.init events).monstersInPhase <
        (GameArena.step (GameArena.run GameArena.init events) e).monstersInPhase) ∧
    (∃ r, GameArena.monstersKilledInPhase (GameArena.run GameArena.init events)
        monsters_killed = some r ∧
      0 ≤ r ∧ r < (GameArena.run GameArena.init events).monstersInPhase) ∧
    (∃ q, GameArena.progressPercentage (GameArena.run GameArena.init events)
        monsters_killed = some q ∧ 0 ≤ q ∧ q < 100) := by
  have hge := GameArena.reachable_monstersInPhase_ge events
  generalize GameArena.run GameArena.init events = s at hge ⊢
  have hne : s.monstersInPhase ≠ 0 := by omega
  have hpos : 0 < s.monstersInPhase := by omega
  have hr0 : 0 ≤ Int.tmod monsters_killed s.monstersInPhase := by
    rw [Int.tmod_eq_emod hk (by omega)]
    exact Int.emod_nonneg _ hne
  have hr1 : Int.tmod monsters_killed s.monstersInPhase < s.monstersInPhase := by
    rw [Int.tmod_eq_emod hk (by omega)]
    exact Int.emod_lt_of_pos _ hpos
  refine ⟨hge, hne, ?_, ?_, ?_, ?_⟩
  · rcases GameArena.step_cases s e with h1 | h1
    · rw [h1]
    · rw [h1]
      dsimp only
      omega
  · intro hchange
    rcases GameArena.step_cases s e with h1 | h1
    · rw [h1] at hchange
      exact absurd rfl hchange
    · rw [h1]
      dsimp only
      exact ⟨rfl, by omega⟩
  · exact ⟨Int.tmod monsters_killed s.monstersInPhase,
      by simp [GameArena.monstersKilledInPhase, hne], hr0, hr1⟩
  · refine ⟨((Int.tmod monsters_killed s.monstersInPhase : ℤ) : ℚ) / (s.monstersInPhase : ℚ) * 100,
      by simp [GameArena.progressPercentage, GameArena.monstersKilledInPhase, hne], ?_, ?_⟩
    · have hm : (0 : ℚ) < (s.monstersInPhase : ℚ) := by exact_mod_cast hpos
      have hr : (0 : ℚ) ≤ ((Int.tmod monsters_killed s.monstersInPhase : ℤ) : ℚ) := by
        exact_mod_cast hr0
      positivity
    · have hm : (0 : ℚ) < (s.monstersInPhase : ℚ) := by exact_mod_cast hpos
      have hr : ((Int.tmod monsters_killed s.monstersInPhase : ℤ) : ℚ) <
          (s.monstersInPhase : ℚ) := by exact_mod_cast hr1
      have hlt : ((Int.tmod monsters_killed s.monstersInPhase : ℤ) : ℚ) /
          (s.monstersInPhase : ℚ) < 1 := by
        rw [div_lt_one hm]
        exact hr
      linarith

/-- Witness of `arena_phase_size_stays_positive`: after a first completed
phase the arena holds 375 monsters, and 400 kills show as 25 in the phase. -/
theorem arena_phase_size_stays_positive_witness :
    GameArena.monstersKilledInPhase
        (GameArena.run GameArena.init
          [.killMonster 1 (.response 200 (.ok ⟨.val samplePlayer300⟩))]) 400 = some 25 ∧
    300 ≤ (GameArena.run GameArena.init
      [.killMonster 1 (.response 200 (.ok ⟨.val samplePlayer300⟩))]).monstersInPhase :=
  ⟨by decide, (arena_phase_size_stays_positive
    [.killMonster 1 (.response 200 (.ok ⟨.val samplePlayer300⟩))]
    (.die 1 (.failed "unused")) 400 (by decide)).1⟩

/-! ### Inventory actions -/

/-- C28: what the inventory actions change. An accepted `equipItem` keeps the
length and the order of the list: the entry at each position is the former one
with `is_equipped` negated when its id is the given one, and the former one
itself otherwise; the filters and the loading flag stay as they were, and a
second accepted equip of the same id restores the original state. An accepted
`sellItem` keeps, in order, exactly the entries whose id differs from the given
one. A response outside 2xx, an undecodable body or an exception leaves the
state unchanged and does not call `onPlayerUpdate`, in both handlers. -/
theorem inventory_actions_frame (s : InventoryState) (inventoryItemId : Int) (status : Nat)
    (data data2 : PlayerPayload) (sale : SellPayload) (confirmed : Bool)
    (o : Fetched PlayerPayload) (o2 : Fetched SellPayload) (hok : httpOk status = true) :
    ((Inventory.equipItem s inventoryItemId (.response status (.ok data))).state.inventory.length =
        s.inventory.length ∧
      (∀ (i : Nat) (e : InventoryEntry), s.inventory[i]? = some e →
        (Inventory.equipItem s inventoryItemId (.response status (.ok data))).state.inventory[i]? =
          some (if e.id = inventoryItemId then { e with is_equipped := !e.is_equipped } else e)) ∧
      (Inventory.equipItem s inventoryItemId (.response status (.ok data))).state =
        { s with inventory :=
          (Inventory.equipItem s inventoryItemId (.response status (.ok data))).state.inventory } ∧
      (Inventory.equipItem s inventoryItemId (.response status (.ok data))).onPlayerUpdateCalls =
        [data.player] ∧
      (Inventory.equipItem
          (Inventory.equipItem s inventoryItemId (.response status (.ok data))).state
          inventoryItemId (.response status (.ok data2))).state = s) ∧
    ((Inventory.sellItem s true inventoryItemId (.response status (.ok sale))).state.inventory =
        s.inventory.filter (fun e => decide (e.id ≠ inventoryItemId)) ∧
      List.Sublist
        (Inventory.sellItem s true inventoryItemId (.response status (.ok sale))).state.inventory
        s.inventory ∧
      (∀ e, e ∈ (Inventory.sellItem s true inventoryItemId
          (.response status (.ok sale))).state.inventory ↔
        e ∈ s.inventory ∧ e.id ≠ inventoryItemId) ∧
      (Inventory.sellItem s true inventoryItemId (.response status (.ok sale))).state =
        { s with inventory :=
          (Inventory.sellItem s true inventoryItemId (.response status (.ok sale))).state.inventory } ∧
      (Inventory.sellItem s true inventoryItemId (.response status (.ok sale))).onPlayerUpdateCalls =
        [sale.player]) ∧
    (o.decoded2xx = false →
      (Inventory.equipItem s inventoryItemId o).state = s ∧
      (Inventory.equipItem s inventoryItemId o).onPlayerUpdateCalls = []) ∧
    (o2.decoded2xx = false →
      (Inventory.sellItem s confirmed inventoryItemId o2).state = s ∧
      (Inventory.sellItem s confirmed inventoryItemId o2).onPlayerUpdateCalls = []) := by
  have hflip : ∀ l : List InventoryEntry,
      List.map (fun item : InventoryEntry =>
          if item.id = inventoryItemId then { item with is_equipped := !item.is_equipped }
          else item)
        (List.map (fun item : InventoryEntry =>
          if item.id = inventoryItemId then { item with is_equipped := !item.is_equipped }
          else item) l) = l := by
    intro l
    rw [List.map_map]
    conv_rhs => rw [← List.map_id l]
    apply List.map_congr_left
    intro e _
    rcases e with ⟨eid, item, quantity, equipped⟩
    simp only [Function.comp]
    by_cases h : eid = inventoryItemId
    · simp [h]
    · simp [h]
  refine ⟨⟨?_, ?_, ?_, ?_, ?_⟩, ⟨?_, ?_, ?_, ?_, ?_⟩, ?_, ?_⟩
  · simp [Inventory.equipItem, hok]
  · intro i e he
    simp [Inventory.equipItem, hok, List.getElem?_map, he]
  · simp [Inventory.equipItem, hok]
  · simp [Inventory.equipItem, hok]
  · simp only [Inventory.equipItem, hok, if_true, hflip]
  · simp only [Inventory.sellItem, hok, Bool.not_true, Bool.false_eq_true, if_false, if_true]
    apply List.filter_congr
    intro e _
    by_cases h : e.id = inventoryItemId <;> simp [h]
  · simp only [Inventory.sellItem, hok, Bool.not_true, Bool.false_eq_true, if_false, if_true]
    exact List.filter_sublist _
  · intro e
    simp [Inventory.sellItem, hok]
  · simp [Inventory.sellItem, hok]
  · simp [Inventory.sellItem, hok]
  · intro hfail
    rcases o with msg | ⟨st, msg | d⟩
    · exact ⟨rfl, rfl⟩
    · simp only [Inventory.equipItem]
      split_ifs <;> exact ⟨rfl, rfl⟩
    · have hst : httpOk st = false := by simpa [Fetched.decoded2xx] using hfail
      simp [Inventory.equipItem, hst]
  · intro hfail
    cases confirmed
    · exact ⟨rfl, rfl⟩
    · rcases o2 with msg | ⟨st, msg | d⟩
      · exact ⟨rfl, rfl⟩
      · simp only [Inventory.sellItem, Bool.not_true, Bool.false_eq_true, if_false]
        split_ifs <;> exact ⟨rfl, rfl⟩
      · have hst : httpOk st = false := by simpa [Fetched.decoded2xx] using hfail
        simp [Inventory.sellItem, hst]

/-- Witness of `inventory_actions_frame`: equipping entry 3 of the sample
inventory twice gives the sample inventory back, and selling it empties the
list. -/
theorem inventory_actions_frame_witness :
    (Inventory.equipItem
        (Inventory.equipItem sampleInventory 3 (.response 200 (.ok ⟨.val samplePlayer⟩))).state
        3 (.response 200 (.ok ⟨.val samplePlayer⟩))).state = sampleInventory ∧
    (Inventory.sellItem sampleInventory true 3
      (.response 200 (.ok ⟨.val samplePlayer, "0.5"⟩))).state.inventory = [] :=
  ⟨(inventory_actions_frame sampleInventory 3 200 ⟨.val samplePlayer⟩ ⟨.val samplePlayer⟩
      ⟨.val samplePlayer, "0.5"⟩ true (.failed "unused") (.failed "unused") (by decide)).1.2.2.2.2,
    by decide⟩

/-! ### Card collection statistics -/

theorem percentage_bounds (owned total : Nat) (h : owned ≤ total) :
    (0 : ℚ) ≤ (if total > 0 then (owned : ℚ) / (total : ℚ) * 100 else 0) ∧
    (if total > 0 then (owned : ℚ) / (total : ℚ) * 100 else 0) ≤ (100 : ℚ) ∧
    (total = 0 → (if total > 0 then (owned : ℚ) / (total : ℚ) * 100 else 0) = (0 : ℚ)) := by
  refine ⟨?_, ?_, ?_⟩
  · split_ifs
    · positivity
    · exact le_refl _
  · split_ifs with ht
    · have ht2 : (0 : ℚ) < (total : ℚ) := by exact_mod_cast ht
      have ho : (owned : ℚ) ≤ (total : ℚ) := by exact_mod_cast h
      have hle : (owned : ℚ) / (total : ℚ) ≤ 1 := by
        rw [div_le_one ht2]
        exact ho
      linarith
    · norm_num
  · intro ht
    simp [ht]

theorem filter_and_length_le (allCards : List Card) (p q : Card → Bool) :
    (allCards.filter (fun card => p card && q card)).length ≤ (allCards.filter p).length := by
  induction allCards with
  | nil => simp
  | cons c rest ih =>
    simp only [List.filter_cons]
    by_cases hp : p c = true <;> by_cases hq : q c = true <;> simp [hp, hq] <;> omega

theorem rarity_counts (allCards : List Card) (q : Card → Bool) :
    (allCards.filter (fun card => card.rarity == "common" && q card)).length +
      (allCards.filter (fun card => card.rarity == "rare" && q card)).length +
      (allCards.filter (fun card => card.rarity == "epic" && q card)).length +
      (allCards.filter (fun card => card.rarity == "legendary" && q card)).length +
      (allCards.filter (fun card => card.rarity == "mythic" && q card)).length ≤
        (allCards.filter q).length ∧
    ((∀ card ∈ allCards, card.rarity ∈ ["common", "rare", "epic", "legendary", "mythic"]) →
      (allCards.filter (fun card => card.rarity == "common" && q card)).length +
        (allCards.filter (fun card => card.rarity == "rare" && q card)).length +
        (allCards.filter (fun card => card.rarity == "epic" && q card)).length +
        (allCards.filter (fun card => card.rarity == "legendary" && q card)).length +
        (allCards.filter (fun card => card.rarity == "mythic" && q card)).length =
          (allCards.filter q).length) := by
  induction allCards with
  | nil => simp
  | cons c rest ih =>
    rcases ih with ⟨ih1, ih2⟩
    rcases c with ⟨cid, rarity⟩
    constructor
    · simp only [List.filter_cons]
      by_cases hq : q ⟨cid, rarity⟩ = true
      · by_cases h1 : rarity = "common"
        · subst h1; simp [hq]; omega
        by_cases h2 : rarity = "rare"
        · subst h2; simp [hq]; omega
        by_cases h3 : rarity = "epic"
        · subst h3; simp [hq]; omega
        by_cases h4 : rarity = "legendary"
        · subst h4; simp [hq]; omega
        by_cases h5 : rarity = "mythic"
        · subst h5; simp [hq]; omega
        simp [hq, h1, h2, h3, h4, h5]; omega
      · simp [hq]; omega
    · intro hall
      have hrest := ih2 (fun card hc => hall card (List.mem_cons_of_mem _ hc))
      have hc := hall ⟨cid, rarity⟩ (List.mem_cons_self _ _)
      simp only [List.filter_cons]
      by_cases hq : q ⟨cid, rarity⟩ = true
      · simp only [List.mem_cons, List.mem_singleton, List.not_mem_nil, or_false] at hc
        rcases hc with h | h | h | h | h <;> subst h <;> simp [hq] <;> omega
      · simp [hq]; omega

/-- C29: bounds of the collection statistics. For every catalogue and every
collection, `ownedCards` is at most `totalCards` and `completionPercentage`
lies between 0 and 100, being 0 when there are no cards. `rarityStats` has one
entry for each of the five rarities in the order of the literal, each with
`owned` at most `total` and a percentage between 0 and 100 that is 0 when
`total` is 0. The totals of the five entries sum to at most `totalCards` and
their owned counts to at most `ownedCards`, with equality when the rarity of
every card is one of the five. -/
theorem collection_stats_bounds (allCards : List Card) (cards : List PlayerCard) :
    (CollectibleCards.getCollectionStats allCards cards).totalCards = allCards.length ∧
    (CollectibleCards.getCollectionStats allCards cards).ownedCards ≤
      (CollectibleCards.getCollectionStats allCards cards).totalCards ∧
    0 ≤ (CollectibleCards.getCollectionStats allCards cards).completionPercentage ∧
    (CollectibleCards.getCollectionStats allCards cards).completionPercentage ≤ 100 ∧
    (CollectibleCards.getCollectionStats [] cards).completionPercentage = 0 ∧
    (CollectibleCards.getCollectionStats allCards cards).rarityStats.map (fun r => r.rarity.id) =
      ["common", "rare", "epic", "legendary", "mythic"] ∧
    (∀ r ∈ (CollectibleCards.getCollectionStats allCards cards).rarityStats,
      r.owned ≤ r.total ∧ 0 ≤ r.percentage ∧ r.percentage ≤ 100 ∧
      (r.total = 0 → r.percentage = 0)) ∧
    ((CollectibleCards.getCollectionStats allCards cards).rarityStats.map
        (fun r => r.total)).sum ≤
      (CollectibleCards.getCollectionStats allCards cards).totalCards ∧
    ((CollectibleCards.getCollectionStats allCards cards).rarityStats.map
        (fun r => r.owned)).sum ≤
      (CollectibleCards.getCollectionStats allCards cards).ownedCards ∧
    ((∀ card ∈ allCards, card.rarity ∈ ["common", "rare", "epic", "legendary", "mythic"]) →
      ((CollectibleCards.getCollectionStats allCards cards).rarityStats.map
          (fun r => r.total)).sum =
        (CollectibleCards.getCollectionStats allCards cards).totalCards ∧
      ((CollectibleCards.getCollectionStats allCards cards).rarityStats.map
          (fun r => r.owned)).sum =
        (CollectibleCards.getCollectionStats allCards cards).ownedCards) := by
  have howned : (allCards.filter
      (fun card => (CollectibleCards.getPlayerCard cards card.id).isSome)).length ≤
      allCards.length := List.length_filter_le _ _
  have hpair : ∀ id : String,
      (allCards.filter (fun card =>
        card.rarity == id && (CollectibleCards.getPlayerCard cards card.id).isSome)).length ≤
      (allCards.filter (fun card => card.rarity == id)).length :=
    fun id => filter_and_length_le allCards _ _
  have htot := rarity_counts allCards (fun _ => true)
  have hown := rarity_counts allCards
    (fun card => (CollectibleCards.getPlayerCard cards card.id).isSome)
  simp only [Bool.and_true, List.filter_true] at htot
  refine ⟨rfl, howned, (percentage_bounds _ _ howned).1, (percentage_bounds _ _ howned).2.1,
    by simp [CollectibleCards.getCollectionStats], rfl, ?_, ?_, ?_, ?_⟩
  · intro r hr
    simp only [CollectibleCards.getCollectionStats, CollectibleCards.rarities, List.drop,
      List.map, List.mem_cons, List.mem_singleton, List.not_mem_nil, or_false] at hr
    rcases hr with h | h | h | h | h <;> subst h <;>
      exact ⟨hpair _, (percentage_bounds _ _ (hpair _)).1, (percentage_bounds _ _ (hpair _)).2.1,
        (percentage_bounds _ _ (hpair _)).2.2⟩
  · simp only [CollectibleCards.getCollectionStats, CollectibleCards.rarities, List.drop,
      List.map, List.sum_cons, List.sum_nil]
    have := htot.1
    omega
  · simp only [CollectibleCards.getCollectionStats, CollectibleCards.rarities, List.drop,
      List.map, List.sum_cons, List.sum_nil]
    have := hown.1
    omega
  · intro hall
    constructor
    · simp only [CollectibleCards.getCollectionStats, CollectibleCards.rarities, List.drop,
        List.map, List.sum_cons, List.sum_nil]
      have := htot.2 hall
      omega
    · simp only [CollectibleCards.getCollectionStats, CollectibleCards.rarities, List.drop,
        List.map, List.sum_cons, List.sum_nil]
      have := hown.2 hall
      omega

/-- Witness of `collection_stats_bounds`: with two common cards and a rare
one, of which one common card is owned, the per-rarity counts add up to the
overall ones. -/
theorem collection_stats_bounds_witness :
    (CollectibleCards.getCollectionStats sampleAllCards sampleCollection).ownedCards = 1 ∧
    ((CollectibleCards.getCollectionStats sampleAllCards sampleCollection).rarityStats.map
        (fun r => r.total)).sum =
      (CollectibleCards.getCollectionStats sampleAllCards sampleCollection).totalCards ∧
    ((CollectibleCards.getCollectionStats sampleAllCards sampleCollection).rarityStats.map
        (fun r => r.owned)).sum =
      (CollectibleCards.getCollectionStats sampleAllCards sampleCollection).ownedCards :=
  ⟨by decide, (collection_stats_bounds sampleAllCards sampleCollection).2.2.2.2.2.2.2.2.2
    (by decide)⟩

/-! ### Binary64 arithmetic -/

theorem F64.exactDiff_swap (a b : F64) : F64.exactDiff b a = -F64.exactDiff a b := by
  simp only [F64.exactDiff, min_comm b.exp a.exp]
  ring

theorem F64.ge_of_not_ge (a b : F64) (h : F64.ge a b = false) : F64.ge b a = true := by
  simp only [F64.ge, decide_eq_false_iff_not, decide_eq_true_eq] at h ⊢
  rw [F64.exactDiff_swap]
  omega

theorem F64.ge_refl (a : F64) : F64.ge a a = true := by
  simp [F64.ge, F64.exactDiff]

theorem F64.clamp_bounds (lo hi p : F64) (h : F64.ge hi lo = true) :
    F64.ge (F64.min hi (F64.max lo p)) lo = true ∧
    F64.ge hi (F64.min hi (F64.max lo p)) = true := by
  have hmax : F64.ge (F64.max lo p) lo = true := by
    simp only [F64.max]
    split_ifs with h1
    · exact F64.ge_refl lo
    · exact F64.ge_of_not_ge lo p (by simpa using h1)
  simp only [F64.min]
  split_ifs with h2
  · exact ⟨h, F64.ge_refl hi⟩
  · exact ⟨hmax, F64.ge_of_not_ge _ _ (by simpa using h2)⟩

theorem F64.ofRatio_mant_nonpos (n : Int) (d : Nat) (h : n ≤ 0) : (F64.ofRatio n d).mant ≤ 0 := by
  simp only [F64.ofRatio]
  split_ifs with h0 h1
  · exact le_refl _
  · simp only [Left.neg_nonpos_iff]
    exact Int.natCast_nonneg _
  · omega

theorem F64.ofScaled_mant_nonpos (k e : Int) (h : k ≤ 0) : (F64.ofScaled k e).mant ≤ 0 := by
  simp only [F64.ofScaled]
  split_ifs
  · apply F64.ofRatio_mant_nonpos
    exact mul_nonpos_of_nonpos_of_nonneg h (by positivity)
  · exact F64.ofRatio_mant_nonpos _ _ h

/-! ### Rounding to binary64

The rounding of `F64.roundRatio` yields a normalised mantissa and is within half
a unit in the last place of the exact ratio; on whole numbers of magnitude
below 2 ^ 53 the four operations are exact. -/

theorem bitLength_spec (fuel n : Nat) (hn : 0 < n) (hf : n < 2 ^ fuel) :
    2 ^ (bitLength fuel n - 1) ≤ n ∧ n < 2 ^ bitLength fuel n := by
  induction fuel generalizing n with
  | zero => simp at hf; omega
  | succ f ih =>
    have hne : n ≠ 0 := by omega
    simp only [bitLength, hne, if_false]
    by_cases h2 : n / 2 = 0
    · have h1 : n = 1 := by omega
      subst h1
      have hb : bitLength f (1 / 2) = 0 := by
        cases f <;> simp [bitLength]
      rw [hb]
      norm_num
    · have hpos : 0 < n / 2 := by omega
      have hlt : n / 2 < 2 ^ f := by
        rw [pow_succ] at hf
        omega
      obtain ⟨ih1, ih2⟩ := ih (n / 2) hpos hlt
      have hb : 1 ≤ bitLength f (n / 2) := by
        by_contra hcon
        have h0 : bitLength f (n / 2) = 0 := by omega
        rw [h0] at ih2
        simp at ih2
        omega
      obtain ⟨b, hbe⟩ : ∃ b, bitLength f (n / 2) = b + 1 := ⟨bitLength f (n / 2) - 1, by omega⟩
      rw [hbe] at ih1 ih2 ⊢
      simp only [Nat.add_sub_cancel] at ih1 ⊢
      rw [pow_succ] at ih2 ⊢
      rw [pow_succ]
      constructor <;> omega

theorem round_core (num den : Nat) (hden : 0 < den) (hlo : 2 ^ 52 * den ≤ num)
    (hhi : num < 2 ^ 53 * den) :
    2 ^ 52 ≤ (if 2 * (num % den) < den then num / den
      else if den < 2 * (num % den) then num / den + 1
      else if num / den % 2 = 0 then num / den else num / den + 1) ∧
    (if 2 * (num % den) < den then num / den
      else if den < 2 * (num % den) then num / den + 1
      else if num / den % 2 = 0 then num / den else num / den + 1) ≤ 2 ^ 53 ∧
    |(((if 2 * (num % den) < den then num / den
      else if den < 2 * (num % den) then num / den + 1
      else if num / den % 2 = 0 then num / den else num / den + 1 : Nat) : ℚ)) -
        (num : ℚ) / (den : ℚ)| ≤ 1 / 2 := by
  have hq1 : 2 ^ 52 ≤ num / den := (Nat.le_div_iff_mul_le hden).2 hlo
  have hq2 : num / den < 2 ^ 53 := (Nat.div_lt_iff_lt_mul hden).2 hhi
  have hdm : den * (num / den) + num % den = num := Nat.div_add_mod num den
  have hr : num % den < den := Nat.mod_lt _ hden
  have hdq : (0 : ℚ) < (den : ℚ) := by exact_mod_cast hden
  have hx : (num : ℚ) / (den : ℚ) = ((num / den : Nat) : ℚ) + ((num % den : Nat) : ℚ) / (den : ℚ) := by
    field_simp
    have : ((den * (num / den) + num % den : Nat) : ℚ) = (num : ℚ) := by rw [hdm]
    push_cast at this
    linarith
  have hrq : (0 : ℚ) ≤ ((num % den : Nat) : ℚ) / (den : ℚ) := by positivity
  refine ⟨?_, ?_, ?_⟩
  · split_ifs <;> omega
  · split_ifs <;> omega
  · rw [hx]
    split_ifs with h1 h2 h3
    · have : ((num % den : Nat) : ℚ) / (den : ℚ) ≤ 1 / 2 := by
        rw [div_le_iff₀ hdq]
        have : (2 : ℚ) * ((num % den : Nat) : ℚ) < (den : ℚ) := by exact_mod_cast h1
        linarith
      rw [abs_le]
      constructor <;> linarith
    · have : 1 / 2 ≤ ((num % den : Nat) : ℚ) / (den : ℚ) := by
        rw [le_div_iff₀ hdq]
        have : (den : ℚ) < (2 : ℚ) * ((num % den : Nat) : ℚ) := by exact_mod_cast h2
        linarith
      have h1q : ((num % den : Nat) : ℚ) / (den : ℚ) ≤ 1 := by
        rw [div_le_one hdq]
        exact_mod_cast hr.le
      push_cast
      rw [abs_le]
      constructor <;> linarith
    · have he : 2 * (num % den) = den := by omega
      have : ((num % den : Nat) : ℚ) / (den : ℚ) = 1 / 2 := by
        rw [div_eq_iff hdq.ne']
        have : (2 : ℚ) * ((num % den : Nat) : ℚ) = (den : ℚ) := by exact_mod_cast he
        linarith
      rw [abs_le]
      constructor <;> linarith
    · have he : 2 * (num % den) = den := by omega
      have : ((num % den : Nat) : ℚ) / (den : ℚ) = 1 / 2 := by
        rw [div_eq_iff hdq.ne']
        have : (2 : ℚ) * ((num % den : Nat) : ℚ) = (den : ℚ) := by exact_mod_cast he
        linarith
      push_cast
      rw [abs_le]
      constructor <;> linarith

theorem carry_spec (e : Int) (x : ℚ) (m : Nat) (h1 : 2 ^ 52 ≤ m) (h2 : m ≤ 2 ^ 53)
    (h3 : |(m : ℚ) * (2 : ℚ) ^ e - x| ≤ (2 : ℚ) ^ e / 2) :
    2 ^ 52 ≤ (if m = 2 ^ 53 then ((2 ^ 52 : Nat), e + 1) else (m, e)).1 ∧
    (if m = 2 ^ 53 then ((2 ^ 52 : Nat), e + 1) else (m, e)).1 < 2 ^ 53 ∧
    |(((if m = 2 ^ 53 then ((2 ^ 52 : Nat), e + 1) else (m, e)).1 : Nat) : ℚ) *
        (2 : ℚ) ^ (if m = 2 ^ 53 then ((2 ^ 52 : Nat), e + 1) else (m, e)).2 - x| ≤
      (2 : ℚ) ^ (if m = 2 ^ 53 then ((2 ^ 52 : Nat), e + 1) else (m, e)).2 / 2 := by
  have hpos : (0 : ℚ) < (2 : ℚ) ^ e := by positivity
  by_cases hm : m = 2 ^ 53
  · simp only [hm, if_true]
    refine ⟨le_refl _, by norm_num, ?_⟩
    have hz : (2 : ℚ) ^ (e + 1) = (2 : ℚ) ^ e * 2 := by
      rw [zpow_add₀ (by norm_num : (2 : ℚ) ≠ 0)]
      norm_num
    rw [hm] at h3
    rw [hz]
    have h4 : ((2 ^ 52 : Nat) : ℚ) * ((2 : ℚ) ^ e * 2) = ((2 ^ 53 : Nat) : ℚ) * (2 : ℚ) ^ e := by
      push_cast
      ring
    rw [h4]
    refine le_trans h3 ?_
    linarith
  · simp only [hm, if_false]
    exact ⟨h1, by omega, h3⟩

theorem round_scaled_spec (num0 den0 : Nat) (e0 : Int) (x : ℚ) (hden0 : 0 < den0)
    (hlo : 2 ^ 52 * den0 ≤ num0) (hhi : num0 < 2 ^ 54 * den0)
    (hx : (num0 : ℚ) / (den0 : ℚ) * (2 : ℚ) ^ e0 = x) :
    let high := decide (2 ^ 53 ≤ num0 / den0)
    let den := if high then den0 * 2 else den0
    let e := if high then e0 + 1 else e0
    let q := num0 / den
    let r := num0 % den
    let m := if 2 * r < den then q else if den < 2 * r then q + 1
      else if q % 2 = 0 then q else q + 1
    let res : Nat × Int := if m = 2 ^ 53 then (2 ^ 52, e + 1) else (m, e)
    2 ^ 52 ≤ res.1 ∧ res.1 < 2 ^ 53 ∧
      |(res.1 : ℚ) * (2 : ℚ) ^ res.2 - x| ≤ (2 : ℚ) ^ res.2 / 2 := by
  intro high den e q r m res
  have hden0q : (0 : ℚ) < (den0 : ℚ) := by exact_mod_cast hden0
  by_cases hh : 2 ^ 53 ≤ num0 / den0
  · have hhigh : high = true := by simpa [high] using hh
    have hden : den = den0 * 2 := by simp [den, hhigh]
    have he : e = e0 + 1 := by simp [e, hhigh]
    have hdpos : 0 < den := by omega
    have h53 : 2 ^ 53 * den0 ≤ num0 := (Nat.le_div_iff_mul_le hden0).1 hh
    have hlo2 : 2 ^ 52 * den ≤ num0 := by rw [hden]; omega
    have hhi2 : num0 < 2 ^ 53 * den := by rw [hden]; omega
    obtain ⟨c1, c2, c3⟩ := round_core num0 den hdpos hlo2 hhi2
    have hpos : (0 : ℚ) < (2 : ℚ) ^ e := by positivity
    have hxe : (num0 : ℚ) / (den : ℚ) * (2 : ℚ) ^ e = x := by
      rw [← hx, hden, he, zpow_add₀ (by norm_num : (2 : ℚ) ≠ 0)]
      push_cast
      field_simp
      ring
    refine carry_spec e x m c1 c2 ?_
    have h5 : (m : ℚ) * (2 : ℚ) ^ e - x = ((m : ℚ) - (num0 : ℚ) / (den : ℚ)) * (2 : ℚ) ^ e := by
      rw [← hxe]
      ring
    rw [h5, abs_mul, abs_of_pos hpos]
    have : |(m : ℚ) - (num0 : ℚ) / (den : ℚ)| * (2 : ℚ) ^ e ≤ 1 / 2 * (2 : ℚ) ^ e :=
      mul_le_mul_of_nonneg_right c3 hpos.le
    linarith
  · have hhigh : high = false := by simpa [high] using hh
    have hden : den = den0 := by simp [den, hhigh]
    have he : e = e0 := by simp [e, hhigh]
    have hdpos : 0 < den := by omega
    have h53 : num0 < 2 ^ 53 * den0 := by
      have := (Nat.div_lt_iff_lt_mul hden0).1 (not_le.1 hh)
      omega
    have hlo2 : 2 ^ 52 * den ≤ num0 := by rw [hden]; omega
    have hhi2 : num0 < 2 ^ 53 * den := by rw [hden]; omega
    obtain ⟨c1, c2, c3⟩ := round_core num0 den hdpos hlo2 hhi2
    have hpos : (0 : ℚ) < (2 : ℚ) ^ e := by positivity
    have hxe : (num0 : ℚ) / (den : ℚ) * (2 : ℚ) ^ e = x := by
      rw [← hx, hden, he]
    refine carry_spec e x m c1 c2 ?_
    have h5 : (m : ℚ) * (2 : ℚ) ^ e - x = ((m : ℚ) - (num0 : ℚ) / (den : ℚ)) * (2 : ℚ) ^ e := by
      rw [← hxe]
      ring
    rw [h5, abs_mul, abs_of_pos hpos]
    have : |(m : ℚ) - (num0 : ℚ) / (den : ℚ)| * (2 : ℚ) ^ e ≤ 1 / 2 * (2 : ℚ) ^ e :=
      mul_le_mul_of_nonneg_right c3 hpos.le
    linarith

theorem F64.roundRatio_spec (n d : Nat) (hn : 0 < n) (hd : 0 < d) (hnf : n < 2 ^ 4096)
    (hdf : d < 2 ^ 4096) :
    2 ^ 52 ≤ (F64.roundRatio n d).1 ∧ (F64.roundRatio n d).1 < 2 ^ 53 ∧
    |((F64.roundRatio n d).1 : ℚ) * (2 : ℚ) ^ (F64.roundRatio n d).2 - (n : ℚ) / (d : ℚ)| ≤
      (2 : ℚ) ^ (F64.roundRatio n d).2 / 2 := by
  obtain ⟨hn1, hn2⟩ := bitLength_spec 4096 n hn hnf
  obtain ⟨hd1, hd2⟩ := bitLength_spec 4096 d hd hdf
  have hbn : 1 ≤ bitLength 4096 n := by
    by_contra hcon
    have h0 : bitLength 4096 n = 0 := by omega
    rw [h0] at hn2
    simp at hn2
    omega
  have hbd : 1 ≤ bitLength 4096 d := by
    by_contra hcon
    have h0 : bitLength 4096 d = 0 := by omega
    rw [h0] at hd2
    simp at hd2
    omega
  obtain ⟨bn, hbne⟩ : ∃ b, bitLength 4096 n = b + 1 := ⟨bitLength 4096 n - 1, by omega⟩
  obtain ⟨bd, hbde⟩ : ∃ b, bitLength 4096 d = b + 1 := ⟨bitLength 4096 d - 1, by omega⟩
  rw [hbne] at hn1 hn2
  rw [hbde] at hd1 hd2
  simp only [Nat.add_sub_cancel] at hn1 hd1
  have hdq : (0 : ℚ) < (d : ℚ) := by exact_mod_cast hd
  have hnq : (0 : ℚ) < (n : ℚ) := by exact_mod_cast hn
  have key : ∀ e0 : Int, e0 = (bitLength 4096 n : Int) - (bitLength 4096 d : Int) - 53 →
      0 < (if 0 ≤ e0 then d * 2 ^ e0.toNat else d) ∧
      2 ^ 52 * (if 0 ≤ e0 then d * 2 ^ e0.toNat else d) ≤
        (if 0 ≤ e0 then n else n * 2 ^ (-e0).toNat) ∧
      (if 0 ≤ e0 then n else n * 2 ^ (-e0).toNat) <
        2 ^ 54 * (if 0 ≤ e0 then d * 2 ^ e0.toNat else d) ∧
      (((if 0 ≤ e0 then n else n * 2 ^ (-e0).toNat : Nat) : ℚ)) /
        (((if 0 ≤ e0 then d * 2 ^ e0.toNat else d : Nat) : ℚ)) * (2 : ℚ) ^ e0 =
          (n : ℚ) / (d : ℚ) := by
    intro e0 he0
    rw [hbne, hbde] at he0
    by_cases hs : 0 ≤ e0
    · simp only [hs, if_true]
      obtain ⟨k, hk⟩ : ∃ k : Nat, e0 = (k : Int) := ⟨e0.toNat, (Int.toNat_of_nonneg hs).symm⟩
      have hkn : bn = bd + 53 + k := by omega
      rw [hk, Int.toNat_natCast]
      refine ⟨by positivity, ?_, ?_, ?_⟩
      · calc 2 ^ 52 * (d * 2 ^ k) ≤ 2 ^ 52 * (2 ^ (bd + 1) * 2 ^ k) := by gcongr
          _ = 2 ^ bn := by
            rw [← pow_add, ← pow_add]
            congr 1
            omega
          _ ≤ n := hn1
      · calc n < 2 ^ (bn + 1) := hn2
          _ = 2 ^ 54 * (2 ^ bd * 2 ^ k) := by
            rw [← pow_add, ← pow_add]
            congr 1
            omega
          _ ≤ 2 ^ 54 * (d * 2 ^ k) := by gcongr
      · rw [zpow_natCast]
        push_cast
        field_simp
        ring
    · simp only [hs, if_false]
      obtain ⟨k, hk⟩ : ∃ k : Nat, -e0 = (k : Int) :=
        ⟨(-e0).toNat, (Int.toNat_of_nonneg (by omega)).symm⟩
      have hkn : bd + 53 = bn + k := by omega
      have he0k : e0 = -(k : Int) := by omega
      rw [hk, Int.toNat_natCast]
      refine ⟨hd, ?_, ?_, ?_⟩
      · calc 2 ^ 52 * d ≤ 2 ^ 52 * 2 ^ (bd + 1) := by gcongr
          _ = 2 ^ bn * 2 ^ k := by
            rw [← pow_add, ← pow_add]
            congr 1
            omega
          _ ≤ n * 2 ^ k := by gcongr
      · calc n * 2 ^ k < 2 ^ (bn + 1) * 2 ^ k := by
              apply Nat.mul_lt_mul_of_pos_right hn2
              positivity
          _ = 2 ^ 54 * 2 ^ bd := by
            rw [← pow_add, ← pow_add]
            congr 1
            omega
          _ ≤ 2 ^ 54 * d := by gcongr
      · rw [he0k, zpow_neg, zpow_natCast]
        push_cast
        field_simp
        ring
  obtain ⟨k1, k2, k3, k4⟩ := key _ rfl
  exact round_scaled_spec _ _ _ _ k1 k2 k3 k4

theorem F64.ofRatio_spec (n : Int) (d : Nat) (hn : 0 < n) (hd : 0 < d) (hnf : n < 2 ^ 4096)
    (hdf : d < 2 ^ 4096) :
    2 ^ 52 ≤ (F64.ofRatio n d).mant ∧ (F64.ofRatio n d).mant < 2 ^ 53 ∧
    |((F64.ofRatio n d).mant : ℚ) * (2 : ℚ) ^ (F64.ofRatio n d).exp - (n : ℚ) / (d : ℚ)| ≤
      (2 : ℚ) ^ (F64.ofRatio n d).exp / 2 := by
  obtain ⟨k, hk⟩ : ∃ k : Nat, n = (k : Int) := ⟨n.toNat, (Int.toNat_of_nonneg hn.le).symm⟩
  subst hk
  have hk0 : 0 < k := by exact_mod_cast hn
  have hkf : k < 2 ^ 4096 := by exact_mod_cast hnf
  obtain ⟨s1, s2, s3⟩ := F64.roundRatio_spec k d hk0 hd hkf hdf
  have hne : ¬ ((k : Int) = 0) := by omega
  have hnl : ¬ ((k : Int) < 0) := by omega
  simp only [F64.ofRatio, hne, hnl, if_false, Int.natAbs_ofNat]
  refine ⟨by exact_mod_cast s1, by exact_mod_cast s2, ?_⟩
  push_cast
  exact s3

theorem F64.ofRatio_lower (n : Int) (d : Nat) (hn : 0 < n) (hd : 0 < d) (hnf : n < 2 ^ 4096)
    (hdf : d < 2 ^ 4096) (K : Nat) (hK : K ≤ 2 ^ 53) (h : (K : ℚ) ≤ (n : ℚ) / (d : ℚ)) :
    (K : ℚ) ≤ ((F64.ofRatio n d).mant : ℚ) * (2 : ℚ) ^ (F64.ofRatio n d).exp := by
  obtain ⟨s1, s2, s3⟩ := F64.ofRatio_spec n d hn hd hnf hdf
  generalize (F64.ofRatio n d).mant = M at s1 s2 s3 ⊢
  generalize (F64.ofRatio n d).exp = E at s3 ⊢
  have hpos : (0 : ℚ) < (2 : ℚ) ^ E := by positivity
  have hM : ((2 : ℚ) ^ 52) ≤ (M : ℚ) := by exact_mod_cast s1
  rw [abs_le] at s3
  by_cases hE : E ≤ 0
  · obtain ⟨j, hj⟩ : ∃ j : Nat, -E = (j : Int) :=
      ⟨(-E).toNat, (Int.toNat_of_nonneg (by omega)).symm⟩
    have hEj : E = -(j : Int) := by omega
    have hz : (2 : ℚ) ^ E = ((2 : ℚ) ^ j)⁻¹ := by rw [hEj, zpow_neg, zpow_natCast]
    have hjpos : (0 : ℚ) < (2 : ℚ) ^ j := by positivity
    have hlow : ((K * 2 ^ j : Nat) : ℚ) - 1 / 2 ≤ (M : ℚ) := by
      have h1 : (n : ℚ) / (d : ℚ) - (2 : ℚ) ^ E / 2 ≤ (M : ℚ) * (2 : ℚ) ^ E := by linarith [s3.1]
      rw [hz] at h1
      have h2 : ((K : ℚ) - ((2 : ℚ) ^ j)⁻¹ / 2) * (2 : ℚ) ^ j ≤
          ((M : ℚ) * ((2 : ℚ) ^ j)⁻¹) * (2 : ℚ) ^ j :=
        mul_le_mul_of_nonneg_right (by linarith) hjpos.le
      have h3 : ((M : ℚ) * ((2 : ℚ) ^ j)⁻¹) * (2 : ℚ) ^ j = (M : ℚ) := by field_simp
      have h4 : ((K : ℚ) - ((2 : ℚ) ^ j)⁻¹ / 2) * (2 : ℚ) ^ j = (K : ℚ) * (2 : ℚ) ^ j - 1 / 2 := by
        field_simp
        ring
      rw [h3, h4] at h2
      push_cast
      exact h2
    have hint : ((K * 2 ^ j : Nat) : Int) ≤ M := by
      by_contra hcon
      have h5 : M + 1 ≤ ((K * 2 ^ j : Nat) : Int) := by omega
      have h6 : (M : ℚ) + 1 ≤ ((K * 2 ^ j : Nat) : ℚ) := by exact_mod_cast h5
      linarith
    have h7 : ((K * 2 ^ j : Nat) : ℚ) ≤ (M : ℚ) := by exact_mod_cast hint
    rw [hz]
    rw [le_mul_inv_iff₀ hjpos]
    push_cast at h7
    exact h7
  · have hE1 : (1 : Int) ≤ E := by omega
    have h2 : (2 : ℚ) ^ (1 : Int) ≤ (2 : ℚ) ^ E := zpow_le_zpow_right₀ (by norm_num) hE1
    have hKq : (K : ℚ) ≤ (2 : ℚ) ^ 53 := by
      have h0 : ((K : Nat) : ℚ) ≤ ((2 ^ 53 : Nat) : ℚ) := Nat.cast_le.2 hK
      push_cast at h0
      exact h0
    have hM0 : (0 : ℚ) ≤ (M : ℚ) := le_trans (by positivity) hM
    have h3 : (2 : ℚ) ^ 52 * (2 : ℚ) ^ (1 : Int) ≤ (M : ℚ) * (2 : ℚ) ^ E :=
      mul_le_mul hM h2 (by positivity) hM0
    norm_num at h3
    linarith

theorem F64.ofRatio_exp_bounds (n : Int) (d : Nat) (hn : 0 < n) (hd : 0 < d)
    (hnf : n < 2 ^ 4096) (hdf : d < 2 ^ 4096) (a : Int) :
    ((n : ℚ) / (d : ℚ) < (2 : ℚ) ^ a → (F64.ofRatio n d).exp < a - 51) ∧
    ((2 : ℚ) ^ a ≤ (n : ℚ) / (d : ℚ) → a - 53 < (F64.ofRatio n d).exp) := by
  obtain ⟨s1, s2, s3⟩ := F64.ofRatio_spec n d hn hd hnf hdf
  generalize (F64.ofRatio n d).mant = M at s1 s2 s3 ⊢
  generalize (F64.ofRatio n d).exp = E at s3 ⊢
  have hpos : (0 : ℚ) < (2 : ℚ) ^ E := by positivity
  have hM1 : ((2 : ℚ) ^ 52) ≤ (M : ℚ) := by exact_mod_cast s1
  have hM2 : (M : ℚ) + 1 ≤ ((2 : ℚ) ^ 53) := by
    have : M + 1 ≤ 2 ^ 53 := by omega
    exact_mod_cast this
  rw [abs_le] at s3
  constructor
  · intro hx
    have h1 : (2 : ℚ) ^ (51 : Int) * (2 : ℚ) ^ E < (2 : ℚ) ^ a := by
      have h2 : (2 : ℚ) ^ (51 : Int) * (2 : ℚ) ^ E ≤ ((M : ℚ) - 1 / 2) * (2 : ℚ) ^ E := by
        apply mul_le_mul_of_nonneg_right _ hpos.le
        norm_num
        norm_num at hM1
        linarith
      have h3 : ((M : ℚ) - 1 / 2) * (2 : ℚ) ^ E ≤ (n : ℚ) / (d : ℚ) := by linarith [s3.2]
      linarith
    rw [← zpow_add₀ (by norm_num : (2 : ℚ) ≠ 0)] at h1
    have := (zpow_lt_zpow_iff_right₀ (by norm_num : (1 : ℚ) < 2)).1 h1
    omega
  · intro hx
    have h1 : (2 : ℚ) ^ a < (2 : ℚ) ^ (53 : Int) * (2 : ℚ) ^ E := by
      have h2 : ((M : ℚ) + 1 / 2) * (2 : ℚ) ^ E < (2 : ℚ) ^ (53 : Int) * (2 : ℚ) ^ E := by
        apply mul_lt_mul_of_pos_right _ hpos
        norm_num
        norm_num at hM2
        linarith
      have h3 : (n : ℚ) / (d : ℚ) ≤ ((M : ℚ) + 1 / 2) * (2 : ℚ) ^ E := by linarith [s3.1]
      linarith
    rw [← zpow_add₀ (by norm_num : (2 : ℚ) ≠ 0)] at h1
    have := (zpow_lt_zpow_iff_right₀ (by norm_num : (1 : ℚ) < 2)).1 h1
    omega

theorem F64.ge_of_value_le (a b : F64)
    (h : (b.mant : ℚ) * (2 : ℚ) ^ b.exp ≤ (a.mant : ℚ) * (2 : ℚ) ^ a.exp) :
    F64.ge a b = true := by
  simp only [F64.ge, F64.exactDiff, decide_eq_true_eq]
  obtain ⟨ka, hka⟩ : ∃ k : Nat, a.exp - Min.min a.exp b.exp = (k : Int) :=
    ⟨(a.exp - Min.min a.exp b.exp).toNat, (Int.toNat_of_nonneg (by omega)).symm⟩
  obtain ⟨kb, hkb⟩ : ∃ k : Nat, b.exp - Min.min a.exp b.exp = (k : Int) :=
    ⟨(b.exp - Min.min a.exp b.exp).toNat, (Int.toNat_of_nonneg (by omega)).symm⟩
  rw [hka, hkb, Int.toNat_natCast, Int.toNat_natCast]
  have hae : a.exp = Min.min a.exp b.exp + (ka : Int) := by omega
  have hbe : b.exp = Min.min a.exp b.exp + (kb : Int) := by omega
  generalize Min.min a.exp b.exp = mn at hae hbe
  rw [hae, hbe, zpow_add₀ (by norm_num : (2 : ℚ) ≠ 0), zpow_add₀ (by norm_num : (2 : ℚ) ≠ 0),
    zpow_natCast, zpow_natCast] at h
  have hpos : (0 : ℚ) < (2 : ℚ) ^ mn := by positivity
  have h2 : (b.mant : ℚ) * (2 : ℚ) ^ kb ≤ (a.mant : ℚ) * (2 : ℚ) ^ ka := by
    have h3 : ((b.mant : ℚ) * (2 : ℚ) ^ kb) * (2 : ℚ) ^ mn ≤
        ((a.mant : ℚ) * (2 : ℚ) ^ ka) * (2 : ℚ) ^ mn := by
      calc ((b.mant : ℚ) * (2 : ℚ) ^ kb) * (2 : ℚ) ^ mn
          = (b.mant : ℚ) * ((2 : ℚ) ^ mn * (2 : ℚ) ^ kb) := by ring
        _ ≤ (a.mant : ℚ) * ((2 : ℚ) ^ mn * (2 : ℚ) ^ ka) := h
        _ = ((a.mant : ℚ) * (2 : ℚ) ^ ka) * (2 : ℚ) ^ mn := by ring
    exact le_of_mul_le_mul_right h3 hpos
  have h4 : b.mant * 2 ^ kb ≤ a.mant * 2 ^ ka := by exact_mod_cast h2
  omega

theorem F64.eq_of_toRat_eq (a b : F64) (ha1 : 2 ^ 52 ≤ a.mant) (ha2 : a.mant < 2 ^ 53)
    (hb1 : 2 ^ 52 ≤ b.mant) (hb2 : b.mant < 2 ^ 53) (h : a.toRat = b.toRat) : a = b := by
  have key : ∀ (m1 m2 e1 e2 : Int), 2 ^ 52 ≤ m1 → m1 < 2 ^ 53 → 2 ^ 52 ≤ m2 → m2 < 2 ^ 53 →
      (m1 : ℚ) * (2 : ℚ) ^ e1 = (m2 : ℚ) * (2 : ℚ) ^ e2 → e1 ≤ e2 := by
    intro m1 m2 e1 e2 h1 h2 h3 h4 hv
    by_contra hcon
    have hlt : e2 + 1 ≤ e1 := by omega
    obtain ⟨k, hk⟩ : ∃ k : Nat, e1 - e2 = (k : Int) :=
      ⟨(e1 - e2).toNat, (Int.toNat_of_nonneg (by omega)).symm⟩
    have hk1 : 1 ≤ k := by omega
    have he1 : e1 = e2 + (k : Int) := by omega
    rw [he1, zpow_add₀ (by norm_num : (2 : ℚ) ≠ 0), zpow_natCast] at hv
    have hpos : (0 : ℚ) < (2 : ℚ) ^ e2 := by positivity
    have hv2 : (m1 : ℚ) * (2 : ℚ) ^ k = (m2 : ℚ) := by
      have h5 : ((m1 : ℚ) * (2 : ℚ) ^ k) * (2 : ℚ) ^ e2 = (m2 : ℚ) * (2 : ℚ) ^ e2 := by
        rw [← hv]
        ring
      exact mul_right_cancel₀ hpos.ne' h5
    have hv3 : m1 * 2 ^ k = m2 := by exact_mod_cast hv2
    have hpow : (2 : Int) ^ 1 ≤ 2 ^ k := pow_le_pow_right₀ (by norm_num) hk1
    have hm1 : (0 : Int) ≤ m1 := le_trans (by norm_num) h1
    have h6 : m1 * 2 ^ 1 ≤ m1 * 2 ^ k := mul_le_mul_of_nonneg_left hpow hm1
    omega
  have he : a.exp = b.exp :=
    le_antisymm (key _ _ _ _ ha1 ha2 hb1 hb2 h) (key _ _ _ _ hb1 hb2 ha1 ha2 h.symm)
  have hm : a.mant = b.mant := by
    simp only [F64.toRat, he] at h
    have hpos : (0 : ℚ) < (2 : ℚ) ^ b.exp := by positivity
    have := mul_right_cancel₀ hpos.ne' h
    exact_mod_cast this
  cases a
  cases b
  simp only [F64.mk.injEq]
  exact ⟨hm, he⟩

theorem F64.ofRatio_exact (n : Int) (d : Nat) (hn : 0 < n) (hd : 0 < d) (hnf : n < 2 ^ 4096)
    (hdf : d < 2 ^ 4096) (D : Nat) (hD : D + 2 ≤ 2 ^ 53) (h : (n : ℚ) / (d : ℚ) = (D : ℚ)) :
    (F64.ofRatio n d).toRat = (D : ℚ) ∧ (F64.ofRatio n d).exp ≤ 0 := by
  obtain ⟨s1, s2, s3⟩ := F64.ofRatio_spec n d hn hd hnf hdf
  simp only [F64.toRat]
  generalize (F64.ofRatio n d).mant = M at s1 s2 s3 ⊢
  generalize (F64.ofRatio n d).exp = E at s3 ⊢
  rw [h, abs_le] at s3
  have hM : ((2 : ℚ) ^ 52) ≤ (M : ℚ) := by exact_mod_cast s1
  have hDq : (D : ℚ) + 2 ≤ (2 : ℚ) ^ 53 := by
    have h0 : ((D + 2 : Nat) : ℚ) ≤ ((2 ^ 53 : Nat) : ℚ) := Nat.cast_le.2 hD
    push_cast at h0
    exact h0
  have hE : E ≤ 0 := by
    by_contra hcon
    have hE1 : (1 : Int) ≤ E := by omega
    have h2 : (2 : ℚ) ^ (1 : Int) ≤ (2 : ℚ) ^ E := zpow_le_zpow_right₀ (by norm_num) hE1
    have hM5 : (0 : ℚ) ≤ (M : ℚ) - 1 / 2 := by
      norm_num at hM
      linarith
    have h3 : ((M : ℚ) - 1 / 2) * (2 : ℚ) ^ (1 : Int) ≤ ((M : ℚ) - 1 / 2) * (2 : ℚ) ^ E :=
      mul_le_mul_of_nonneg_left h2 hM5
    norm_num at h3 hM hDq
    linarith [s3.2]
  refine ⟨?_, hE⟩
  obtain ⟨j, hj⟩ : ∃ j : Nat, -E = (j : Int) :=
    ⟨(-E).toNat, (Int.toNat_of_nonneg (by omega)).symm⟩
  have hEj : E = -(j : Int) := by omega
  have hz : (2 : ℚ) ^ E = ((2 : ℚ) ^ j)⁻¹ := by rw [hEj, zpow_neg, zpow_natCast]
  have hjpos : (0 : ℚ) < (2 : ℚ) ^ j := by positivity
  rw [hz] at s3 ⊢
  have e1 : (M : ℚ) - (D : ℚ) * (2 : ℚ) ^ j ≤ 1 / 2 := by
    have h2 := mul_le_mul_of_nonneg_right s3.2 hjpos.le
    have h3 : ((M : ℚ) * ((2 : ℚ) ^ j)⁻¹ - (D : ℚ)) * (2 : ℚ) ^ j =
        (M : ℚ) - (D : ℚ) * (2 : ℚ) ^ j := by
      field_simp
      ring
    have h4 : ((2 : ℚ) ^ j)⁻¹ / 2 * (2 : ℚ) ^ j = 1 / 2 := by
      field_simp
    rw [h3, h4] at h2
    exact h2
  have e2 : -(1 / 2 : ℚ) ≤ (M : ℚ) - (D : ℚ) * (2 : ℚ) ^ j := by
    have h2 := mul_le_mul_of_nonneg_right s3.1 hjpos.le
    have h3 : ((M : ℚ) * ((2 : ℚ) ^ j)⁻¹ - (D : ℚ)) * (2 : ℚ) ^ j =
        (M : ℚ) - (D : ℚ) * (2 : ℚ) ^ j := by
      field_simp
      ring
    have h4 : -(((2 : ℚ) ^ j)⁻¹ / 2) * (2 : ℚ) ^ j = -(1 / 2) := by
      field_simp
    rw [h3, h4] at h2
    exact h2
  have hint : M = ((D * 2 ^ j : Nat) : Int) := by
    by_contra hne
    rcases lt_or_gt_of_ne hne with hlt | hgt
    · have h5 : M + 1 ≤ ((D * 2 ^ j : Nat) : Int) := by omega
      have h6 : (M : ℚ) + 1 ≤ ((D * 2 ^ j : Nat) : ℚ) := by exact_mod_cast h5
      push_cast at h6
      linarith
    · have h5 : ((D * 2 ^ j : Nat) : Int) + 1 ≤ M := by omega
      have h6 : ((D * 2 ^ j : Nat) : ℚ) + 1 ≤ (M : ℚ) := by exact_mod_cast h5
      push_cast at h6
      linarith
  rw [hint]
  push_cast
  field_simp

theorem F64.ofRatio_neg (n : Int) (d : Nat) :
    F64.ofRatio (-n) d = ⟨-(F64.ofRatio n d).mant, (F64.ofRatio n d).exp⟩ := by
  by_cases h0 : n = 0
  · subst h0
    simp [F64.ofRatio]
  · have h1 : ¬ (-n = 0) := by omega
    simp only [F64.ofRatio, h0, h1, if_false, Int.natAbs_neg]
    by_cases hlt : n < 0
    · have h2 : ¬ (-n < 0) := by omega
      simp [hlt, h2]
    · have h2 : -n < 0 := by omega
      simp [hlt, h2]

theorem F64.ofInt_pos_spec (D : Nat) (h0 : 0 < D) (hD : D + 2 ≤ 2 ^ 53) :
    (F64.ofInt (D : Int)).toRat = (D : ℚ) ∧ 2 ^ 52 ≤ (F64.ofInt (D : Int)).mant ∧
    (F64.ofInt (D : Int)).mant < 2 ^ 53 ∧ -52 ≤ (F64.ofInt (D : Int)).exp ∧
    (F64.ofInt (D : Int)).exp ≤ 0 := by
  have hn : (0 : Int) < (D : Int) := by exact_mod_cast h0
  have hsz : (D : Int) < 2 ^ 4096 := by
    have h1 : (D : Int) < 2 ^ 53 := by
      have : D < 2 ^ 53 := by omega
      exact_mod_cast this
    exact lt_trans h1 (by norm_num)
  have h1sz : (1 : Nat) < 2 ^ 4096 := by norm_num
  have hq : (((D : Int) : ℚ)) / ((1 : Nat) : ℚ) = (D : ℚ) := by simp
  obtain ⟨e1, e2⟩ := F64.ofRatio_exact (D : Int) 1 hn (by norm_num) hsz h1sz D hD hq
  obtain ⟨s1, s2, _⟩ := F64.ofRatio_spec (D : Int) 1 hn (by norm_num) hsz h1sz
  have hb := (F64.ofRatio_exp_bounds (D : Int) 1 hn (by norm_num) hsz h1sz 0).2 (by
    rw [hq]
    have : (1 : ℚ) ≤ (D : ℚ) := by exact_mod_cast h0
    simpa using this)
  refine ⟨e1, s1, s2, ?_, e2⟩
  simp only [F64.ofInt]
  omega

theorem F64.ofRatio_eq_ofInt_pos (n : Int) (d : Nat) (hn : 0 < n) (hd : 0 < d)
    (hnf : n < 2 ^ 4096) (hdf : d < 2 ^ 4096) (D : Nat) (h0 : 0 < D) (hD : D + 2 ≤ 2 ^ 53)
    (h : (n : ℚ) / (d : ℚ) = (D : ℚ)) : F64.ofRatio n d = F64.ofInt (D : Int) := by
  obtain ⟨e1, _⟩ := F64.ofRatio_exact n d hn hd hnf hdf D hD h
  obtain ⟨s1, s2, _⟩ := F64.ofRatio_spec n d hn hd hnf hdf
  obtain ⟨i1, i2, i3, _, _⟩ := F64.ofInt_pos_spec D h0 hD
  exact F64.eq_of_toRat_eq _ _ s1 s2 i2 i3 (by rw [e1, i1])

theorem F64.ofInt_neg (D : Int) :
    F64.ofInt (-D) = ⟨-(F64.ofInt D).mant, (F64.ofInt D).exp⟩ :=
  F64.ofRatio_neg D 1

theorem F64.ofRatio_eq_ofInt (n : Int) (d : Nat) (hd : 0 < d) (hn1 : -2 ^ 4096 < n)
    (hn2 : n < 2 ^ 4096) (hdf : d < 2 ^ 4096) (D : Int) (hD1 : -2 ^ 53 + 2 ≤ D)
    (hD2 : D + 2 ≤ 2 ^ 53) (h : (n : ℚ) / (d : ℚ) = (D : ℚ)) :
    F64.ofRatio n d = F64.ofInt D := by
  have hdq : (0 : ℚ) < (d : ℚ) := by exact_mod_cast hd
  rcases lt_trichotomy D 0 with hneg | hzero | hpos
  · obtain ⟨k, hk⟩ : ∃ k : Nat, -D = (k : Int) :=
      ⟨(-D).toNat, (Int.toNat_of_nonneg (by omega)).symm⟩
    have hDk : D = -(k : Int) := by omega
    have hk0 : 0 < k := by omega
    have hkD : k + 2 ≤ 2 ^ 53 := by omega
    have hnneg : n < 0 := by
      by_contra hcon
      have h1 : (0 : ℚ) ≤ (n : ℚ) := by exact_mod_cast (not_lt.1 hcon)
      have h2 : (0 : ℚ) ≤ (n : ℚ) / (d : ℚ) := div_nonneg h1 hdq.le
      have h3 : (D : ℚ) < 0 := by exact_mod_cast hneg
      linarith
    have hq : ((-n : Int) : ℚ) / (d : ℚ) = (k : ℚ) := by
      push_cast
      rw [neg_div, h, hDk]
      push_cast
      ring
    have hp := F64.ofRatio_eq_ofInt_pos (-n) d (by omega) hd (by omega) hdf k hk0 hkD hq
    have h1 := F64.ofRatio_neg (-n) d
    have h2 := F64.ofInt_neg (k : Int)
    rw [neg_neg] at h1
    rw [h1, hDk, h2, hp]
  · subst hzero
    have hn0 : n = 0 := by
      have h1 : (n : ℚ) / (d : ℚ) = 0 := by simpa using h
      have h2 : (n : ℚ) = 0 := by
        rcases div_eq_zero_iff.1 h1 with h3 | h3
        · exact h3
        · exact absurd h3 hdq.ne'
      exact_mod_cast h2
    subst hn0
    simp [F64.ofRatio, F64.ofInt]
  · obtain ⟨k, hk⟩ : ∃ k : Nat, D = (k : Int) := ⟨D.toNat, (Int.toNat_of_nonneg hpos.le).symm⟩
    subst hk
    have hk0 : 0 < k := by exact_mod_cast hpos
    have hkD : k + 2 ≤ 2 ^ 53 := by omega
    have hnpos : 0 < n := by
      by_contra hcon
      have h1 : (n : ℚ) ≤ 0 := by exact_mod_cast (not_lt.1 hcon)
      have h2 : (n : ℚ) / (d : ℚ) ≤ 0 := div_nonpos_of_nonpos_of_nonneg h1 hdq.le
      have h3 : (0 : ℚ) < ((k : Int) : ℚ) := by exact_mod_cast hpos
      linarith
    exact F64.ofRatio_eq_ofInt_pos n d hnpos hd hn2 hdf k hk0 hkD (by simpa using h)

theorem F64.ofInt_spec (D : Int) (hD1 : -2 ^ 53 + 2 ≤ D) (hD2 : D + 2 ≤ 2 ^ 53) :
    (F64.ofInt D).toRat = (D : ℚ) ∧ -2 ^ 53 < (F64.ofInt D).mant ∧
    (F64.ofInt D).mant < 2 ^ 53 ∧ -52 ≤ (F64.ofInt D).exp ∧ (F64.ofInt D).exp ≤ 0 := by
  rcases lt_trichotomy D 0 with hneg | hzero | hpos
  · obtain ⟨k, hk⟩ : ∃ k : Nat, -D = (k : Int) :=
      ⟨(-D).toNat, (Int.toNat_of_nonneg (by omega)).symm⟩
    have hDk : D = -(k : Int) := by omega
    obtain ⟨i1, i2, i3, i4, i5⟩ := F64.ofInt_pos_spec k (by omega) (by omega)
    rw [hDk, F64.ofInt_neg]
    refine ⟨?_, ?_, ?_, i4, i5⟩
    · simp only [F64.toRat] at i1 ⊢
      push_cast
      linarith
    · show -2 ^ 53 < -(F64.ofInt (k : Int)).mant
      omega
    · show -(F64.ofInt (k : Int)).mant < 2 ^ 53
      omega
  · subst hzero
    have h0 : F64.ofInt 0 = ⟨0, 0⟩ := by simp [F64.ofInt, F64.ofRatio]
    rw [h0]
    simp [F64.toRat]
  · obtain ⟨k, hk⟩ : ∃ k : Nat, D = (k : Int) := ⟨D.toNat, (Int.toNat_of_nonneg hpos.le).symm⟩
    subst hk
    obtain ⟨i1, i2, i3, i4, i5⟩ := F64.ofInt_pos_spec k (by omega) (by omega)
    refine ⟨by simpa using i1, by omega, i3, i4, i5⟩

theorem F64.exactDiff_toRat (a b : F64) :
    ((F64.exactDiff a b : Int) : ℚ) * (2 : ℚ) ^ (Min.min a.exp b.exp) = a.toRat - b.toRat := by
  simp only [F64.exactDiff, F64.toRat]
  obtain ⟨ka, hka⟩ : ∃ k : Nat, a.exp - Min.min a.exp b.exp = (k : Int) :=
    ⟨(a.exp - Min.min a.exp b.exp).toNat, (Int.toNat_of_nonneg (by omega)).symm⟩
  obtain ⟨kb, hkb⟩ : ∃ k : Nat, b.exp - Min.min a.exp b.exp = (k : Int) :=
    ⟨(b.exp - Min.min a.exp b.exp).toNat, (Int.toNat_of_nonneg (by omega)).symm⟩
  rw [hka, hkb, Int.toNat_natCast, Int.toNat_natCast]
  have hae : a.exp = Min.min a.exp b.exp + (ka : Int) := by omega
  have hbe : b.exp = Min.min a.exp b.exp + (kb : Int) := by omega
  generalize Min.min a.exp b.exp = mn at hae hbe
  rw [hae, hbe, zpow_add₀ (by norm_num : (2 : ℚ) ≠ 0), zpow_add₀ (by norm_num : (2 : ℚ) ≠ 0),
    zpow_natCast, zpow_natCast]
  push_cast
  ring

theorem F64.ofScaled_eq_ofInt (k e : Int) (hk1 : -2 ^ 3000 < k) (hk2 : k < 2 ^ 3000)
    (he1 : -1000 ≤ e) (he2 : e ≤ 1000) (D : Int) (hD1 : -2 ^ 53 + 2 ≤ D)
    (hD2 : D + 2 ≤ 2 ^ 53) (h : (k : ℚ) * (2 : ℚ) ^ e = (D : ℚ)) :
    F64.ofScaled k e = F64.ofInt D := by
  simp only [F64.ofScaled]
  split_ifs with hs
  · obtain ⟨j, hj⟩ : ∃ j : Nat, e = (j : Int) := ⟨e.toNat, (Int.toNat_of_nonneg hs).symm⟩
    subst hj
    rw [Int.toNat_natCast]
    have hj : j ≤ 1000 := by omega
    have hpow : (2 : Int) ^ j ≤ 2 ^ 1000 := pow_le_pow_right₀ (by norm_num) hj
    have hpos : (0 : Int) < 2 ^ j := by positivity
    have hb1 : -2 ^ 4096 < k * 2 ^ j := by
      have h1 : -(2 ^ 3000 * 2 ^ 1000) ≤ k * 2 ^ j := by
        have h2 : -k * 2 ^ j ≤ 2 ^ 3000 * 2 ^ 1000 := by
          by_cases hk : 0 ≤ -k
          · exact mul_le_mul (by omega) hpow hpos.le (by norm_num)
          · have : -k * 2 ^ j ≤ 0 := mul_nonpos_of_nonpos_of_nonneg (by omega) hpos.le
            exact le_trans this (by norm_num)
        linarith
      exact lt_of_lt_of_le (by norm_num) h1
    have hb2 : k * 2 ^ j < 2 ^ 4096 := by
      have h1 : k * 2 ^ j ≤ 2 ^ 3000 * 2 ^ 1000 := by
        by_cases hk : 0 ≤ k
        · exact mul_le_mul (by omega) hpow hpos.le (by norm_num)
        · have : k * 2 ^ j ≤ 0 := mul_nonpos_of_nonpos_of_nonneg (by omega) hpos.le
          exact le_trans this (by norm_num)
      exact lt_of_le_of_lt h1 (by norm_num)
    apply F64.ofRatio_eq_ofInt _ 1 (by norm_num) hb1 hb2 (by norm_num) D hD1 hD2
    rw [← h, zpow_natCast]
    push_cast
    ring
  · obtain ⟨j, hj⟩ : ∃ j : Nat, -e = (j : Int) :=
      ⟨(-e).toNat, (Int.toNat_of_nonneg (by omega)).symm⟩
    have hej : e = -(j : Int) := by omega
    rw [hj, Int.toNat_natCast]
    have hj2 : j ≤ 1000 := by omega
    have hd : (2 : Nat) ^ j < 2 ^ 4096 :=
      lt_of_le_of_lt (Nat.pow_le_pow_right (by norm_num) hj2) (by norm_num)
    apply F64.ofRatio_eq_ofInt k (2 ^ j) (by positivity)
      (lt_trans (by norm_num) hk1) (lt_trans hk2 (by norm_num)) hd D hD1 hD2
    rw [← h, hej, zpow_neg, zpow_natCast]
    push_cast
    field_simp

theorem F64.sub_ofInt (A B : Int) (hA1 : -2 ^ 53 + 2 ≤ A) (hA2 : A + 2 ≤ 2 ^ 53)
    (hB1 : -2 ^ 53 + 2 ≤ B) (hB2 : B + 2 ≤ 2 ^ 53) (hD1 : -2 ^ 53 + 2 ≤ A - B)
    (hD2 : A - B + 2 ≤ 2 ^ 53) :
    F64.sub (F64.ofInt A) (F64.ofInt B) = F64.ofInt (A - B) := by
  obtain ⟨a1, a2, a3, a4, a5⟩ := F64.ofInt_spec A hA1 hA2
  obtain ⟨b1, b2, b3, b4, b5⟩ := F64.ofInt_spec B hB1 hB2
  have hx := F64.exactDiff_toRat (F64.ofInt A) (F64.ofInt B)
  rw [a1, b1] at hx
  simp only [F64.sub]
  have hmn1 : -52 ≤ Min.min (F64.ofInt A).exp (F64.ofInt B).exp := by omega
  have hmn2 : Min.min (F64.ofInt A).exp (F64.ofInt B).exp ≤ 0 := by omega
  have hsize : -2 ^ 3000 < F64.exactDiff (F64.ofInt A) (F64.ofInt B) ∧
      F64.exactDiff (F64.ofInt A) (F64.ofInt B) < 2 ^ 3000 := by
    simp only [F64.exactDiff]
    obtain ⟨ka, hka⟩ : ∃ k : Nat, ((F64.ofInt A).exp -
        Min.min (F64.ofInt A).exp (F64.ofInt B).exp).toNat = k := ⟨_, rfl⟩
    obtain ⟨kb, hkb⟩ : ∃ k : Nat, ((F64.ofInt B).exp -
        Min.min (F64.ofInt A).exp (F64.ofInt B).exp).toNat = k := ⟨_, rfl⟩
    rw [hka, hkb]
    have hka2 : ka ≤ 52 := by omega
    have hkb2 : kb ≤ 52 := by omega
    have hpa : (2 : Int) ^ ka ≤ 2 ^ 52 := pow_le_pow_right₀ (by norm_num) hka2
    have hpb : (2 : Int) ^ kb ≤ 2 ^ 52 := pow_le_pow_right₀ (by norm_num) hkb2
    have hpa0 : (0 : Int) < 2 ^ ka := by positivity
    have hpb0 : (0 : Int) < 2 ^ kb := by positivity
    have hA : |(F64.ofInt A).mant * 2 ^ ka| ≤ 2 ^ 53 * 2 ^ 52 := by
      rw [abs_mul, abs_of_pos hpa0]
      exact mul_le_mul (by rw [abs_le]; constructor <;> omega) hpa hpa0.le (by norm_num)
    have hB : |(F64.ofInt B).mant * 2 ^ kb| ≤ 2 ^ 53 * 2 ^ 52 := by
      rw [abs_mul, abs_of_pos hpb0]
      exact mul_le_mul (by rw [abs_le]; constructor <;> omega) hpb hpb0.le (by norm_num)
    rw [abs_le] at hA hB
    constructor
    · have : -(2 ^ 53 * 2 ^ 52) - 2 ^ 53 * 2 ^ 52 ≤
          (F64.ofInt A).mant * 2 ^ ka - (F64.ofInt B).mant * 2 ^ kb := by linarith [hA.1, hB.2]
      exact lt_of_lt_of_le (by norm_num) this
    · have : (F64.ofInt A).mant * 2 ^ ka - (F64.ofInt B).mant * 2 ^ kb ≤
          2 ^ 53 * 2 ^ 52 + 2 ^ 53 * 2 ^ 52 := by linarith [hA.2, hB.1]
      exact lt_of_le_of_lt this (by norm_num)
  apply F64.ofScaled_eq_ofInt _ _ hsize.1 hsize.2 (by omega) (by omega) (A - B) hD1 hD2
  rw [hx]
  push_cast
  ring

theorem F64.add_ofInt (A B : Int) (hA1 : -2 ^ 53 + 2 ≤ A) (hA2 : A + 2 ≤ 2 ^ 53)
    (hB1 : -2 ^ 53 + 2 ≤ B) (hB2 : B + 2 ≤ 2 ^ 53) (hD1 : -2 ^ 53 + 2 ≤ A + B)
    (hD2 : A + B + 2 ≤ 2 ^ 53) :
    F64.add (F64.ofInt A) (F64.ofInt B) = F64.ofInt (A + B) := by
  have h := F64.sub_ofInt A (-B) hA1 hA2 (by omega) (by omega) (by omega) (by omega)
  rw [F64.ofInt_neg] at h
  simp only [F64.add]
  rw [h]
  congr 1
  ring

theorem F64.mul_ofInt (A B : Int) (hA1 : -2 ^ 53 + 2 ≤ A) (hA2 : A + 2 ≤ 2 ^ 53)
    (hB1 : -2 ^ 53 + 2 ≤ B) (hB2 : B + 2 ≤ 2 ^ 53) (hD1 : -2 ^ 53 + 2 ≤ A * B)
    (hD2 : A * B + 2 ≤ 2 ^ 53) :
    F64.mul (F64.ofInt A) (F64.ofInt B) = F64.ofInt (A * B) := by
  obtain ⟨a1, a2, a3, a4, a5⟩ := F64.ofInt_spec A hA1 hA2
  obtain ⟨b1, b2, b3, b4, b5⟩ := F64.ofInt_spec B hB1 hB2
  simp only [F64.mul]
  have hab : |(F64.ofInt A).mant * (F64.ofInt B).mant| ≤ 2 ^ 53 * 2 ^ 53 := by
    rw [abs_mul]
    exact mul_le_mul (by rw [abs_le]; constructor <;> omega)
      (by rw [abs_le]; constructor <;> omega) (abs_nonneg _) (by norm_num)
  rw [abs_le] at hab
  apply F64.ofScaled_eq_ofInt _ _ (lt_of_lt_of_le (by norm_num) hab.1)
    (lt_of_le_of_lt hab.2 (by norm_num)) (by omega) (by omega) (A * B) hD1 hD2
  simp only [F64.toRat] at a1 b1
  rw [zpow_add₀ (by norm_num : (2 : ℚ) ≠ 0)]
  push_cast
  rw [← a1, ← b1]
  ring


/-! ### Level progress of the profile -/

theorem F64.ofInt_hundred : F64.ofInt 100 = ⟨7036874417766400, -46⟩ := by decide

theorem F64.ofInt_zero : F64.ofInt 0 = ⟨0, 0⟩ := by decide

theorem Profile.progressOf_clamped (x : Int) :
    ∃ quotient, F64.div (F64.ofInt x) (F64.ofInt 100) = some quotient ∧
      Profile.progressOf x = some (Profile.clamp (F64.mul quotient (F64.ofInt 100))) := by
  simp only [Profile.progressOf, F64.div, F64.ofInt_hundred,
    show ¬ ((7036874417766400 : Int) = 0) by decide, if_false, Option.map_some']
  exact ⟨_, rfl, rfl⟩

theorem Profile.clamp_in_range (p : F64) :
    F64.ge (Profile.clamp p) (F64.ofInt 0) = true ∧
    F64.ge (F64.ofInt 100) (Profile.clamp p) = true :=
  F64.clamp_bounds _ _ _ (by decide)

theorem Profile.progressOf_nonpos (x : Int) (h : x ≤ 0) :
    Profile.progressOf x = some (F64.ofInt 0) := by
  have ha : (F64.ofInt x).mant ≤ 0 := F64.ofRatio_mant_nonpos x 1 h
  simp only [Profile.progressOf, Profile.clamp, F64.div, F64.ofInt_hundred, F64.ofInt_zero]
  simp only [show ¬ ((7036874417766400 : Int) = 0) by decide,
    show ¬ ((7036874417766400 : Int) < 0) by decide, if_false, Option.map_some']
  congr 1
  set q : F64 := (if 0 ≤ (F64.ofInt x).exp - -46 then
      F64.ofRatio ((F64.ofInt x).mant * 2 ^ ((F64.ofInt x).exp - -46).toNat)
        (7036874417766400 : Int).natAbs
    else F64.ofRatio (F64.ofInt x).mant
      ((7036874417766400 : Int).natAbs * 2 ^ (-((F64.ofInt x).exp - -46)).toNat)) with hq
  have hqm : q.mant ≤ 0 := by
    rw [hq]
    split_ifs
    · apply F64.ofRatio_mant_nonpos
      exact mul_nonpos_of_nonpos_of_nonneg ha (by positivity)
    · exact F64.ofRatio_mant_nonpos _ _ ha
  have hpm : (F64.mul q ⟨7036874417766400, -46⟩).mant ≤ 0 := by
    simp only [F64.mul]
    apply F64.ofScaled_mant_nonpos
    exact mul_nonpos_of_nonpos_of_nonneg hqm (by decide)
  have hge : F64.ge ⟨0, 0⟩ (F64.mul q ⟨7036874417766400, -46⟩) = true := by
    simp only [F64.ge, F64.exactDiff, decide_eq_true_eq, zero_mul, zero_sub, Left.nonneg_neg_iff]
    exact mul_nonpos_of_nonpos_of_nonneg hpm (by positivity)
  simp only [F64.max, hge, if_true]
  decide

theorem Profile.progressOf_ge_hundred (x : Int) (h : 100 ≤ x) (hx : x + 2 ≤ 2 ^ 53) :
    Profile.progressOf x = some (F64.ofInt 100) := by
  obtain ⟨k, hk⟩ : ∃ k : Nat, x = (k : Int) := ⟨x.toNat, (Int.toNat_of_nonneg (by omega)).symm⟩
  subst hk
  have hk100 : 100 ≤ k := by exact_mod_cast h
  obtain ⟨a1, a2, a3, a4, a5⟩ := F64.ofInt_pos_spec k (by omega) (by omega)
  -- the exponent of `x` is at least -46
  have ha6 : -46 ≤ (F64.ofInt (k : Int)).exp := by
    by_contra hcon
    have hE : (F64.ofInt (k : Int)).exp ≤ -47 := by omega
    have hz : (2 : ℚ) ^ (F64.ofInt (k : Int)).exp ≤ (2 : ℚ) ^ (-47 : Int) :=
      zpow_le_zpow_right₀ (by norm_num) hE
    have hm : ((F64.ofInt (k : Int)).mant : ℚ) ≤ (2 : ℚ) ^ 53 := by
      exact_mod_cast a3.le
    have hm0 : (0 : ℚ) ≤ ((F64.ofInt (k : Int)).mant : ℚ) := by
      have : (0 : Int) ≤ (F64.ofInt (k : Int)).mant := le_trans (by norm_num) a2
      exact_mod_cast this
    have hv : (F64.ofInt (k : Int)).toRat ≤ (2 : ℚ) ^ 53 * (2 : ℚ) ^ (-47 : Int) := by
      simp only [F64.toRat]
      exact mul_le_mul hm hz (by positivity) (by positivity)
    rw [a1] at hv
    have hk2 : (100 : ℚ) ≤ (k : ℚ) := by exact_mod_cast hk100
    norm_num at hv
    linarith
  generalize hA : F64.ofInt (k : Int) = a at a1 a2 a3 a4 a5 ha6
  obtain ⟨M, E⟩ := a
  simp only [F64.toRat] at a1
  simp only at a2 a3 a4 a5 ha6
  obtain ⟨j, hj⟩ : ∃ j : Nat, E - -46 = (j : Int) :=
    ⟨(E - -46).toNat, (Int.toNat_of_nonneg (by omega)).symm⟩
  have hEj : E = (j : Int) - 46 := by omega
  have hj46 : j ≤ 46 := by omega
  have hkq : (k : ℚ) + 2 ≤ (2 : ℚ) ^ 53 := by
    have h0 : ((k + 2 : Nat) : ℚ) ≤ ((2 ^ 53 : Nat) : ℚ) := Nat.cast_le.2 (by omega)
    push_cast at h0
    exact h0
  -- the quotient
  have hn : (0 : Int) < M * 2 ^ j := mul_pos (by omega) (by positivity)
  have hnf : M * 2 ^ j < 2 ^ 4096 := by
    have hp : (2 : Int) ^ j ≤ 2 ^ 46 := pow_le_pow_right₀ (by norm_num) hj46
    have : M * 2 ^ j ≤ 2 ^ 53 * 2 ^ 46 :=
      mul_le_mul a3.le hp (by positivity) (by norm_num)
    exact lt_of_le_of_lt this (by norm_num)
  have hratio : ((M * 2 ^ j : Int) : ℚ) / ((7036874417766400 : Nat) : ℚ) = (k : ℚ) / 100 := by
    rw [← a1, hEj, zpow_sub₀ (by norm_num : (2 : ℚ) ≠ 0), zpow_natCast]
    push_cast
    field_simp
    norm_num
  have hq1 := F64.ofRatio_lower (M * 2 ^ j) 7036874417766400 hn (by norm_num) hnf (by norm_num)
    1 (by norm_num) (by
      rw [hratio]
      have hk2 : (100 : ℚ) ≤ (k : ℚ) := by exact_mod_cast hk100
      rw [le_div_iff₀ (by norm_num)]
      simpa using hk2)
  obtain ⟨q1, q2, _⟩ := F64.ofRatio_spec (M * 2 ^ j) 7036874417766400 hn (by norm_num) hnf
    (by norm_num)
  have hqb := F64.ofRatio_exp_bounds (M * 2 ^ j) 7036874417766400 hn (by norm_num) hnf
    (by norm_num)
  have hqe1 := (hqb 47).1 (by
    rw [hratio]
    rw [div_lt_iff₀ (by norm_num)]
    norm_num at hkq ⊢
    linarith)
  have hqe2 := (hqb 0).2 (by
    rw [hratio]
    have hk2 : (100 : ℚ) ≤ (k : ℚ) := by exact_mod_cast hk100
    rw [zpow_zero, le_div_iff₀ (by norm_num)]
    simpa using hk2)
  generalize hQ : F64.ofRatio (M * 2 ^ j) 7036874417766400 = q at hq1 q1 q2 hqe1 hqe2
  obtain ⟨Mq, Eq⟩ := q
  simp only at hq1 q1 q2 hqe1 hqe2
  have hq1r : (1 : ℚ) ≤ (Mq : ℚ) * (2 : ℚ) ^ Eq := by simpa using hq1
  -- the product
  obtain ⟨i, hi⟩ : ∃ i : Nat, -(Eq + -46) = (i : Int) :=
    ⟨(-(Eq + -46)).toNat, (Int.toNat_of_nonneg (by omega)).symm⟩
  have hEi : Eq = 46 - (i : Int) := by omega
  have hi2 : i ≤ 100 := by omega
  have hpn : (0 : Int) < Mq * 7036874417766400 := mul_pos (by omega) (by norm_num)
  have hpnf : Mq * 7036874417766400 < 2 ^ 4096 := by
    have : Mq * 7036874417766400 ≤ 2 ^ 53 * 7036874417766400 :=
      mul_le_mul q2.le (le_refl _) (by norm_num) (by norm_num)
    exact lt_of_le_of_lt this (by norm_num)
  have hpd : (2 : Nat) ^ i < 2 ^ 4096 :=
    lt_of_le_of_lt (Nat.pow_le_pow_right (by norm_num) hi2) (by norm_num)
  have hpratio : ((Mq * 7036874417766400 : Int) : ℚ) / ((2 ^ i : Nat) : ℚ) =
      (Mq : ℚ) * (2 : ℚ) ^ Eq * 100 := by
    rw [hEi, zpow_sub₀ (by norm_num : (2 : ℚ) ≠ 0), zpow_natCast]
    push_cast
    field_simp
    norm_num
    ring
  have hp1 := F64.ofRatio_lower (Mq * 7036874417766400) (2 ^ i) hpn (by positivity) hpnf hpd
    100 (by norm_num) (by
      rw [hpratio]
      push_cast
      linarith [hq1r])
  obtain ⟨p1, p2, _⟩ := F64.ofRatio_spec (Mq * 7036874417766400) (2 ^ i) hpn (by positivity)
    hpnf hpd
  -- assembling
  have hdiv : F64.div (⟨M, E⟩ : F64) ⟨7036874417766400, -46⟩ = some ⟨Mq, Eq⟩ := by
    simp only [F64.div, show ¬ ((7036874417766400 : Int) = 0) by decide,
      show ¬ ((7036874417766400 : Int) < 0) by decide, if_false]
    simp only [hj, Int.toNat_natCast, Int.natCast_nonneg, if_true]
    rw [show (7036874417766400 : Int).natAbs = 7036874417766400 by decide, hQ]
  have hmul : F64.mul (⟨Mq, Eq⟩ : F64) ⟨7036874417766400, -46⟩ =
      F64.ofRatio (Mq * 7036874417766400) (2 ^ i) := by
    simp only [F64.mul, F64.ofScaled]
    have hs : ¬ ((0 : Int) ≤ Eq + -46) := by omega
    simp only [hs, if_false, hi, Int.toNat_natCast]
  simp only [Profile.progressOf, hA, F64.ofInt_hundred, hdiv, Option.map_some', hmul]
  congr 1
  generalize hP : F64.ofRatio (Mq * 7036874417766400) (2 ^ i) = p at hp1 p1 p2
  have hmax : F64.max (F64.ofInt 0) p = p := by
    have hge : F64.ge (F64.ofInt 0) p = false := by
      simp only [F64.ofInt_zero, F64.ge, F64.exactDiff, decide_eq_false_iff_not, zero_mul,
        zero_sub, not_le, Left.neg_neg_iff]
      exact mul_pos (by omega) (by positivity)
    simp only [F64.max, hge]
    simp
  have hmin : F64.ge p (F64.ofInt 100) = true := by
    apply F64.ge_of_value_le
    rw [F64.ofInt_hundred]
    norm_num
    exact hp1
  rw [F64.ofInt_hundred] at hmin
  rw [F64.ofInt_zero] at hmax
  simp only [Profile.clamp, F64.ofInt_hundred, F64.ofInt_zero, hmax, F64.min, hmin, if_true]

theorem Profile.getPlayerLevel_eq (level : Option Int) :
    Profile.getPlayerLevel level = F64.ofInt (Profile.exactLevel level) := by
  rcases level with _ | l
  · rfl
  · by_cases h : l = 0
    · subst h
      rfl
    · simp only [Profile.getPlayerLevel, idTruthy, bne_iff_ne, ne_eq, h, not_false_eq_true,
        if_true, Option.getD_some]
      congr 1
      unfold Profile.exactLevel
      split
      · simp_all
      · simp_all
      · simp_all

theorem Profile.exactLevel_eq (level : Option Int) :
    Profile.exactLevel level = level.getD 1 ∨ Profile.exactLevel level = 1 := by
  rcases level with _ | l
  · exact Or.inr rfl
  · by_cases h : l = 0
    · subst h
      exact Or.inr rfl
    · left
      unfold Profile.exactLevel
      split <;> simp_all

theorem Profile.count_eq (count : Option Int) :
    (if idTruthy count then F64.ofInt (count.getD 0) else F64.ofInt 0) =
      F64.ofInt (count.getD 0) := by
  rcases count with _ | c
  · rfl
  · by_cases h : c = 0
    · subst h
      rfl
    · simp [idTruthy, h]

theorem Profile.getNextLevelProgress_eq (monsters_killed players_killed level : Option Int)
    (hmk : |monsters_killed.getD 0| ≤ 2 ^ 40) (hpk : |players_killed.getD 0| ≤ 2 ^ 40)
    (hlevel : |level.getD 1| ≤ 2 ^ 40) :
    Profile.levelSpan level = F64.ofInt 100 ∧
    Profile.getNextLevelProgress monsters_killed players_killed level =
      Profile.progressOf (Profile.exactExp monsters_killed players_killed -
        (Profile.exactLevel level - 1) * 100) := by
  rw [abs_le] at hmk hpk hlevel
  have hL : -2 ^ 40 ≤ Profile.exactLevel level ∧ Profile.exactLevel level ≤ 2 ^ 40 := by
    rcases Profile.exactLevel_eq level with h | h <;> rw [h]
    · exact hlevel
    · constructor <;> norm_num
  generalize hLe : Profile.exactLevel level = L at hL
  generalize hMe : monsters_killed.getD 0 = MK at hmk
  generalize hPe : players_killed.getD 0 = PK at hpk
  have hlv : Profile.getPlayerLevel level = F64.ofInt L := by
    rw [Profile.getPlayerLevel_eq, hLe]
  have hexp : Profile.currentExp monsters_killed players_killed = F64.ofInt (MK + PK * 5) := by
    simp only [Profile.currentExp, Profile.count_eq]
    rw [hMe, hPe]
    rw [F64.mul_ofInt PK 5 (by omega) (by omega) (by norm_num) (by norm_num) (by omega)
      (by omega)]
    exact F64.add_ofInt MK (PK * 5) (by omega) (by omega) (by omega) (by omega) (by omega)
      (by omega)
  have hcur : Profile.currentLevelExp level = F64.ofInt ((L - 1) * 100) := by
    simp only [Profile.currentLevelExp, hlv]
    rw [F64.sub_ofInt L 1 (by omega) (by omega) (by norm_num) (by norm_num) (by omega)
      (by omega)]
    exact F64.mul_ofInt (L - 1) 100 (by omega) (by omega) (by norm_num) (by norm_num)
      (by omega) (by omega)
  have hnext : Profile.nextLevelExp level = F64.ofInt (L * 100) := by
    simp only [Profile.nextLevelExp, hlv]
    exact F64.mul_ofInt L 100 (by omega) (by omega) (by norm_num) (by norm_num)
      (by omega) (by omega)
  have hspan : Profile.levelSpan level = F64.ofInt 100 := by
    simp only [Profile.levelSpan, hnext, hcur]
    rw [F64.sub_ofInt (L * 100) ((L - 1) * 100) (by omega) (by omega) (by omega) (by omega)
      (by omega) (by omega)]
    congr 1
    ring
  refine ⟨hspan, ?_⟩
  have hdiv : F64.sub (Profile.currentExp monsters_killed players_killed)
      (Profile.currentLevelExp level) = F64.ofInt (MK + PK * 5 - (L - 1) * 100) := by
    rw [hexp, hcur]
    exact F64.sub_ofInt (MK + PK * 5) ((L - 1) * 100) (by omega) (by omega) (by omega)
      (by omega) (by omega) (by omega)
  have hx : Profile.exactExp monsters_killed players_killed - (L - 1) * 100 =
      MK + PK * 5 - (L - 1) * 100 := by
    simp only [Profile.exactExp, hMe, hPe]
    ring
  rw [hx]
  obtain ⟨quotient, hq, hp⟩ := Profile.progressOf_clamped (MK + PK * 5 - (L - 1) * 100)
  rw [hp]
  unfold Profile.getNextLevelProgress
  simp only [hdiv, hspan, hq]

set_option maxRecDepth 16384 in
theorem Profile.progressOf_table :
    (List.range 101).filter (fun x => Profile.progressOf x != some (F64.ofInt x)) =
      [7, 14, 28, 29, 55, 56, 57, 58] := by
  decide

set_option maxRecDepth 16384 in
/-- C24, as stated, fails. A player of level 1 with 7 monsters killed and no
players killed has 7 experience points above the start of the level, yet
`getNextLevelProgress` returns the binary64 number 7.000000000000001, the
product of the rounded quotient 7 / 100 by 100, which is not 7. And the divisor
is not 100 for every level: at level 2 ^ 49 it is 96, and at level 2 ^ 60 it is
0, where the result is the clamped infinity 0. -/
theorem level_progress_is_not_the_exact_ratio :
    Profile.exactExp (some 7) none - (Profile.exactLevel (some 1) - 1) * 100 = 7 ∧
    Profile.getNextLevelProgress (some 7) none (some 1) = some ⟨7881299347898369, -50⟩ ∧
    F64.ofInt 7 = ⟨7881299347898368, -50⟩ ∧
    Profile.getNextLevelProgress (some 7) none (some 1) ≠ some (F64.ofInt 7) ∧
    Profile.levelSpan (some 562949953421312) = F64.ofInt 96 ∧
    Profile.levelSpan (some 1152921504606846976) = F64.ofInt 0 ∧
    Profile.getNextLevelProgress (some 7) none (some 1152921504606846976) =
      some (F64.ofInt 0) := by
  refine ⟨by decide, by decide, by decide, by decide, by decide, by decide, by decide⟩

/-- C24 (amended): for counts and a level of magnitude at most 2 ^ 40, with
`exp = monsters_killed + 5 × players_killed` (absent counts taken as 0) and
`level = player.level` (1 when absent or 0), the divisor of
`getNextLevelProgress` is the number 100, so the division has no zero
denominator, and the result is the binary64 product by 100 of the binary64
quotient of `x = exp − (level − 1) × 100` by 100, clamped to the range from 0
to 100. The result is a number within that range; it is 0 whenever `x ≤ 0` and
100 whenever `x ≥ 100`; and for a whole `x` from 0 to 100 it is `x` itself
except for 7, 14, 28, 29, 55, 56, 57 and 58, where the rounding of the quotient
shows. -/
theorem level_progress_is_clamped_binary64 (monsters_killed players_killed level : Option Int)
    (hmk : |monsters_killed.getD 0| ≤ 2 ^ 40) (hpk : |players_killed.getD 0| ≤ 2 ^ 40)
    (hlevel : |level.getD 1| ≤ 2 ^ 40) :
    Profile.levelSpan level = F64.ofInt 100 ∧
    Profile.getNextLevelProgress monsters_killed players_killed level =
      Profile.progressOf (Profile.exactExp monsters_killed players_killed -
        (Profile.exactLevel level - 1) * 100) ∧
    (∃ r, Profile.getNextLevelProgress monsters_killed players_killed level = some r ∧
      F64.ge r (F64.ofInt 0) = true ∧ F64.ge (F64.ofInt 100) r = true) ∧
    (Profile.exactExp monsters_killed players_killed -
        (Profile.exactLevel level - 1) * 100 ≤ 0 →
      Profile.getNextLevelProgress monsters_killed players_killed level =
        some (F64.ofInt 0)) ∧
    (100 ≤ Profile.exactExp monsters_killed players_killed -
        (Profile.exactLevel level - 1) * 100 →
      Profile.getNextLevelProgress monsters_killed players_killed level =
        some (F64.ofInt 100)) ∧
    (List.range 101).filter (fun x => Profile.progressOf x != some (F64.ofInt x)) =
      [7, 14, 28, 29, 55, 56, 57, 58] := by
  obtain ⟨hspan, heq⟩ :=
    Profile.getNextLevelProgress_eq monsters_killed players_killed level hmk hpk hlevel
  have hxhi : Profile.exactExp monsters_killed players_killed -
      (Profile.exactLevel level - 1) * 100 + 2 ≤ 2 ^ 53 := by
    rw [abs_le] at hmk hpk hlevel
    have hL : -2 ^ 40 ≤ Profile.exactLevel level ∧ Profile.exactLevel level ≤ 2 ^ 40 := by
      rcases Profile.exactLevel_eq level with h | h <;> rw [h]
      · exact hlevel
      · constructor <;> norm_num
    simp only [Profile.exactExp]
    omega
  refine ⟨hspan, heq, ?_, ?_, ?_, Profile.progressOf_table⟩
  · rw [heq]
    obtain ⟨quotient, _, hq⟩ := Profile.progressOf_clamped
      (Profile.exactExp monsters_killed players_killed - (Profile.exactLevel level - 1) * 100)
    exact ⟨_, hq, Profile.clamp_in_range _⟩
  · intro hx
    rw [heq]
    exact Profile.progressOf_nonpos _ hx
  · intro hx
    rw [heq]
    exact Profile.progressOf_ge_hundred _ hx hxhi

set_option maxRecDepth 16384 in
/-- Witness of `level_progress_is_clamped_binary64`: a player of level 3 with
100 monsters and 10 players killed has 150 experience points, which is below
the 200 at which level 3 starts, and is shown at 0; with 350 monsters killed the
player is shown at 100. -/
theorem level_progress_is_clamped_binary64_witness :
    Profile.getNextLevelProgress (some 100) (some 10) (some 3) = some ⟨0, 0⟩ ∧
    Profile.getNextLevelProgress (some 350) none (some 3) = some ⟨7036874417766400, -46⟩ ∧
    Profile.getNextLevelProgress (some 100) (some 10) (some 3) = some (F64.ofInt 0) :=
  ⟨by decide, by decide,
    (level_progress_is_clamped_binary64 (some 100) (some 10) (some 3) (by decide) (by decide)
      (by decide)).2.2.2.1 (by decide)⟩

/-! ### Buying in the shop -/

theorem F64.sub_nearest (a b : F64) (ha1 : |a.mant| < 2 ^ 53) (ha2 : |a.exp| ≤ 1100)
    (hb1 : |b.mant| < 2 ^ 53) (hb2 : |b.exp| ≤ 1100) (h : F64.ge a b = true) :
    0 ≤ (F64.sub a b).mant ∧ (F64.sub a b).mant < 2 ^ 53 ∧
    |(F64.sub a b).toRat - (a.toRat - b.toRat)| ≤ (2 : ℚ) ^ (F64.sub a b).exp / 2 := by
  have hx := F64.exactDiff_toRat a b
  have hk0 : 0 ≤ F64.exactDiff a b := by simpa [F64.ge] using h
  rw [abs_lt] at ha1 hb1
  rw [abs_le] at ha2 hb2
  have hmn1 : -1100 ≤ Min.min a.exp b.exp := by omega
  have hmn2 : Min.min a.exp b.exp ≤ 1100 := by omega
  have hsize : F64.exactDiff a b < 2 ^ 2300 := by
    simp only [F64.exactDiff]
    obtain ⟨ka, hka⟩ : ∃ k : Nat, (a.exp - Min.min a.exp b.exp).toNat = k := ⟨_, rfl⟩
    obtain ⟨kb, hkb⟩ : ∃ k : Nat, (b.exp - Min.min a.exp b.exp).toNat = k := ⟨_, rfl⟩
    rw [hka, hkb]
    have hka2 : ka ≤ 2200 := by omega
    have hkb2 : kb ≤ 2200 := by omega
    have hpa : (2 : Int) ^ ka ≤ 2 ^ 2200 := pow_le_pow_right₀ (by norm_num) hka2
    have hpb : (2 : Int) ^ kb ≤ 2 ^ 2200 := pow_le_pow_right₀ (by norm_num) hkb2
    have hpa0 : (0 : Int) < 2 ^ ka := by positivity
    have hpb0 : (0 : Int) < 2 ^ kb := by positivity
    have hA : |a.mant * 2 ^ ka| ≤ 2 ^ 53 * 2 ^ 2200 := by
      rw [abs_mul, abs_of_pos hpa0]
      exact mul_le_mul (by rw [abs_le]; constructor <;> omega) hpa hpa0.le (by norm_num)
    have hB : |b.mant * 2 ^ kb| ≤ 2 ^ 53 * 2 ^ 2200 := by
      rw [abs_mul, abs_of_pos hpb0]
      exact mul_le_mul (by rw [abs_le]; constructor <;> omega) hpb hpb0.le (by norm_num)
    rw [abs_le] at hA hB
    have : a.mant * 2 ^ ka - b.mant * 2 ^ kb ≤ 2 ^ 53 * 2 ^ 2200 + 2 ^ 53 * 2 ^ 2200 := by
      linarith [hA.2, hB.1]
    exact lt_of_le_of_lt this (by norm_num)
  simp only [F64.sub]
  generalize F64.exactDiff a b = k at hx hk0 hsize
  generalize Min.min a.exp b.exp = mn at hx hmn1 hmn2
  rcases eq_or_lt_of_le hk0 with hz | hpos
  · subst hz
    have h0 : F64.ofScaled 0 mn = ⟨0, 0⟩ := by
      simp only [F64.ofScaled]
      split_ifs <;> simp [F64.ofRatio]
    rw [h0]
    refine ⟨le_refl _, by norm_num, ?_⟩
    rw [← hx]
    simp [F64.toRat]
  · simp only [F64.ofScaled]
    split_ifs with hs
    · obtain ⟨j, hj⟩ : ∃ j : Nat, mn = (j : Int) := ⟨mn.toNat, (Int.toNat_of_nonneg hs).symm⟩
      subst hj
      rw [Int.toNat_natCast]
      have hj2 : j ≤ 1100 := by omega
      have hpow : (2 : Int) ^ j ≤ 2 ^ 1100 := pow_le_pow_right₀ (by norm_num) hj2
      have hp0 : (0 : Int) < 2 ^ j := by positivity
      have hn : 0 < k * 2 ^ j := mul_pos hpos hp0
      have hnf : k * 2 ^ j < 2 ^ 4096 := by
        have : k * 2 ^ j ≤ 2 ^ 2300 * 2 ^ 1100 :=
          mul_le_mul hsize.le hpow hp0.le (by norm_num)
        exact lt_of_le_of_lt this (by norm_num)
      obtain ⟨s1, s2, s3⟩ := F64.ofRatio_spec (k * 2 ^ j) 1 hn (by norm_num) hnf (by norm_num)
      refine ⟨le_trans (by norm_num) s1, s2, ?_⟩
      have hr : ((k * 2 ^ j : Int) : ℚ) / ((1 : Nat) : ℚ) = a.toRat - b.toRat := by
        rw [← hx, zpow_natCast]
        push_cast
        ring
      rw [hr] at s3
      exact s3
    · obtain ⟨j, hj⟩ : ∃ j : Nat, -mn = (j : Int) :=
        ⟨(-mn).toNat, (Int.toNat_of_nonneg (by omega)).symm⟩
      have hmj : mn = -(j : Int) := by omega
      rw [hj, Int.toNat_natCast]
      have hj2 : j ≤ 1100 := by omega
      have hd : (2 : Nat) ^ j < 2 ^ 4096 :=
        lt_of_le_of_lt (Nat.pow_le_pow_right (by norm_num) hj2) (by norm_num)
      obtain ⟨s1, s2, s3⟩ := F64.ofRatio_spec k (2 ^ j) hpos (by positivity)
        (lt_trans hsize (by norm_num)) hd
      refine ⟨le_trans (by norm_num) s1, s2, ?_⟩
      have hr : (k : ℚ) / ((2 ^ j : Nat) : ℚ) = a.toRat - b.toRat := by
        rw [← hx, hmj, zpow_neg, zpow_natCast]
        push_cast
        field_simp
      rw [hr] at s3
      exact s3

set_option maxRecDepth 16384 in
theorem Shop.prices :
    (Shop.weapons ++ Shop.armors ++ Shop.accessories).map
        (fun item => (item.id, F64.ofDecimal item.price)) =
      [(1, ⟨7555786372591432, -76⟩), (2, ⟨4722366482869645, -73⟩),
       (3, ⟨4722366482869645, -72⟩), (4, ⟨5902958103587057, -69⟩),
       (5, ⟨7555786372591432, -76⟩), (6, ⟨4722366482869645, -73⟩),
       (7, ⟨4722366482869645, -72⟩), (8, ⟨5902958103587057, -69⟩),
       (9, ⟨7555786372591432, -75⟩), (10, ⟨4722366482869645, -73⟩),
       (11, ⟨4722366482869645, -72⟩), (12, ⟨5902958103587057, -68⟩)] := by
  decide

set_option maxRecDepth 16384 in
theorem Shop.price_range :
    ∀ item ∈ Shop.weapons ++ Shop.armors ++ Shop.accessories,
      |(F64.ofDecimal item.price).mant| < 2 ^ 53 ∧ |(F64.ofDecimal item.price).exp| ≤ 1100 := by
  decide

set_option maxRecDepth 16384 in
/-- C25, as stated, fails: a player holding 1 DOOF who buys the 0.0000001 sword
is handed to `onPlayerUpdate` with the balance 0.9999999000000001, the binary64
number nearest to the difference, which is not the old balance minus the
price. -/
theorem shop_purchase_rounds_the_balance :
    espadaBasica ∈ Shop.weapons ∧
    sampleShopPlayerOne.dooficoin_balance = ⟨4503599627370496, -52⟩ ∧
    F64.toRat ⟨4503599627370496, -52⟩ = 1 ∧
    F64.ofDecimal espadaBasica.price = ⟨7555786372591432, -76⟩ ∧
    (Shop.buyItem ⟨false⟩ sampleShopPlayerOne espadaBasica).onPlayerUpdateCalls.map
        (fun p => p.dooficoin_balance) = [⟨9007198354021067, -53⟩] ∧
    F64.toRat ⟨9007198354021067, -53⟩ ≠
      F64.toRat ⟨4503599627370496, -52⟩ - F64.toRat ⟨7555786372591432, -76⟩ := by
  refine ⟨by decide, by decide, ?_, by decide, by decide, ?_⟩
  · norm_num [F64.toRat]
  · norm_num [F64.toRat]

/-- C25 (amended): `Shop.buyItem` checks that the player has enough money, in
binary64 arithmetic. With the balance a number, `onPlayerUpdate` is called if
and only if `player.dooficoin_balance >= item.price`; it is then called once,
with a player whose balance is the number `player.dooficoin_balance -
item.price`, whose power is `player.power + item.power` when the item has a
(non-zero) power and the old power otherwise, and whose other fields are those
of the player; the success alert names the item. When the balance is
insufficient `onPlayerUpdate` is not called and the refusal alert is raised.
Loading ends false in both cases, and while nothing is loading the buy button
is enabled exactly when the purchase would succeed. For an item of the
catalogue and a balance in the range of binary64, the balance handed on is not
negative and is a binary64 number nearest to the exact difference: it differs
from it by at most half a unit in its last place. The prices of the catalogue
are the binary64 numbers nearest to the decimal literals. -/
theorem buyItem_checks_balance (s : ShopState) (player : ShopPlayer) (item : ShopItem) :
    ((Shop.buyItem s player item).onPlayerUpdateCalls ≠ [] ↔
      F64.ge player.dooficoin_balance (F64.ofDecimal item.price) = true) ∧
    (F64.ge player.dooficoin_balance (F64.ofDecimal item.price) = true →
      ∃ updatedPlayer, (Shop.buyItem s player item).onPlayerUpdateCalls = [updatedPlayer] ∧
        updatedPlayer.dooficoin_balance =
          F64.sub player.dooficoin_balance (F64.ofDecimal item.price) ∧
        updatedPlayer.rest = player.rest ∧
        (∀ p, item.power = some p → p.mantissa ≠ 0 →
          updatedPlayer.power = F64.add player.power (F64.ofDecimal p)) ∧
        (∀ p, item.power = some p → p.mantissa = 0 → updatedPlayer.power = player.power) ∧
        (item.power = none → updatedPlayer.power = player.power) ∧
        (Shop.buyItem s player item).alerts =
          ["Item " ++ item.name ++ " comprado com sucesso!"]) ∧
    (F64.ge player.dooficoin_balance (F64.ofDecimal item.price) = false →
      (Shop.buyItem s player item).onPlayerUpdateCalls = [] ∧
      (Shop.buyItem s player item).alerts = ["Saldo insuficiente para comprar este item!"]) ∧
    (Shop.buyItem s player item).state.loading = false ∧
    (Shop.buyDisabled ⟨false⟩ player item = false ↔
      F64.ge player.dooficoin_balance (F64.ofDecimal item.price) = true) ∧
    (item ∈ Shop.weapons ++ Shop.armors ++ Shop.accessories →
      |player.dooficoin_balance.mant| < 2 ^ 53 → |player.dooficoin_balance.exp| ≤ 1100 →
      ∀ updatedPlayer ∈ (Shop.buyItem s player item).onPlayerUpdateCalls,
        0 ≤ updatedPlayer.dooficoin_balance.mant ∧
        updatedPlayer.dooficoin_balance.mant < 2 ^ 53 ∧
        |updatedPlayer.dooficoin_balance.toRat -
            (player.dooficoin_balance.toRat - (F64.ofDecimal item.price).toRat)| ≤
          (2 : ℚ) ^ updatedPlayer.dooficoin_balance.exp / 2) ∧
    (Shop.weapons ++ Shop.armors ++ Shop.accessories).map
        (fun item => (item.id, F64.ofDecimal item.price)) =
      [(1, ⟨7555786372591432, -76⟩), (2, ⟨4722366482869645, -73⟩),
       (3, ⟨4722366482869645, -72⟩), (4, ⟨5902958103587057, -69⟩),
       (5, ⟨7555786372591432, -76⟩), (6, ⟨4722366482869645, -73⟩),
       (7, ⟨4722366482869645, -72⟩), (8, ⟨5902958103587057, -69⟩),
       (9, ⟨7555786372591432, -75⟩), (10, ⟨4722366482869645, -73⟩),
       (11, ⟨4722366482869645, -72⟩), (12, ⟨5902958103587057, -68⟩)] := by
  refine ⟨?_, ?_, ?_, ?_, ?_, ?_, Shop.prices⟩
  · simp only [Shop.buyItem]
    split_ifs with h <;> simp [h]
  · intro h
    refine ⟨{ player with
        dooficoin_balance := F64.sub player.dooficoin_balance (F64.ofDecimal item.price)
        power := match item.power with
          | some p => if p.mantissa != 0 then F64.add player.power (F64.ofDecimal p)
              else player.power
          | none => player.power },
      by simp only [Shop.buyItem, h, if_true], rfl, rfl, ?_, ?_, ?_, ?_⟩
    · intro p hp hm
      simp [hp, hm]
    · intro p hp hm
      simp [hp, hm]
    · intro hp
      simp [hp]
    · simp [Shop.buyItem, h]
  · intro h
    simp [Shop.buyItem, h]
  · simp only [Shop.buyItem]
    split_ifs <;> rfl
  · simp [Shop.buyDisabled, F64.lt, F64.ge]
  · intro hitem hb1 hb2 updatedPlayer hmem
    obtain ⟨hp1, hp2⟩ := Shop.price_range item hitem
    by_cases h : F64.ge player.dooficoin_balance (F64.ofDecimal item.price) = true
    · simp only [Shop.buyItem, h, if_true, List.mem_singleton] at hmem
      subst hmem
      exact F64.sub_nearest _ _ hb1 hb2 hp1 hp2 h
    · simp [Shop.buyItem, h] at hmem

set_option maxRecDepth 16384 in
/-- Witness of `buyItem_checks_balance`: with 0.0000101 DOOF and 10 power the
0.0000001 sword is bought; the player handed on has the balance
5902958103587056 × 2 ^ -69 and the power 15, and that balance is within half a
unit in the last place of the exact difference. -/
theorem buyItem_checks_balance_witness :
    (Shop.buyItem ⟨false⟩ sampleShopPlayer espadaBasica).onPlayerUpdateCalls =
      [⟨⟨5902958103587056, -69⟩, ⟨8444249301319680, -49⟩, []⟩] ∧
    |F64.toRat ⟨5902958103587056, -69⟩ -
        (sampleShopPlayer.dooficoin_balance.toRat -
          (F64.ofDecimal espadaBasica.price).toRat)| ≤ (2 : ℚ) ^ (-69 : Int) / 2 :=
  ⟨by decide,
    ((buyItem_checks_balance ⟨false⟩ sampleShopPlayer espadaBasica).2.2.2.2.2.1 (by decide)
      (by decide) (by decide) ⟨⟨5902958103587056, -69⟩, ⟨8444249301319680, -49⟩, []⟩
      (by decide)).2.2⟩

/-! ### The kill count read by the remainder -/

theorem F64.toInt?_ofInt (n : Int) (h1 : -2 ^ 53 + 2 ≤ n) (h2 : n + 2 ≤ 2 ^ 53) :
    F64.toInt? (F64.ofInt n) = some n := by
  obtain ⟨a1, _, _, a4, a5⟩ := F64.ofInt_spec n h1 h2
  generalize F64.ofInt n = a at a1 a4 a5
  obtain ⟨M, E⟩ := a
  simp only [F64.toRat] at a1
  simp only at a4 a5
  simp only [F64.toInt?]
  obtain ⟨j, hj⟩ : ∃ j : Nat, -E = (j : Int) :=
    ⟨(-E).toNat, (Int.toNat_of_nonneg (by omega)).symm⟩
  have hEj : E = -(j : Int) := by omega
  have hjpos : (0 : ℚ) < (2 : ℚ) ^ j := by positivity
  have hM : M = n * 2 ^ j := by
    rw [hEj, zpow_neg, zpow_natCast] at a1
    have h3 : (M : ℚ) = (n : ℚ) * (2 : ℚ) ^ j := by
      field_simp at a1
      exact a1
    exact_mod_cast h3
  split_ifs with hs hm
  · have hj0 : j = 0 := by omega
    subst hj0
    have hE0 : E = 0 := by omega
    subst hE0
    simp [hM]
  · rw [hj, Int.toNat_natCast, hM]
    congr 1
    exact Int.mul_ediv_cancel _ (by positivity)
  · exfalso
    apply hm
    rw [hj, Int.toNat_natCast, hM]
    exact Int.mul_emod_left _ _

theorem monstersKilled_whole (p : Player) (n : Int) (h1 : -2 ^ 53 + 2 ≤ n)
    (h2 : n + 2 ≤ 2 ^ 53) (hp : jsGet p "monsters_killed" = .num ⟨n, 0⟩) :
    monstersKilled p = some n := by
  simp only [monstersKilled, hp, JsVal.toNumber, JsNum.toF64]
  by_cases h0 : n = 0
  · subst h0
    simp [F64.toInt?]
  · have habs : n.natAbs < 2 ^ 53 := by omega
    have hbig : ¬ ((2 ^ 256) ^ 4 - (2 ^ 194) ^ 5 ≤ n.natAbs * 10 ^ (0 : Int).toNat) := by
      have h3 : (2 : Nat) ^ 53 ≤ (2 ^ 256) ^ 4 - (2 ^ 194) ^ 5 := by norm_num
      simp only [Int.toNat_zero, pow_zero, mul_one]
      omega
    have hdec : F64.ofDecimal ⟨n, 0⟩ = F64.ofInt n := by
      simp [F64.ofDecimal, F64.ofInt]
    simp only [h0, if_false, le_refl, if_true, hbig, hdec, Option.bind_some]
    exact F64.toInt?_ofInt n h1 h2

/-- C23, as stated, fails: in the initial state a 2xx kill-monster response
whose player has the kill count `null`, which is no multiple of 300, opens
phase 2 with 375 monsters, because the remainder operator reads `null` as 0. -/
theorem null_kill_count_completes_the_phase :
    jsGet samplePlayerNullKills "monsters_killed" = .null ∧
    GameArena.init = ⟨300, 1, false⟩ ∧
    (GameArena.killMonster GameArena.init 1
      (.response 200 (.ok ⟨.val samplePlayerNullKills⟩))).state = ⟨375, 2, false⟩ := by
  refine ⟨by decide, by decide, by decide⟩

set_option maxRecDepth 16384 in
theorem monstersKilled_coercions :
    monstersKilled [("monsters_killed", .null)] = some 0 ∧
    monstersKilled [("monsters_killed", .bool false)] = some 0 ∧
    monstersKilled [("monsters_killed", .bool true)] = some 1 ∧
    monstersKilled [("monsters_killed", .str "")] = some 0 ∧
    monstersKilled [("monsters_killed", .str " 600 ")] = some 600 ∧
    monstersKilled [("monsters_killed", .str "3e2")] = some 300 ∧
    monstersKilled [("monsters_killed", .str "0x12c")] = some 300 ∧
    monstersKilled [("monsters_killed", .str "300.5")] = none ∧
    monstersKilled [("monsters_killed", .str "300 kills")] = none ∧
    monstersKilled [("monsters_killed", .num ⟨3005, -1⟩)] = none ∧
    monstersKilled [("monsters_killed", .num ⟨9007199254740993, 0⟩)] =
      some 9007199254740992 ∧
    monstersKilled [("monsters_killed", .undefined)] = none ∧
    monstersKilled [] = none := by
  refine ⟨by decide, by decide, by decide, by decide, by decide, by decide, by decide,
    by decide, by decide, by decide, by decide, by decide, by decide⟩

/-- C23 (amended): each arena phase has 25% more monsters than the previous
one. The arena starts with 300 monsters in phase 1. In every state reached from
there, a 2xx kill-monster response with a player whose `monsters_killed`,
converted to a number as the remainder operator does, is a whole multiple of
`monstersInPhase` raises `currentPhase` by exactly 1 and, while
`monstersInPhase` is at most 2 ^ 50 so that its product by 1.25 is exact in
binary64, replaces `monstersInPhase` by the floor of 1.25 times its value; a
response whose count converts to anything else, a response without a player, a failure of the
request, and every outcome of `selfEliminate` and `die` leave both unchanged.
The conversion reads a whole number of magnitude below 2 ^ 53 as itself, `null`,
`false` and the empty text as 0, `true` as 1, a numeric text as its number, and
an absent count or a text that is no number as `NaN`, which is no multiple. -/
theorem phase_completion_adds_a_quarter (events : List ArenaEvent) (playerId : Int)
    (o : Fetched PlayerPayload) (status : Nat) (p : Player) (k : Int) :
    GameArena.init.monstersInPhase = 300 ∧ GameArena.init.currentPhase = 1 ∧
    (httpOk status = true → monstersKilled p = some k →
      Int.tmod k (GameArena.run GameArena.init events).monstersInPhase = 0 →
      (GameArena.killMonster (GameArena.run GameArena.init events) playerId
          (.response status (.ok ⟨.val p⟩))).state.currentPhase =
        (GameArena.run GameArena.init events).currentPhase + 1 ∧
      ((GameArena.run GameArena.init events).monstersInPhase ≤ 2 ^ 50 →
        (GameArena.killMonster (GameArena.run GameArena.init events) playerId
            (.response status (.ok ⟨.val p⟩))).state.monstersInPhase =
          ⌊(5 / 4 : ℚ) * ((GameArena.run GameArena.init events).monstersInPhase : ℚ)⌋)) ∧
    ((∀ j, monstersKilled p = some j →
        Int.tmod j (GameArena.run GameArena.init events).monstersInPhase ≠ 0) →
      (GameArena.killMonster (GameArena.run GameArena.init events) playerId
          (.response status (.ok ⟨.val p⟩))).state =
        { GameArena.run GameArena.init events with loading := false }) ∧
    (GameArena.killMonster (GameArena.run GameArena.init events) playerId
        (.response status (.ok ⟨.null⟩))).state =
      { GameArena.run GameArena.init events with loading := false } ∧
    (GameArena.killMonster (GameArena.run GameArena.init events) playerId
        (.response status (.ok ⟨.undefined⟩))).state =
      { GameArena.run GameArena.init events with loading := false } ∧
    (o.decoded2xx = false →
      (GameArena.killMonster (GameArena.run GameArena.init events) playerId o).state =
        { GameArena.run GameArena.init events with loading := false }) ∧
    (GameArena.selfEliminate (GameArena.run GameArena.init events) playerId o).state =
      { GameArena.run GameArena.init events with loading := false } ∧
    (GameArena.die (GameArena.run GameArena.init events) playerId o).state =
      { GameArena.run GameArena.init events with loading := false } ∧
    (-2 ^ 53 + 2 ≤ k → k + 2 ≤ 2 ^ 53 → jsGet p "monsters_killed" = .num ⟨k, 0⟩ →
      monstersKilled p = some k) ∧
    (jsGet p "monsters_killed" = .null → monstersKilled p = some 0) ∧
    (jsGet p "monsters_killed" = .bool false → monstersKilled p = some 0) ∧
    (jsGet p "monsters_killed" = .bool true → monstersKilled p = some 1) ∧
    (jsGet p "monsters_killed" = .str "" → monstersKilled p = some 0) ∧
    (jsGet p "monsters_killed" = .undefined → monstersKilled p = none) ∧
    monstersKilled [("monsters_killed", .str " 600 ")] = some 600 ∧
    monstersKilled [("monsters_killed", .str "3e2")] = some 300 ∧
    monstersKilled [("monsters_killed", .str "0x12c")] = some 300 ∧
    monstersKilled [("monsters_killed", .str "300.5")] = none ∧
    monstersKilled [("monsters_killed", .str "300 kills")] = none ∧
    monstersKilled [("monsters_killed", .num ⟨3005, -1⟩)] = none ∧
    monstersKilled [("monsters_killed", .num ⟨9007199254740993, 0⟩)] =
      some 9007199254740992 := by
  have hge := GameArena.reachable_monstersInPhase_ge events
  generalize GameArena.run GameArena.init events = s at hge ⊢
  have hne : s.monstersInPhase ≠ 0 := by omega
  obtain ⟨c1, c2, c3, c4, c5, c6, c7, c8, c9, c10, c11, c12, c13⟩ := monstersKilled_coercions
  refine ⟨rfl, rfl, ?_, ?_, ?_, ?_, ?_, GameArena.simpleAction_state _ s playerId o,
    GameArena.simpleAction_state _ s playerId o, monstersKilled_whole p k, ?_, ?_, ?_, ?_, ?_,
    c5, c6, c7, c8, c9, c10, c11⟩
  · intro hok hk hmul
    rw [floor_five_quarters]
    simp [GameArena.killMonster, GameArena.pending, hok, hk, hmul, hne]
  · intro hnot
    simp only [GameArena.killMonster, GameArena.pending]
    split_ifs with h1 h2
    · exfalso
      rcases h2 with ⟨_, h2⟩
      rcases hn : monstersKilled p with _ | j
      · simp [hn] at h2
      · simp [hn] at h2
        exact hnot j hn h2
    · rfl
    · rfl
  · simp only [GameArena.killMonster, GameArena.pending]
    split_ifs <;> rfl
  · simp only [GameArena.killMonster, GameArena.pending]
    split_ifs <;> rfl
  · intro hfail
    rcases o with msg | ⟨st, msg | data⟩
    · rfl
    · simp only [GameArena.killMonster, GameArena.pending]
      split_ifs <;> rfl
    · have hst : httpOk st = false := by simpa [Fetched.decoded2xx] using hfail
      simp [GameArena.killMonster, GameArena.pending, hst]
  · intro h
    simp [monstersKilled, h, JsVal.toNumber, F64.toInt?]
  · intro h
    simp [monstersKilled, h, JsVal.toNumber, F64.toInt?]
  · intro h
    simp only [monstersKilled, h, JsVal.toNumber]
    decide
  · intro h
    simp only [monstersKilled, h, JsVal.toNumber]
    decide
  · intro h
    simp [monstersKilled, h, JsVal.toNumber]

set_option maxRecDepth 16384 in
/-- Witness of `phase_completion_adds_a_quarter`: in the initial state a
response reporting 300 kills opens phase 2 with 375 monsters. -/
theorem phase_completion_adds_a_quarter_witness :
    (GameArena.killMonster GameArena.init 1
      (.response 200 (.ok ⟨.val samplePlayer300⟩))).state = ⟨375, 2, false⟩ ∧
    (GameArena.killMonster (GameArena.run GameArena.init []) 1
        (.response 200 (.ok ⟨.val samplePlayer300⟩))).state.monstersInPhase =
      ⌊(5 / 4 : ℚ) * ((GameArena.run GameArena.init []).monstersInPhase : ℚ)⌋ :=
  ⟨by decide, ((phase_completion_adds_a_quarter [] 1 (.failed "unused") 200 samplePlayer300
    300).2.2.1 (by decide) (by decide) (by decide)).2 (by decide)⟩

end Dooficoin
